import Mathlib

/-!
# MyHomeApp: remote session client, pool monitor and alert dispatch

A shallow embedding of the Go packages `internal/api` (the Aseko session
client and `GetLights` of the Hue client), `internal/monitoring` (the pool
monitor), `internal/alerting` (the alert service) and `internal/config`
(`LoadConfig`) and of the start-up sequence of `cmd/server`, followed by
theorems about them.

Conventions of the embedding.

* Every Go method that mutates its receiver becomes a function that takes
  the receiver state and the `World` and returns the new ones.
* A Go `error` result is `Res.err`, a `nil` error is `Res.ok`, and a
  run-time panic (slice out of range, nil dereference, closing a closed
  channel, a ticker with an interval that is not positive) is `Res.panic`.
* `SelectUnit` and `Initialize` call each other.  They are defined by
  recursion on a fuel argument; `none` means that the fuel ran out before
  the call returned.
* A `float64` is a `Float64`: a finite value held as an exact rational, an
  infinity or NaN. Subtraction rounds the exact difference to the nearest
  float64 (ties to even, overflow to an infinity, gradual underflow);
  negation and the comparisons are exact, and every comparison with NaN is
  false. The two zeros are one value.
* The remote server, the clock, the SMTP alerter and the library functions
  `strconv.ParseFloat` and `fmt.Sprintf` are parameters, collected in `Env`.
  Of `strconv.ParseFloat` the parameter says what the string is (a number in
  range, not a number, a number out of range); the value returned with each
  error is fixed by `ParseFloat`.
* Building an HTTP request (`json.Marshal`, `http.NewRequest`) is taken to
  succeed: the request bodies are fixed and the URL is the configured one.
-/

namespace MyHomeApp

/-! ## Results -/

/-- Where an error value was created: one constructor for each `fmt.Errorf`
of the modelled code, `wrap` for the `%w` wrappers. -/
inductive Err where
  | doFailed
  | readFailed
  | badJSON
  | noToken
  | unitNotFound (sn : String)
  | accessDenied (sn : String)
  | neverConnected (sn : String)
  | emptyTypename (sn : String)
  | unknownType (typename : String)
  | emptyAfterReconnect (sn : String)
  | noUnitSelected
  | serviceDisabled
  | emailDisabled
  | smtp (detail : String)
  | sendTo (email : String) (cause : Err)
  | sendAlerts (errors : List Err)
  | wrap (context : String) (cause : Err)
  | required (what : String)
  | badDuration
  | notExist (path : String)
  | badYAML
  | notANumber (s : String)
  | outOfRange (s : String)
  deriving Repr

/-- Outcome of a Go call: normal return, returned `error`, or panic. -/
inductive Res (α : Type) where
  | ok (a : α)
  | err (e : Err)
  | panic
  deriving Repr

/-- The call returned without an error. -/
def Res.isOk {α : Type} : Res α → Bool
  | Res.ok _ => true
  | _ => false

/-- The call returned an `error`. -/
def Res.isErr {α : Type} : Res α → Bool
  | Res.err _ => true
  | _ => false

/-! ## float64 -/

/-- A Go `float64`: a finite value, an infinity or NaN. -/
inductive Float64 where
  | finite (q : ℚ)
  | posInf
  | negInf
  | nan
  deriving Repr, DecidableEq

/-- The quotient `n / d` rounded to the nearest natural number, a tie to the
even one. -/
def roundHalfEven (n d : Nat) : Nat :=
  if 2 * (n % d) < d then n / d
  else if d < 2 * (n % d) then n / d + 1
  else if (n / d) % 2 = 0 then n / d else n / d + 1

/-- The position of the leading bit of `n` (0 for `n < 2`), by halving at
most `fuel` times. -/
def floorLog2 : Nat → Nat → Nat
  | 0, _ => 0
  | fuel + 1, n => if n < 2 then 0 else floorLog2 fuel (n / 2) + 1

/-- The exponent `e` of the last place of a float64 of magnitude `n / d`:
`2 ^ 52 ≤ n / d / 2 ^ e < 2 ^ 53`, and not below the subnormal exponent
`-1074`. -/
def ulpExponent (n d : Nat) : Int :=
  let k : Int := (floorLog2 n n : Int) - (floorLog2 d d : Int)
  let e : Int := if n * 2 ^ (-k).toNat < d * 2 ^ k.toNat then k - 53 else k - 52
  max e (-1074)

/-- The float64 nearest to the rational `q` (IEEE 754 round to nearest, ties
to even): an infinity from `2 ^ 1024 - 2 ^ 970` on. -/
def Float64.round (q : ℚ) : Float64 :=
  if q = 0 then Float64.finite 0
  else
    let e := ulpExponent q.num.natAbs q.den
    let m := roundHalfEven (q.num.natAbs * 2 ^ (-e).toNat) (q.den * 2 ^ e.toNat)
    if 2 ^ 1024 ≤ m * 2 ^ e.toNat then (if q < 0 then Float64.negInf else Float64.posInf)
    else
      Float64.finite
        (mkRat ((if q < 0 then -1 else 1) * ((m * 2 ^ e.toNat : Nat) : Int)) (2 ^ (-e).toNat))

/-- The unary minus of float64: exact. -/
def Float64.neg : Float64 → Float64
  | Float64.finite q => Float64.finite (-q)
  | Float64.posInf => Float64.negInf
  | Float64.negInf => Float64.posInf
  | Float64.nan => Float64.nan

/-- The subtraction of float64: the exact difference, rounded. -/
def Float64.sub : Float64 → Float64 → Float64
  | Float64.finite a, Float64.finite b => Float64.round (a - b)
  | Float64.finite _, Float64.posInf => Float64.negInf
  | Float64.finite _, Float64.negInf => Float64.posInf
  | Float64.posInf, Float64.finite _ => Float64.posInf
  | Float64.posInf, Float64.negInf => Float64.posInf
  | Float64.negInf, Float64.finite _ => Float64.negInf
  | Float64.negInf, Float64.posInf => Float64.negInf
  | _, _ => Float64.nan

/-- The comparison `<` of float64: false whenever an operand is NaN. -/
def Float64.lt : Float64 → Float64 → Bool
  | Float64.finite a, Float64.finite b => decide (a < b)
  | Float64.finite _, Float64.posInf => true
  | Float64.negInf, Float64.finite _ => true
  | Float64.negInf, Float64.posInf => true
  | _, _ => false

instance : Neg Float64 := ⟨Float64.neg⟩

instance : Sub Float64 := ⟨Float64.sub⟩

instance : LT Float64 := ⟨fun a b => Float64.lt a b = true⟩

instance (a b : Float64) : Decidable (a < b) :=
  inferInstanceAs (Decidable (Float64.lt a b = true))

instance (n : Nat) : OfNat Float64 n := ⟨Float64.finite n⟩

/-! ## api: data model -/

/-- One element of `StatusValues.Primary` / `Secondary` of `UnitResponse`
(the fields read by the code: `Type`, `Center.Value`, `BottomRight`,
`BottomLeft.Prefix`, `BottomLeft.Suffix`). -/
structure StatusValue where
  Type_ : String
  CenterValue : String
  BottomRight : String
  BottomLeftPrefix : String
  BottomLeftSuffix : String
  deriving Repr, DecidableEq

/-- The record `UnitResponse.Data.UnitBySerialNumber`. -/
structure UnitResponse where
  Typename : String
  SerialNumber : String
  Name : String
  Primary : List StatusValue
  Secondary : List StatusValue
  deriving Repr, DecidableEq

/-- One element of `UnitListResponse.Data.Units.Units`. -/
structure UnitListEntry where
  SerialNumber : String
  Name : String
  Online : Bool
  deriving Repr, DecidableEq

/-- The decoded unit list, `UnitListResponse.Data.Units.Units`. -/
structure UnitListResponse where
  Units : List UnitListEntry
  deriving Repr, DecidableEq

/-- The mutable fields of `AsekoClient`; `none` is a nil pointer. -/
structure AsekoClient where
  token : String
  unitList : Option UnitListResponse
  selectedUnit : Option UnitResponse
  deriving Repr, DecidableEq

/-- An HTTP request issued by the client. `unitDetail` is the detail query
of `SelectUnit`, `unitDetailRetry` the one of `selectUnitAfterReconnect`;
both carry the bearer token and the serial number asked for. -/
inductive Request where
  | login
  | unitList (token : String)
  | unitDetail (token : String) (sn : String)
  | unitDetailRetry (token : String) (sn : String)
  deriving Repr, DecidableEq

/-- What came back for a request: `httpClient.Do` failed, `io.ReadAll`
failed, `json.Unmarshal` failed, or the decoded body. -/
inductive Reply (α : Type) where
  | doFailed
  | readFailed
  | badJSON
  | ok (body : α)
  deriving Repr

/-! ## alerting: data model -/

/-- The type `alerting.Priority`. -/
inductive Priority where
  | PriorityLow
  | PriorityNormal
  | PriorityHigh
  | PriorityCritical
  deriving Repr, DecidableEq

/-- The type `alerting.Message`; the zero `time.Time` is timestamp `0`. -/
structure Message where
  Subject : String
  Body : String
  Timestamp : Nat
  Priority : Priority
  deriving Repr, DecidableEq

/-- The type `alerting.Receiver`. -/
structure Receiver where
  Email : String
  Name : String
  deriving Repr, DecidableEq

/-- The value behind the `Alerter` interface held by an `AlertService`:
whether it reports itself enabled, and the outcome of its `Send` given the
sends handed to it before (`none` is a nil error). -/
structure Alerter where
  IsEnabled : Bool
  Send : List (Message × Receiver) → Message → Receiver → Option Err

/-- The type `alerting.AlertService`; `emailAlerter = none` is a nil
interface value. -/
structure AlertService where
  emailAlerter : Option Alerter
  enabled : Bool

/-! ## The environment and the world -/

/-- A call observed during a run, recorded on entry (`send` on return, with
the error it returned). -/
inductive Event where
  | sendTemperatureAlert (alertType : String) (current expected delta : Float64)
  | sendWaterFlowAlert
  | send (receiver : Receiver) (result : Option Err)
  deriving Repr

/-- What `strconv.ParseFloat(s, 64)` makes of a string: a number within the
float64 range, rounded (the spellings of NaN and of the infinities
included); not a number (`ErrSyntax`); or a number beyond the float64 range
(`ErrRange`), with its sign. -/
inductive Parsed where
  | number (v : Float64)
  | malformed
  | outOfRange (negative : Bool)
  deriving Repr, DecidableEq

/-- Everything outside the program. The server answers a request knowing
the whole request log, the current request last. `clock n` is the value of
the `n`-th call of `time.Now()`. -/
structure Env where
  login : List Request → Reply String
  units : List Request → Reply UnitListResponse
  detail : List Request → Reply UnitResponse
  clock : Nat → Nat
  parseFloat : String → Parsed
  formatFloat1 : Float64 → String
  formatTime : Nat → String

/-- The observable history of a run. -/
structure World where
  requests : List Request
  ticks : Nat
  emails : List (Message × Receiver)
  trace : List Event

/-- The empty history. -/
def World.init : World :=
  { requests := [], ticks := 0, emails := [], trace := [] }

/-- The call `time.Now()`. -/
def timeNow (env : Env) (w : World) : Nat × World :=
  (env.clock w.ticks, { w with ticks := w.ticks + 1 })

/-- Issue a request: append it to the log. -/
def World.issue (w : World) (r : Request) : World :=
  { w with requests := w.requests ++ [r] }

/-- Record an observed call. -/
def World.record (w : World) (e : Event) : World :=
  { w with trace := w.trace ++ [e] }

/-! ## api: the session client -/

/-- Result of a client call: outcome, client afterwards, world afterwards. -/
abbrev Step (α : Type) : Type := Res α × AsekoClient × World

/-- The method `AsekoClient.Login`. The expression `loginResp.Token[:10]` in
the success log line panics when the token is shorter than ten bytes. -/
def Login (env : Env) (c : AsekoClient) (w : World) : Step Unit :=
  let w1 := w.issue Request.login
  match env.login w1.requests with
  | Reply.doFailed => (Res.err (Err.wrap "error making login request" Err.doFailed), c, w1)
  | Reply.readFailed => (Res.err (Err.wrap "error reading response body" Err.readFailed), c, w1)
  | Reply.badJSON => (Res.err (Err.wrap "error decoding login response" Err.badJSON), c, w1)
  | Reply.ok token =>
    if token = "" then (Res.err Err.noToken, c, w1)
    else if token.utf8ByteSize < 10 then (Res.panic, c, w1)
    else (Res.ok (), { c with token := token }, w1)

/-- The method `AsekoClient.fetchUnitList`. -/
def fetchUnitList (env : Env) (c : AsekoClient) (w : World) : Step Unit :=
  let w1 := w.issue (Request.unitList c.token)
  match env.units w1.requests with
  | Reply.doFailed => (Res.err (Err.wrap "error making unit request" Err.doFailed), c, w1)
  | Reply.readFailed => (Res.err (Err.wrap "error reading unit response body" Err.readFailed), c, w1)
  | Reply.badJSON => (Res.err (Err.wrap "error decoding unit list response" Err.badJSON), c, w1)
  | Reply.ok unitResponse => (Res.ok (), { c with unitList := some unitResponse }, w1)

/-- The method `AsekoClient.selectUnitAfterReconnect`. -/
def selectUnitAfterReconnect (env : Env) (serialNumber : String) (c : AsekoClient)
    (w : World) : Step Unit :=
  let w1 := w.issue (Request.unitDetailRetry c.token serialNumber)
  match env.detail w1.requests with
  | Reply.doFailed => (Res.err (Err.wrap "error making request" Err.doFailed), c, w1)
  | Reply.readFailed => (Res.err (Err.wrap "error reading response" Err.readFailed), c, w1)
  | Reply.badJSON => (Res.err (Err.wrap "error parsing response" Err.badJSON), c, w1)
  | Reply.ok unitResp =>
    if unitResp.SerialNumber = "" then (Res.err (Err.emptyAfterReconnect serialNumber), c, w1)
    else if unitResp.Typename = "UnitNotFoundError" then
      (Res.err (Err.unitNotFound serialNumber), c, w1)
    else if unitResp.Typename = "UnitAccessDeniedError" then
      (Res.err (Err.accessDenied serialNumber), c, w1)
    else if unitResp.Typename = "UnitNeverConnected" then
      (Res.err (Err.neverConnected serialNumber), c, w1)
    else (Res.ok (), { c with selectedUnit := some unitResp }, w1)

/-- The body of `AsekoClient.Initialize`, with the `SelectUnit` it calls as
a parameter. -/
def InitializeWith (env : Env) (select : String → AsekoClient → World → Option (Step Unit))
    (c : AsekoClient) (w : World) : Option (Step Unit) :=
  match Login env c w with
  | (Res.err e, c1, w1) => some (Res.err (Err.wrap "error logging in" e), c1, w1)
  | (Res.panic, c1, w1) => some (Res.panic, c1, w1)
  | (Res.ok _, c1, w1) =>
    match fetchUnitList env c1 w1 with
    | (Res.err e, c2, w2) => some (Res.err (Err.wrap "error fetching unit list" e), c2, w2)
    | (Res.panic, c2, w2) => some (Res.panic, c2, w2)
    | (Res.ok _, c2, w2) =>
      match c2.unitList with
      | none => some (Res.ok (), c2, w2)
      | some unitList =>
        match unitList.Units with
        | [] => some (Res.ok (), c2, w2)
        | first :: _ =>
          let serialNumber := first.SerialNumber
          match select serialNumber c2 w2 with
          | none => none
          | some (Res.ok _, c3, w3) => some (Res.ok (), c3, w3)
          | some (Res.panic, c3, w3) => some (Res.panic, c3, w3)
          | some (Res.err _, c3, w3) =>
            match Login env c3 w3 with
            | (Res.err e, c4, w4) => some (Res.err (Err.wrap "error refreshing token" e), c4, w4)
            | (Res.panic, c4, w4) => some (Res.panic, c4, w4)
            | (Res.ok _, c4, w4) =>
              match select serialNumber c4 w4 with
              | none => none
              | some (Res.ok _, c5, w5) => some (Res.ok (), c5, w5)
              | some (Res.panic, c5, w5) => some (Res.panic, c5, w5)
              | some (Res.err e, c5, w5) =>
                some (Res.err (Err.wrap "error selecting first unit after token refresh" e), c5, w5)

/-- The method `AsekoClient.SelectUnit`. One unit of fuel is spent on each
entry; the reconnect inside runs `Initialize` on the remaining fuel. -/
def SelectUnit (env : Env) : Nat → String → AsekoClient → World → Option (Step Unit)
  | 0, _, _, _ => none
  | fuel + 1, serialNumber, c, w =>
    let w1 := w.issue (Request.unitDetail c.token serialNumber)
    match env.detail w1.requests with
    | Reply.doFailed => some (Res.err (Err.wrap "error making request" Err.doFailed), c, w1)
    | Reply.readFailed => some (Res.err (Err.wrap "error reading response" Err.readFailed), c, w1)
    | Reply.badJSON => some (Res.err (Err.wrap "error parsing response" Err.badJSON), c, w1)
    | Reply.ok unitResp =>
      if unitResp.SerialNumber = "" then
        match InitializeWith env (SelectUnit env fuel) c w1 with
        | none => none
        | some (Res.err e, c2, w2) => some (Res.err (Err.wrap "failed to reconnect" e), c2, w2)
        | some (Res.panic, c2, w2) => some (Res.panic, c2, w2)
        | some (Res.ok _, c2, w2) => some (selectUnitAfterReconnect env serialNumber c2 w2)
      else if unitResp.Typename = "UnitNotFoundError" then
        some (Res.err (Err.unitNotFound serialNumber), c, w1)
      else if unitResp.Typename = "UnitAccessDeniedError" then
        some (Res.err (Err.accessDenied serialNumber), c, w1)
      else if unitResp.Typename = "UnitNeverConnected" then
        some (Res.ok (), { c with selectedUnit := some unitResp }, w1)
      else if unitResp.Typename = "Unit" then
        some (Res.ok (), { c with selectedUnit := some unitResp }, w1)
      else if unitResp.Typename = "" then
        if unitResp.SerialNumber ≠ "" then
          some (Res.ok (), { c with selectedUnit := some unitResp }, w1)
        else some (Res.err (Err.emptyTypename serialNumber), c, w1)
      else some (Res.err (Err.unknownType unitResp.Typename), c, w1)

/-- The method `AsekoClient.Initialize`. -/
def Initialize (env : Env) (fuel : Nat) (c : AsekoClient) (w : World) : Option (Step Unit) :=
  InitializeWith env (SelectUnit env fuel) c w

/-- The two results of `strconv.ParseFloat(s, 64)`: the value and the
error. With `ErrSyntax` the value is 0, with `ErrRange` it is the infinity
of the number's sign. -/
def ParseFloat (env : Env) (s : String) : Float64 × Option Err :=
  match env.parseFloat s with
  | Parsed.number v => (v, none)
  | Parsed.malformed => (0, some (Err.notANumber s))
  | Parsed.outOfRange negative =>
    (if negative = true then Float64.negInf else Float64.posInf, some (Err.outOfRange s))

/-- The element type of the map returned by `GetMeasurements`. -/
structure Measurement where
  Value : Float64
  Unit : String
  UpdatedAt : Nat
  deriving Repr, DecidableEq

/-- A Go `map[string]Measurement`: an association list with distinct keys. -/
abbrev MeasurementMap : Type := List (String × Measurement)

/-- The map read `m[key]` in its two-result form. -/
def MeasurementMap.get (m : MeasurementMap) (key : String) : Option Measurement :=
  List.lookup key m

/-- The map write `m[key] = v`. -/
def MeasurementMap.set (m : MeasurementMap) (key : String) (v : Measurement) : MeasurementMap :=
  (key, v) :: m.filter (fun kv => kv.1 ≠ key)

/-- One iteration of the loop of `GetMeasurements` over the primary status
values. The error of `strconv.ParseFloat` is dropped (`value, _ :=`). -/
def processStatusValue (env : Env) (acc : MeasurementMap × World) (statusValue : StatusValue) :
    MeasurementMap × World :=
  if statusValue.Type_ = "REDOX" then
    let value := (ParseFloat env statusValue.CenterValue).1
    let unit := if statusValue.BottomRight = "" then "mV" else statusValue.BottomRight
    let t := timeNow env acc.2
    (acc.1.set "Redox" { Value := value, Unit := unit, UpdatedAt := t.1 }, t.2)
  else if statusValue.Type_ = "PH" then
    let value := (ParseFloat env statusValue.CenterValue).1
    let t := timeNow env acc.2
    (acc.1.set "PH" { Value := value, Unit := "", UpdatedAt := t.1 }, t.2)
  else if statusValue.Type_ = "WATER_TEMPERATURE" then
    let value := (ParseFloat env statusValue.CenterValue).1
    let unit := if statusValue.BottomRight = "" then "°C" else statusValue.BottomRight
    let t := timeNow env acc.2
    (acc.1.set "Temp" { Value := value, Unit := unit, UpdatedAt := t.1 }, t.2)
  else if statusValue.Type_ = "WATER_FLOW_TO_PROBES" then
    let value : Float64 := if statusValue.CenterValue = "YES" then 1 else 0
    let displayValue := if statusValue.CenterValue = "YES" then "YES" else "NO"
    let t := timeNow env acc.2
    (acc.1.set "WaterFlow" { Value := value, Unit := displayValue, UpdatedAt := t.1 }, t.2)
  else acc

/-- The method `AsekoClient.GetMeasurements`. -/
def GetMeasurements (env : Env) (fuel : Nat) (c : AsekoClient) (w : World) :
    Option (Step MeasurementMap) :=
  match c.selectedUnit with
  | none => some (Res.err Err.noUnitSelected, c, w)
  | some selected =>
    match SelectUnit env fuel selected.SerialNumber c w with
    | none => none
    | some (Res.err e, c1, w1) => some (Res.err (Err.wrap "error refreshing unit data" e), c1, w1)
    | some (Res.panic, c1, w1) => some (Res.panic, c1, w1)
    | some (Res.ok _, c1, w1) =>
      match c1.selectedUnit with
      | none => some (Res.panic, c1, w1)
      | some refreshed =>
        let r := refreshed.Primary.foldl (processStatusValue env) ([], w1)
        some (Res.ok r.1, c1, r.2)

/-! ## alerting: the alert service -/

/-- The method `AlertService.IsEnabled`. -/
def AlertService.IsEnabled (s : AlertService) : Bool := s.enabled

/-- The delivery part of `AlertService.Send`, after the enabled check and
the timestamp default: hand the message to the email alerter when there is
one, it is enabled and the receiver has an address. -/
def AlertService.deliver (s : AlertService) (message : Message) (receiver : Receiver)
    (w : World) : Option Err × World :=
  match s.emailAlerter with
  | none => (none, w)
  | some alerter =>
    if alerter.IsEnabled = true ∧ receiver.Email ≠ "" then
      let w1 := { w with emails := w.emails ++ [(message, receiver)] }
      match alerter.Send w.emails message receiver with
      | some e => (some (Err.wrap "failed to send email alert" e), w1)
      | none => (none, w1)
    else (none, w)

/-- The method `AlertService.Send`; the call and its result are recorded in
the trace when it returns. -/
def AlertService.Send (s : AlertService) (env : Env) (message : Message) (receiver : Receiver)
    (w : World) : Option Err × World :=
  if s.enabled = false then
    (some Err.serviceDisabled, w.record (Event.send receiver (some Err.serviceDisabled)))
  else
    let stamped : Message × World :=
      if message.Timestamp = 0 then
        ({ message with Timestamp := (timeNow env w).1 }, (timeNow env w).2)
      else (message, w)
    let r := s.deliver stamped.1 receiver stamped.2
    (r.1, r.2.record (Event.send receiver r.1))

/-- One iteration of the loop of `AlertService.SendToMultiple`: the errors
collected so far and the world. -/
def AlertService.sendStep (s : AlertService) (env : Env) (message : Message)
    (acc : List Err × World) (receiver : Receiver) : List Err × World :=
  match s.Send env message receiver acc.2 with
  | (some e, w1) => (acc.1 ++ [Err.sendTo receiver.Email e], w1)
  | (none, w1) => (acc.1, w1)

/-- The method `AlertService.SendToMultiple`. -/
def AlertService.SendToMultiple (s : AlertService) (env : Env) (message : Message)
    (receivers : List Receiver) (w : World) : Option Err × World :=
  if s.enabled = false then (some Err.serviceDisabled, w)
  else
    let stamped : Message × World :=
      if message.Timestamp = 0 then
        ({ message with Timestamp := (timeNow env w).1 }, (timeNow env w).2)
      else (message, w)
    let r := receivers.foldl (s.sendStep env stamped.1) ([], stamped.2)
    if r.1.length > 0 then (some (Err.sendAlerts r.1), r.2) else (none, r.2)

/-! ## config and monitoring -/

/-- The section `Config.Server`. -/
structure ServerSection where
  Port : String
  deriving Repr, DecidableEq

/-- The section `Config.Aseko`. -/
structure AsekoSection where
  Email : String
  Password : String
  BaseURL : String
  WebSocketURL : String
  deriving Repr, DecidableEq

/-- The section `Config.Pool`. -/
structure PoolSection where
  ExpectedTemperature : Float64
  CheckInterval : String
  TemperatureThreshold : Float64
  deriving Repr, DecidableEq

/-- The section `Config.Hue`. -/
structure HueSection where
  BridgeIP : String
  APIKey : String
  deriving Repr, DecidableEq

/-- The section `Config.Alerting.Email`. -/
structure EmailSection where
  Enabled : Bool
  SMTPHost : String
  SMTPPort : String
  SMTPUser : String
  SMTPPassword : String
  FromAddress : String
  FromName : String
  UseTLS : Bool
  deriving Repr, DecidableEq

/-- The section `Config.Alerting`. -/
structure AlertingSection where
  Email : EmailSection
  DefaultReceivers : List Receiver
  deriving Repr, DecidableEq

/-- The type `config.Config`. -/
structure Config where
  Server : ServerSection
  Aseko : AsekoSection
  Pool : PoolSection
  Hue : HueSection
  Alerting : AlertingSection
  deriving Repr, DecidableEq

/-- The function `config.NewConfig`: the defaults. -/
def NewConfig : Config :=
  { Server := { Port := "8080" }
    Aseko := { Email := "", Password := "",
               BaseURL := "https://graphql.acs.prod.aseko.cloud/graphql", WebSocketURL := "" }
    Pool := { ExpectedTemperature := 28, CheckInterval := "1h", TemperatureThreshold := 2 }
    Hue := { BridgeIP := "", APIKey := "" }
    Alerting := { Email := { Enabled := false, SMTPHost := "", SMTPPort := "", SMTPUser := "",
                             SMTPPassword := "", FromAddress := "", FromName := "",
                             UseTLS := false },
                  DefaultReceivers := [] } }

/-- The type `monitoring.PoolMonitor`. The client behind the pointer
`asekoClient` is held by value; `checkInterval` is a `time.Duration`, a
signed number of nanoseconds; `stopChanClosed` says whether `stopChan` has
been closed; `lastCheck = 0` is the zero time. -/
structure PoolMonitor where
  asekoClient : AsekoClient
  alertService : Option AlertService
  config : Config
  checkInterval : Int
  lastCheck : Nat
  stopChanClosed : Bool
  defaultReceivers : List Receiver

/-- The type `monitoring.PoolStatus`. -/
structure PoolStatus where
  Temperature : Float64
  ExpectedTemperature : Float64
  TemperatureDelta : Float64
  PH : Float64
  Redox : Float64
  WaterFlow : String
  WaterFlowAlert : Bool
  LastUpdated : Nat
  TemperatureAlert : Bool
  TemperatureAlertType : String
  deriving Repr, DecidableEq

/-- The method `PoolMonitor.GetLastCheckTime`. -/
def PoolMonitor.GetLastCheckTime (pm : PoolMonitor) : Nat := pm.lastCheck

/-- The message built by `sendTemperatureAlert` for `alertType`, with the
two clock readings it takes. -/
def temperatureMessage (env : Env) (alertType : String) (current expected delta : Float64)
    (bodyTime stamp : Nat) : Message :=
  if alertType = "low" then
    { Subject := "Pool Temperature Alert: Below Expected"
      Body := "Pool temperature is below expected levels.\n\n" ++
        "Current Temperature: " ++ env.formatFloat1 current ++ "°C\n" ++
        "Expected Temperature: " ++ env.formatFloat1 expected ++ "°C\n" ++
        "Difference: " ++ env.formatFloat1 delta ++ "°C\n\n" ++
        "Time: " ++ env.formatTime bodyTime ++ "\n\n" ++
        "Please check your pool heating system."
      Priority := Priority.PriorityHigh
      Timestamp := stamp }
  else
    { Subject := "Pool Temperature Alert: Above Expected"
      Body := "Pool temperature is above expected levels.\n\n" ++
        "Current Temperature: " ++ env.formatFloat1 current ++ "°C\n" ++
        "Expected Temperature: " ++ env.formatFloat1 expected ++ "°C\n" ++
        "Difference: +" ++ env.formatFloat1 delta ++ "°C\n\n" ++
        "Time: " ++ env.formatTime bodyTime ++ "\n\n" ++
        "Please check your pool heating system."
      Priority := Priority.PriorityNormal
      Timestamp := stamp }

/-- The method `PoolMonitor.sendTemperatureAlert`; the call is recorded in
the trace on entry. -/
def PoolMonitor.sendTemperatureAlert (pm : PoolMonitor) (env : Env) (alertType : String)
    (current expected delta : Float64) (w : World) : World :=
  let w0 := w.record (Event.sendTemperatureAlert alertType current expected delta)
  match pm.alertService with
  | none => w0
  | some service =>
    if service.IsEnabled = false then w0
    else if pm.defaultReceivers.length = 0 then w0
    else
      let t1 := timeNow env w0
      let t2 := timeNow env t1.2
      let message := temperatureMessage env alertType current expected delta t1.1 t2.1
      (service.SendToMultiple env message pm.defaultReceivers t2.2).2

/-- The message built by `sendWaterFlowAlert`. -/
def waterFlowMessage (env : Env) (bodyTime stamp : Nat) : Message :=
  { Subject := "CRITICAL: Pool Water Flow Issue"
    Body := "CRITICAL ALERT: No water flow detected to pool probes!\n\n" ++
      "Status: Water flow is NO\n" ++
      "Time: " ++ env.formatTime bodyTime ++ "\n\n" ++
      "IMMEDIATE ACTION REQUIRED:\n" ++
      "• Check pool pump operation\n" ++
      "• Verify valves are open\n" ++
      "• Check for blockages in pipes\n" ++
      "• Inspect filter condition\n\n" ++
      "No water flow can cause:\n" ++
      "• Equipment damage\n" ++
      "• Inaccurate readings\n" ++
      "• Pool water quality issues\n\n" ++
      "Please investigate immediately!"
    Priority := Priority.PriorityCritical
    Timestamp := stamp }

/-- The method `PoolMonitor.sendWaterFlowAlert`; the call is recorded in the
trace on entry. -/
def PoolMonitor.sendWaterFlowAlert (pm : PoolMonitor) (env : Env) (w : World) : World :=
  let w0 := w.record Event.sendWaterFlowAlert
  match pm.alertService with
  | none => w0
  | some service =>
    if service.IsEnabled = false then w0
    else if pm.defaultReceivers.length = 0 then w0
    else
      let t1 := timeNow env w0
      let t2 := timeNow env t1.2
      (service.SendToMultiple env (waterFlowMessage env t1.1 t2.1) pm.defaultReceivers t2.2).2

/-- The part of `PoolMonitor.Check` after a successful fetch: the
temperature rule, then the water-flow rule. The difference and the two
comparisons are those of float64. The test `flowData.Value == 0.0` is
equality with the value 0 (NaN differs from 0 under both). -/
def PoolMonitor.evaluate (pm : PoolMonitor) (env : Env) (measurements : MeasurementMap)
    (w : World) : World :=
  match measurements.get "Temp" with
  | none => w
  | some tempData =>
    let currentTemp := tempData.Value
    let expectedTemp := pm.config.Pool.ExpectedTemperature
    let threshold := pm.config.Pool.TemperatureThreshold
    let tempDelta := currentTemp - expectedTemp
    let w1 :=
      if tempDelta < -threshold then
        pm.sendTemperatureAlert env "low" currentTemp expectedTemp tempDelta w
      else if tempDelta > threshold then
        pm.sendTemperatureAlert env "high" currentTemp expectedTemp tempDelta w
      else w
    match measurements.get "WaterFlow" with
    | none => w1
    | some flowData =>
      if flowData.Value = 0 then pm.sendWaterFlowAlert env w1 else w1

/-- The method `PoolMonitor.Check`. -/
def PoolMonitor.Check (pm : PoolMonitor) (env : Env) (fuel : Nat) (w : World) :
    Option (Res Unit × PoolMonitor × World) :=
  let t := timeNow env w
  let pm0 := { pm with lastCheck := t.1 }
  match GetMeasurements env fuel pm0.asekoClient t.2 with
  | none => none
  | some (Res.err _, c1, w1) => some (Res.ok (), { pm0 with asekoClient := c1 }, w1)
  | some (Res.panic, c1, w1) => some (Res.panic, { pm0 with asekoClient := c1 }, w1)
  | some (Res.ok measurements, c1, w1) =>
    let pm1 := { pm0 with asekoClient := c1 }
    some (Res.ok (), pm1, pm1.evaluate env measurements w1)

/-- The method `PoolMonitor.GetStatus`. -/
def PoolMonitor.GetStatus (pm : PoolMonitor) (env : Env) (fuel : Nat) (w : World) :
    Option (Res PoolStatus × PoolMonitor × World) :=
  match GetMeasurements env fuel pm.asekoClient w with
  | none => none
  | some (Res.err e, c1, w1) =>
    some (Res.err (Err.wrap "failed to get measurements" e), { pm with asekoClient := c1 }, w1)
  | some (Res.panic, c1, w1) => some (Res.panic, { pm with asekoClient := c1 }, w1)
  | some (Res.ok measurements, c1, w1) =>
    let t := timeNow env w1
    let s0 : PoolStatus :=
      { Temperature := 0, ExpectedTemperature := pm.config.Pool.ExpectedTemperature,
        TemperatureDelta := 0, PH := 0, Redox := 0, WaterFlow := "", WaterFlowAlert := false,
        LastUpdated := t.1, TemperatureAlert := false, TemperatureAlertType := "" }
    let s1 : PoolStatus :=
      match measurements.get "Temp" with
      | none => s0
      | some tempData =>
        let delta := tempData.Value - s0.ExpectedTemperature
        let threshold := pm.config.Pool.TemperatureThreshold
        let s := { s0 with Temperature := tempData.Value, TemperatureDelta := delta }
        if delta < -threshold then
          { s with TemperatureAlert := true, TemperatureAlertType := "low" }
        else if delta > threshold then
          { s with TemperatureAlert := true, TemperatureAlertType := "high" }
        else s
    let s2 : PoolStatus :=
      match measurements.get "PH" with
      | none => s1
      | some phData => { s1 with PH := phData.Value }
    let s3 : PoolStatus :=
      match measurements.get "Redox" with
      | none => s2
      | some redoxData => { s2 with Redox := redoxData.Value }
    let s4 : PoolStatus :=
      match measurements.get "WaterFlow" with
      | none => s3
      | some flowData =>
        if flowData.Value = 1 then { s3 with WaterFlow := "YES", WaterFlowAlert := false }
        else { s3 with WaterFlow := "NO", WaterFlowAlert := true }
    some (Res.ok s4, { pm with asekoClient := c1 }, t.2)

/-! ## Observations on a run -/

/-- The alert types of the `sendTemperatureAlert` calls in a trace, in order. -/
def temperatureAlerts (tr : List Event) : List String :=
  tr.filterMap (fun e => match e with
    | Event.sendTemperatureAlert alertType _ _ _ => some alertType
    | _ => none)

/-- The number of `sendWaterFlowAlert` calls in a trace. -/
def waterFlowAlerts (tr : List Event) : Nat :=
  tr.countP (fun e => match e with
    | Event.sendWaterFlowAlert => true
    | _ => false)

/-- The errors `SendToMultiple` collects from the per-receiver results. -/
def failuresOf (receivers : List Receiver) (results : List (Option Err)) : List Err :=
  (List.zip receivers results).filterMap (fun p => p.2.map (Err.sendTo p.1.Email))

/-- The trace after `Check`, empty when `Check` does not return. -/
def checkTrace (pm : PoolMonitor) (env : Env) (fuel : Nat) (w : World) : List Event :=
  match pm.Check env fuel w with
  | some (_, _, w1) => w1.trace
  | none => []

/-- The value stored under `key` by a fetch, if the fetch succeeded and the
key is present. -/
def fetchedValue (env : Env) (fuel : Nat) (c : AsekoClient) (w : World) (key : String) :
    Option Float64 :=
  match GetMeasurements env fuel c w with
  | some (Res.ok m, _, _) => (m.get key).map (fun x => x.Value)
  | _ => none

/-- The status returned by `GetStatus`, if it returned one. -/
def statusOf (pm : PoolMonitor) (env : Env) (fuel : Nat) (w : World) : Option PoolStatus :=
  match pm.GetStatus env fuel w with
  | some (Res.ok status, _, _) => some status
  | _ => none

/-- The requests issued by a client call, empty when it does not return. -/
def requestsOf {α : Type} (r : Option (Step α)) : List Request :=
  match r with
  | some (_, _, w) => w.requests
  | none => []

/-- The subjects of the messages handed to the email alerter by the end of
`Check`, in order; empty when `Check` does not return. -/
def checkSubjects (pm : PoolMonitor) (env : Env) (fuel : Nat) (w : World) : List String :=
  match pm.Check env fuel w with
  | some (_, _, w1) => w1.emails.map (fun p => p.1.Subject)
  | none => []

/-! ## Sample inputs -/

/-- A detail response of kind `Unit` for serial `SN1` with the given primary
status values. -/
def sampleUnit (primary : List StatusValue) : UnitResponse :=
  { Typename := "Unit", SerialNumber := "SN1", Name := "pool", Primary := primary, Secondary := [] }

/-- A status value with the given remote type and center value. -/
def sampleValue (type_ center : String) : StatusValue :=
  { Type_ := type_, CenterValue := center, BottomRight := "", BottomLeftPrefix := "",
    BottomLeftSuffix := "" }

/-- A stand-in for `strconv.ParseFloat` on the few strings used below:
decimal numbers give the nearest float64, `1e400` is beyond the range, and
every other string is not a number. -/
def sampleParse (s : String) : Parsed :=
  if s = "25.5" then Parsed.number (Float64.finite (51 / 2))
  else if s = "28" then Parsed.number 28
  else if s = "7.2" then Parsed.number (Float64.round (36 / 5))
  else if s = "0.1" then Parsed.number (Float64.round (1 / 10))
  else if s = "0" then Parsed.number 0
  else if s = "1" then Parsed.number 1
  else if s = "NaN" then Parsed.number Float64.nan
  else if s = "1e400" then Parsed.outOfRange false
  else Parsed.malformed

/-- An environment whose server accepts every login, lists the one unit
`SN1` and answers every detail query with `resp`. -/
def sampleEnv (resp : UnitResponse) : Env :=
  { login := fun _ => Reply.ok "token-0123456789"
    units := fun _ => Reply.ok { Units := [{ SerialNumber := "SN1", Name := "pool", Online := true }] }
    detail := fun _ => Reply.ok resp
    clock := fun n => 1000 + n
    parseFloat := sampleParse
    formatFloat1 := fun _ => "?"
    formatTime := fun _ => "?" }

/-- A client that has `SN1` selected. -/
def sampleClient : AsekoClient :=
  { token := "token-0123456789", unitList := none, selectedUnit := some (sampleUnit []) }

/-- A detail response without any content: what an empty or `null` payload
decodes to. -/
def emptyUnit : UnitResponse :=
  { Typename := "", SerialNumber := "", Name := "", Primary := [], Secondary := [] }

/-- An alerter that is enabled and fails for the address `bad@example.com`
only. -/
def sampleAlerter : Alerter :=
  { IsEnabled := true
    Send := fun _ _ receiver =>
      if receiver.Email = "bad@example.com" then some (Err.smtp "rejected") else none }

/-- An enabled alert service over `sampleAlerter`. -/
def sampleService : AlertService :=
  { emailAlerter := some sampleAlerter, enabled := true }

/-- Three receivers, the second of which cannot be reached. -/
def sampleReceivers : List Receiver :=
  [{ Email := "a@example.com", Name := "A" }, { Email := "bad@example.com", Name := "B" },
   { Email := "c@example.com", Name := "C" }]

/-- A message with the timestamp already set. -/
def sampleMessage : Message :=
  { Subject := "s", Body := "b", Timestamp := 5, Priority := Priority.PriorityNormal }

/-- A detail response for `SN1` that reports the kind `typename`. -/
def kindUnit (typename : String) : UnitResponse :=
  { Typename := typename, SerialNumber := "SN1", Name := "pool", Primary := [], Secondary := [] }

/-- A monitor over `sampleClient` with the enabled `sampleService` and one
default receiver, expecting `expected` degrees with tolerance `threshold`. -/
def sampleMonitor (expected threshold : Float64) : PoolMonitor :=
  { asekoClient := sampleClient, alertService := some sampleService,
    config := { NewConfig with
      Pool := { ExpectedTemperature := expected, CheckInterval := "1h",
                TemperatureThreshold := threshold } },
    checkInterval := 3600000000000, lastCheck := 0, stopChanClosed := false,
    defaultReceivers := [{ Email := "a@example.com", Name := "A" }] }

/-- An environment whose server lists the one unit `SN1`, accepts the login
that is the `n`-th request exactly when `loginOk n`, and answers the detail
query that is the `n`-th request with `sampleUnit []` when `detailOk n` and
with a transport failure otherwise. -/
def scriptedEnv (loginOk detailOk : Nat → Bool) : Env :=
  { login := fun log => if loginOk log.length = true then Reply.ok "token-0123456789"
      else Reply.doFailed
    units := fun _ => Reply.ok { Units := [{ SerialNumber := "SN1", Name := "pool", Online := true }] }
    detail := fun log => if detailOk log.length = true then Reply.ok (sampleUnit [])
      else Reply.doFailed
    clock := fun n => 1000 + n
    parseFloat := sampleParse
    formatFloat1 := fun _ => "?"
    formatTime := fun _ => "?" }

/-- A client before its first login. -/
def freshClient : AsekoClient :=
  { token := "", unitList := none, selectedUnit := none }

/-- The key under which the loop of `GetMeasurements` stores a status value
of the given remote type: the four cases of its `switch`. -/
def canonicalKey (type_ : String) : Option String :=
  if type_ = "REDOX" then some "Redox"
  else if type_ = "PH" then some "PH"
  else if type_ = "WATER_TEMPERATURE" then some "Temp"
  else if type_ = "WATER_FLOW_TO_PROBES" then some "WaterFlow"
  else none

/-! ## cmd/server: the start-up sequence -/

/-- The function `api.NewAsekoClient`: a client without token, unit list or
selection. The goroutine it starts (a unit-list fetch after eight seconds)
runs concurrently with everything else and is not part of the model. -/
def NewAsekoClient : AsekoClient :=
  { token := "", unitList := none, selectedUnit := none }

/-- The function `alerting.NewAlertServiceFromConfig` applied to the email
settings, with the SMTP delivery of the email alerter as a parameter. The
alerter it builds is `NewEmailAlerter(cfg.EmailConfig)`, whose `IsEnabled`
is `Enabled && SMTPHost != ""`. -/
def NewAlertServiceFromConfig
    (smtp : List (Message × Receiver) → Message → Receiver → Option Err)
    (emailConfig : EmailSection) : Res AlertService :=
  if emailConfig.Enabled = true then
    if emailConfig.SMTPHost = "" then
      Res.err (Err.required "SMTP host is required when email alerting is enabled")
    else if emailConfig.SMTPPort = "" then
      Res.err (Err.required "SMTP port is required when email alerting is enabled")
    else if emailConfig.FromAddress = "" then
      Res.err (Err.required "from address is required when email alerting is enabled")
    else
      Res.ok { emailAlerter := some
                 { IsEnabled := emailConfig.Enabled && decide (emailConfig.SMTPHost ≠ ""),
                   Send := smtp },
               enabled := true }
  else Res.ok { emailAlerter := none, enabled := true }

/-- The function `initAlertService` of `main.go`: the service pointer it
returns (`none` is nil) or the error. -/
def initAlertService (smtp : List (Message × Receiver) → Message → Receiver → Option Err)
    (cfg : Config) : Res (Option AlertService) :=
  if cfg.Alerting.Email.Enabled = false then Res.ok none
  else
    match NewAlertServiceFromConfig smtp cfg.Alerting.Email with
    | Res.ok service => Res.ok (some service)
    | Res.err e => Res.err e
    | Res.panic => Res.panic

/-- The function `monitoring.NewPoolMonitor`, with `time.ParseDuration` as a
parameter (`none` is its error; a duration is a signed number of
nanoseconds). -/
def NewPoolMonitor (parseDuration : String → Option Int) (asekoClient : AsekoClient)
    (alertService : Option AlertService) (cfg : Config) : Res PoolMonitor :=
  match parseDuration cfg.Pool.CheckInterval with
  | none => Res.err (Err.wrap "invalid check interval" Err.badDuration)
  | some interval =>
    Res.ok { asekoClient := asekoClient, alertService := alertService, config := cfg,
             checkInterval := interval, lastCheck := 0, stopChanClosed := false,
             defaultReceivers := cfg.Alerting.DefaultReceivers.map
               (fun r => { Email := r.Email, Name := r.Name }) }

/-- How the start-up sequence of `main` ends: `log.Fatalf` has terminated
the process, a panic has, or the process has reached `ListenAndServe` and
serves requests with the given client, alert service and monitor (`none` is
a nil pointer). -/
inductive Startup where
  | fatal (message : String) (cause : Err) (w : World)
  | panicked (w : World)
  | serving (asekoClient : AsekoClient) (alertService : Option AlertService)
      (poolMonitor : Option PoolMonitor) (w : World)

/-- The process was terminated during start-up. -/
def Startup.terminated : Startup → Bool
  | Startup.serving _ _ _ _ => false
  | _ => true

/-- The method `PoolMonitor.Start`, as far as the calling goroutine goes:
`time.NewTicker(pm.checkInterval)` panics for an interval that is not
positive. The goroutines it starts (the first `Check` and the periodic ones)
run concurrently and are not part of the model. -/
def PoolMonitor.Start (pm : PoolMonitor) : Res Unit :=
  if pm.checkInterval ≤ 0 then Res.panic else Res.ok ()

/-- The function `main` up to `http.ListenAndServe`. The results of
`config.LoadConfig`, `db.Init` and of binding the listening socket are
parameters, as are `time.ParseDuration` and the SMTP delivery. When the
monitor has been constructed `main` calls its `Start`, and a panic there
ends the process. -/
def main (env : Env) (fuel : Nat) (loadConfig : Res Config) (dbInit : Option Err)
    (parseDuration : String → Option Int)
    (smtp : List (Message × Receiver) → Message → Receiver → Option Err)
    (listen : Option Err) (w : World) : Option Startup :=
  match loadConfig with
  | Res.err e => some (Startup.fatal "Failed to load configuration" e w)
  | Res.panic => some (Startup.panicked w)
  | Res.ok cfg =>
    match dbInit with
    | some e => some (Startup.fatal "Failed to initialize database" e w)
    | none =>
      match Initialize env fuel NewAsekoClient w with
      | none => none
      | some (Res.err e, _, w1) =>
        some (Startup.fatal "Failed to initialize Aseko client" e w1)
      | some (Res.panic, _, w1) => some (Startup.panicked w1)
      | some (Res.ok _, asekoClient, w1) =>
        match initAlertService smtp cfg with
        | Res.panic => some (Startup.panicked w1)
        | alertResult =>
          let alertService : Option AlertService :=
            match alertResult with
            | Res.ok service => service
            | _ => none
          let poolMonitor : Option PoolMonitor :=
            match NewPoolMonitor parseDuration asekoClient alertService cfg with
            | Res.ok pm => some pm
            | _ => none
          let started : Res Unit :=
            match poolMonitor with
            | some pm => pm.Start
            | none => Res.ok ()
          match started with
          | Res.panic => some (Startup.panicked w1)
          | _ =>
            match listen with
            | some e => some (Startup.fatal "Failed to start server" e w1)
            | none => some (Startup.serving asekoClient alertService poolMonitor w1)

/-- The remote types that the loop of `GetMeasurements` has a case for. -/
def isKnownType (type_ : String) : Bool :=
  decide (type_ = "REDOX" ∨ type_ = "PH" ∨ type_ = "WATER_TEMPERATURE" ∨
    type_ = "WATER_FLOW_TO_PROBES")

/-! ## More sample inputs and observations -/

/-- The call panicked. -/
def Res.isPanic {α : Type} : Res α → Bool
  | Res.panic => true
  | _ => false

/-- The selected unit's serial is one of the serials of the stored unit
list (vacuously so when no unit is selected). -/
def selectionListed (c : AsekoClient) : Bool :=
  match c.selectedUnit with
  | none => true
  | some selected =>
    match c.unitList with
    | none => false
    | some unitList => unitList.Units.any (fun d => decide (d.SerialNumber = selected.SerialNumber))

/-- An environment with the given replies to the login and to the list
query, and the given detail replies. -/
def serverEnv (login : Reply String) (units : Reply UnitListResponse)
    (detail : List Request → Reply UnitResponse) : Env :=
  { login := fun _ => login
    units := fun _ => units
    detail := detail
    clock := fun n => 1000 + n
    parseFloat := sampleParse
    formatFloat1 := fun _ => "?"
    formatTime := fun _ => "?" }

/-- The list with the one unit `SN1`. -/
def sampleList : UnitListResponse :=
  { Units := [{ SerialNumber := "SN1", Name := "pool", Online := true }] }

/-- What the list query decodes to when the server answers with a JSON
document that has no `data.units` member, such as the error document of a
rejected token (`{"errors":[...]}`, whatever the HTTP status):
`http.Client.Do` reports no error for a non-2xx status, the client never
reads `resp.StatusCode`, and `json.Unmarshal` skips unknown members and
leaves the zero value. -/
def rejectionDocument : Reply UnitListResponse :=
  Reply.ok { Units := [] }

/-- A server whose detail query answers with a unit of kind `Unit` that
echoes the serial asked for. -/
def echoDetail (log : List Request) : Reply UnitResponse :=
  match log.getLast? with
  | some (Request.unitDetail _ sn) =>
    Reply.ok { Typename := "Unit", SerialNumber := sn, Name := "", Primary := [], Secondary := [] }
  | some (Request.unitDetailRetry _ sn) =>
    Reply.ok { Typename := "Unit", SerialNumber := sn, Name := "", Primary := [], Secondary := [] }
  | _ => Reply.badJSON

/-- A client that holds a token and the list `sampleList`, with nothing
selected. -/
def listedClient : AsekoClient :=
  { token := "token-0123456789", unitList := some sampleList, selectedUnit := none }

/-- A configuration with the defaults of `NewConfig`. -/
def sampleConfig : Config := NewConfig

/-- The defaults of `NewConfig` with the check interval `0s`. -/
def zeroIntervalConfig : Config :=
  { NewConfig with
    Pool := { ExpectedTemperature := 28, CheckInterval := "0s", TemperatureThreshold := 2 } }

/-- A stand-in for `time.ParseDuration` that accepts `1h` and `0s` only;
the result is in nanoseconds. -/
def sampleParseDuration (s : String) : Option Int :=
  if s = "1h" then some 3600000000000 else if s = "0s" then some 0 else none

/-- An SMTP delivery that always succeeds. -/
def sampleSmtp (_ : List (Message × Receiver)) (_ : Message) (_ : Receiver) : Option Err :=
  none

/-! ## config: loading the configuration -/

/-- A decoded YAML document with values of the right types: for each option
of `Config`, its value when the key is present in the file and `none` when
it is absent. -/
structure ConfigDocument where
  serverPort : Option String
  asekoEmail : Option String
  asekoPassword : Option String
  asekoBaseURL : Option String
  asekoWebSocketURL : Option String
  poolExpectedTemperature : Option Float64
  poolCheckInterval : Option String
  poolTemperatureThreshold : Option Float64
  hueBridgeIP : Option String
  hueAPIKey : Option String
  emailEnabled : Option Bool
  emailSMTPHost : Option String
  emailSMTPPort : Option String
  emailSMTPUser : Option String
  emailSMTPPassword : Option String
  emailFromAddress : Option String
  emailFromName : Option String
  emailUseTLS : Option Bool
  defaultReceivers : Option (List Receiver)
  deriving Repr, DecidableEq

/-- The call `yaml.Unmarshal(data, cfg)` for a document that decodes: every
option present in the document overwrites the field of `cfg`, every other
field of `cfg` keeps its value. -/
def ConfigDocument.unmarshal (d : ConfigDocument) (cfg : Config) : Config :=
  { Server := { Port := d.serverPort.getD cfg.Server.Port }
    Aseko := { Email := d.asekoEmail.getD cfg.Aseko.Email
               Password := d.asekoPassword.getD cfg.Aseko.Password
               BaseURL := d.asekoBaseURL.getD cfg.Aseko.BaseURL
               WebSocketURL := d.asekoWebSocketURL.getD cfg.Aseko.WebSocketURL }
    Pool := { ExpectedTemperature := d.poolExpectedTemperature.getD cfg.Pool.ExpectedTemperature
              CheckInterval := d.poolCheckInterval.getD cfg.Pool.CheckInterval
              TemperatureThreshold :=
                d.poolTemperatureThreshold.getD cfg.Pool.TemperatureThreshold }
    Hue := { BridgeIP := d.hueBridgeIP.getD cfg.Hue.BridgeIP
             APIKey := d.hueAPIKey.getD cfg.Hue.APIKey }
    Alerting :=
      { Email := { Enabled := d.emailEnabled.getD cfg.Alerting.Email.Enabled
                   SMTPHost := d.emailSMTPHost.getD cfg.Alerting.Email.SMTPHost
                   SMTPPort := d.emailSMTPPort.getD cfg.Alerting.Email.SMTPPort
                   SMTPUser := d.emailSMTPUser.getD cfg.Alerting.Email.SMTPUser
                   SMTPPassword := d.emailSMTPPassword.getD cfg.Alerting.Email.SMTPPassword
                   FromAddress := d.emailFromAddress.getD cfg.Alerting.Email.FromAddress
                   FromName := d.emailFromName.getD cfg.Alerting.Email.FromName
                   UseTLS := d.emailUseTLS.getD cfg.Alerting.Email.UseTLS }
        DefaultReceivers := d.defaultReceivers.getD cfg.Alerting.DefaultReceivers } }

/-- What `LoadConfig` finds at the path: no file, a file that cannot be
read, a file that is not a YAML document for `Config`, or a document. -/
inductive ConfigFile where
  | missing
  | unreadable
  | malformed
  | document (d : ConfigDocument)
  deriving Repr

/-- The function `config.LoadConfig`. -/
def LoadConfig (path : String) (file : ConfigFile) : Res Config :=
  match file with
  | ConfigFile.missing => Res.err (Err.notExist path)
  | ConfigFile.unreadable => Res.err (Err.wrap "error reading config file" Err.readFailed)
  | ConfigFile.malformed => Res.err (Err.wrap "error parsing config file" Err.badYAML)
  | ConfigFile.document d =>
    let cfg := d.unmarshal NewConfig
    if cfg.Aseko.Email = "" then Res.err (Err.required "aseko.email is required")
    else if cfg.Aseko.Password = "" then Res.err (Err.required "aseko.password is required")
    else if cfg.Hue.BridgeIP = "" then Res.err (Err.required "hue.bridge_ip is required")
    else if cfg.Hue.APIKey = "" then Res.err (Err.required "hue.api_key is required")
    else Res.ok cfg

/-! ## monitoring: stopping the monitor -/

/-- The method `PoolMonitor.Stop`: `close(pm.stopChan)`, which panics on a
channel that is already closed. -/
def PoolMonitor.Stop (pm : PoolMonitor) : Res Unit × PoolMonitor :=
  if pm.stopChanClosed = true then (Res.panic, pm)
  else (Res.ok (), { pm with stopChanClosed := true })

/-! ## api: the Hue client -/

/-- The field `State` of `models.HueLight`. -/
structure HueLightState where
  On : Bool
  Brightness : Int
  ColorMode : String
  Temperature : Int
  Reachable : Bool
  deriving Repr, DecidableEq

/-- The type `models.HueLight`. -/
structure HueLight where
  ID : String
  Name : String
  State : HueLightState
  Type_ : String
  ModelID : String
  UniqueID : String
  ProductID : String
  deriving Repr, DecidableEq

/-- The method `HueClient.GetLights`, applied to what came back from the
bridge. A decoded `map[string]models.HueLight` is the list of its entries
in the order the `range` loop visits them; its keys are distinct.
`sort.Slice` with the comparison `result[i].ID < result[j].ID` is an
insertion sort. -/
def GetLights (reply : Reply (List (String × HueLight))) : Res (List HueLight) :=
  match reply with
  | Reply.doFailed => Res.err (Err.wrap "error fetching lights" Err.doFailed)
  | Reply.readFailed => Res.err (Err.wrap "error reading response" Err.readFailed)
  | Reply.badJSON => Res.err (Err.wrap "error parsing lights" Err.badJSON)
  | Reply.ok lights =>
    let result := lights.map (fun entry => { entry.2 with ID := entry.1 })
    Res.ok (result.insertionSort (fun a b => a.ID ≤ b.ID))

/-! ## Reachable client states -/

/-- The states a client can be in after any number of calls of its
operations against the server of `env`, starting from a freshly constructed
client. A call that panics counts too: the HTTP server recovers from a panic
in a handler and the client lives on. -/
inductive Reachable (env : Env) : AsekoClient → World → Prop where
  | fresh (w : World) : Reachable env NewAsekoClient w
  | login {c : AsekoClient} {w : World} (r : Step Unit) :
      Reachable env c w → Login env c w = r → Reachable env r.2.1 r.2.2
  | fetchUnitList {c : AsekoClient} {w : World} (r : Step Unit) :
      Reachable env c w → fetchUnitList env c w = r → Reachable env r.2.1 r.2.2
  | selectUnit {c : AsekoClient} {w : World} (fuel : Nat) (sn : String) (r : Step Unit) :
      Reachable env c w → SelectUnit env fuel sn c w = some r → Reachable env r.2.1 r.2.2
  | reinit {c : AsekoClient} {w : World} (fuel : Nat) (r : Step Unit) :
      Reachable env c w → Initialize env fuel c w = some r → Reachable env r.2.1 r.2.2
  | getMeasurements {c : AsekoClient} {w : World} (fuel : Nat) (r : Step MeasurementMap) :
      Reachable env c w → GetMeasurements env fuel c w = some r → Reachable env r.2.1 r.2.2

/-! ## Sample inputs for the configuration, the lights and the reconnect path -/

/-- A document that sets the four required options and the expected
temperature, and nothing else. -/
def sampleDocument : ConfigDocument :=
  { serverPort := none, asekoEmail := some "me@example.com", asekoPassword := some "secret",
    asekoBaseURL := none, asekoWebSocketURL := none, poolExpectedTemperature := some 26,
    poolCheckInterval := none, poolTemperatureThreshold := none,
    hueBridgeIP := some "192.168.1.2", hueAPIKey := some "key", emailEnabled := none,
    emailSMTPHost := none, emailSMTPPort := none, emailSMTPUser := none,
    emailSMTPPassword := none, emailFromAddress := none, emailFromName := none,
    emailUseTLS := none, defaultReceivers := none }

/-- A light as the bridge reports it, without an ID. -/
def sampleLight (name : String) : HueLight :=
  { ID := "", Name := name,
    State := { On := true, Brightness := 200, ColorMode := "ct", Temperature := 300,
               Reachable := true },
    Type_ := "Extended color light", ModelID := "LCT015", UniqueID := "", ProductID := "" }

/-- A detail response of the given kind and serial number, without status
values. -/
def kindUnitOf (typename sn : String) : UnitResponse :=
  { Typename := typename, SerialNumber := sn, Name := "", Primary := [], Secondary := [] }

/-- A server that answers the detail query for `SN1` with a unit, every
other first detail query with an empty response, and every retry query with
`UnitNotFoundError`. -/
def reconnectDetail (log : List Request) : Reply UnitResponse :=
  match log.getLast? with
  | some (Request.unitDetail _ sn) =>
    if sn = "SN1" then Reply.ok (sampleUnit []) else Reply.ok emptyUnit
  | some (Request.unitDetailRetry _ sn) =>
    Reply.ok (kindUnitOf "UnitNotFoundError" sn)
  | _ => Reply.badJSON

/-- A client that holds a token and the list `sampleList` and has the unit
`SN2` selected. -/
def staleClient : AsekoClient :=
  { token := "token-0123456789", unitList := some sampleList,
    selectedUnit := some (kindUnitOf "Unit" "SN2") }

/-- Every selected unit has a non-empty serial number. -/
def serialNonEmpty (c : AsekoClient) : Prop :=
  ∀ u, c.selectedUnit = some u → u.SerialNumber ≠ ""

/-- The number of `Send` calls of the alert service in a trace. -/
def sendAttempts (tr : List Event) : Nat :=
  tr.countP (fun e => match e with
    | Event.send _ _ => true
    | _ => false)

/-! ## The alert service -/

/-- A call of `Send` appends one `send` event, carrying its own result. -/
theorem Send_trace (s : AlertService) (env : Env) (message : Message) (receiver : Receiver)
    (w : World) :
    (s.Send env message receiver w).2.trace
      = w.trace ++ [Event.send receiver (s.Send env message receiver w).1] := by
  unfold AlertService.Send
  by_cases h : s.enabled = false
  · simp [h, World.record]
  · simp only [h, if_false]
    have hd : ∀ (m : Message) (w0 : World), (s.deliver m receiver w0).2.trace = w0.trace := by
      intro m w0
      unfold AlertService.deliver
      split
      · rfl
      · split
        · split <;> rfl
        · rfl
    by_cases ht : message.Timestamp = 0
    · simp [ht, World.record, hd, timeNow]
    · simp [ht, World.record, hd]

/-- The loop of `SendToMultiple` appends one `send` event per receiver, in
order, and collects exactly the failures among their results. -/
theorem foldl_sendStep (s : AlertService) (env : Env) (message : Message) :
    ∀ (receivers : List Receiver) (acc : List Err × World),
      ∃ results : List (Option Err), results.length = receivers.length ∧
        (receivers.foldl (s.sendStep env message) acc).2.trace
          = acc.2.trace ++ List.zipWith Event.send receivers results ∧
        (receivers.foldl (s.sendStep env message) acc).1
          = acc.1 ++ failuresOf receivers results := by
  intro receivers
  induction receivers with
  | nil => intro acc; exact ⟨[], rfl, by simp, by simp [failuresOf]⟩
  | cons r rest ih =>
    intro acc
    obtain ⟨results, hlen, htr, herr⟩ := ih (s.sendStep env message acc r)
    refine ⟨(s.Send env message r acc.2).1 :: results, by simp [hlen], ?_, ?_⟩
    · rw [List.foldl_cons, htr]
      have h1 : (s.sendStep env message acc r).2.trace
          = acc.2.trace ++ [Event.send r (s.Send env message r acc.2).1] := by
        unfold AlertService.sendStep
        have := Send_trace s env message r acc.2
        cases hS : s.Send env message r acc.2 with
        | mk res w1 =>
          rw [hS] at this
          cases res <;> simpa using this
      rw [h1]; simp
    · rw [List.foldl_cons, herr]
      unfold AlertService.sendStep
      cases hS : s.Send env message r acc.2 with
      | mk res w1 =>
        cases res <;> simp [failuresOf]

/-- No failure is collected exactly when every result is none. -/
theorem failuresOf_eq_nil :
    ∀ (receivers : List Receiver) (results : List (Option Err)),
      results.length = receivers.length →
      (failuresOf receivers results = [] ↔ ∀ r ∈ results, r = none) := by
  intro receivers
  induction receivers with
  | nil =>
    intro results h
    cases results with
    | nil => simp [failuresOf]
    | cons a t => simp at h
  | cons x xs ih =>
    intro results h
    cases results with
    | nil => simp at h
    | cons a t =>
      have hlen : t.length = xs.length := by simpa using h
      have := ih t hlen
      unfold failuresOf at this ⊢
      cases a with
      | none => simpa using this
      | some e => simp

/-- C9: an enabled alert service calls `Send` once for every receiver, in
list order and whatever the earlier results were; the call returns no error
exactly when every one of these sends returned none, and otherwise returns
the one error that bundles the failures. -/
theorem SendToMultiple_attempts_every_receiver (s : AlertService) (env : Env)
    (message : Message) (receivers : List Receiver) (w : World) (h : s.enabled = true) :
    ∃ results : List (Option Err), results.length = receivers.length ∧
      (s.SendToMultiple env message receivers w).2.trace
        = w.trace ++ List.zipWith Event.send receivers results ∧
      ((s.SendToMultiple env message receivers w).1 = none ↔ ∀ r ∈ results, r = none) ∧
      ((s.SendToMultiple env message receivers w).1
          = some (Err.sendAlerts (failuresOf receivers results)) ↔ ∃ r ∈ results, r ≠ none) := by
  unfold AlertService.SendToMultiple
  simp only [h, Bool.true_eq_false, if_false]
  generalize hst : (if message.Timestamp = 0 then
        (({ message with Timestamp := (timeNow env w).1 } : Message), (timeNow env w).2)
      else (message, w)) = stamped
  have hw : stamped.2.trace = w.trace := by
    rw [← hst]; split <;> simp [timeNow]
  obtain ⟨results, hlen, htr, herr⟩ := foldl_sendStep s env stamped.1 receivers ([], stamped.2)
  have hnil := failuresOf_eq_nil receivers results hlen
  refine ⟨results, hlen, ?_, ?_, ?_⟩
  · simp only [] at htr
    split <;> simp [htr, hw]
  · simp only [List.nil_append] at herr
    rw [herr]
    by_cases hf : failuresOf receivers results = []
    · simp only [hf, List.length_nil, gt_iff_lt, lt_self_iff_false, if_false, true_iff]
      exact hnil.mp hf
    · have : ¬ ∀ r ∈ results, r = none := fun hall => hf (hnil.mpr hall)
      have hpos : (failuresOf receivers results).length > 0 := List.length_pos.mpr hf
      simp [hpos, this]
  · simp only [List.nil_append] at herr
    rw [herr]
    by_cases hf : failuresOf receivers results = []
    · have hall := hnil.mp hf
      simp only [hf, List.length_nil, gt_iff_lt, lt_self_iff_false, if_false]
      constructor
      · intro hc; cases hc
      · rintro ⟨r, hr, hne⟩; exact absurd (hall r hr) hne
    · have hpos : (failuresOf receivers results).length > 0 := List.length_pos.mpr hf
      simp only [hpos, if_true, true_iff]
      by_contra hcon
      push_neg at hcon
      exact hf (hnil.mpr hcon)

/-- Three receivers, the second unreachable: all three are handed to the
alerter in order, and the statement of C9 holds for this run. -/
theorem SendToMultiple_attempts_every_receiver_witness :
    sampleService.enabled = true ∧
    ((sampleService.SendToMultiple (sampleEnv emptyUnit) sampleMessage sampleReceivers
        World.init).2.emails.map (fun p => p.2.Email)
      = ["a@example.com", "bad@example.com", "c@example.com"]) ∧
    ∃ results : List (Option Err), results.length = sampleReceivers.length ∧
      (sampleService.SendToMultiple (sampleEnv emptyUnit) sampleMessage sampleReceivers
          World.init).2.trace
        = World.init.trace ++ List.zipWith Event.send sampleReceivers results ∧
      ((sampleService.SendToMultiple (sampleEnv emptyUnit) sampleMessage sampleReceivers
          World.init).1 = none ↔ ∀ r ∈ results, r = none) ∧
      ((sampleService.SendToMultiple (sampleEnv emptyUnit) sampleMessage sampleReceivers
          World.init).1
          = some (Err.sendAlerts (failuresOf sampleReceivers results)) ↔
        ∃ r ∈ results, r ≠ none) :=
  ⟨rfl, by decide,
    SendToMultiple_attempts_every_receiver sampleService (sampleEnv emptyUnit) sampleMessage
      sampleReceivers World.init rfl⟩

/-! ## float64 rounding -/

/-- The rounding on known values: numbers that are float64 already are
kept; 0.1, 27.9 and 1/3 go to the nearest float64; a tie goes to the even
neighbour; the largest finite value is `2 ^ 1024 - 2 ^ 971`, and from
`2 ^ 1024 - 2 ^ 970` on the result is an infinity; below the normal range
the spacing stays `2 ^ -1074`. -/
theorem Float64_round_examples :
    Float64.round (51 / 2) = Float64.finite (51 / 2) ∧
    Float64.round (-28) = Float64.finite (-28) ∧
    Float64.round (1 / 10) = Float64.finite (3602879701896397 / 36028797018963968) ∧
    Float64.round (279 / 10) = Float64.finite (3926575925113651 / 140737488355328) ∧
    Float64.round (1 / 3) = Float64.finite (6004799503160661 / 18014398509481984) ∧
    Float64.round (2 ^ 53 + 1) = Float64.finite (2 ^ 53) ∧
    Float64.round (2 ^ 53 + 3) = Float64.finite (2 ^ 53 + 4) ∧
    Float64.round (2 ^ 1024 - 2 ^ 970 - 1) = Float64.finite (2 ^ 1024 - 2 ^ 971) ∧
    Float64.round (2 ^ 1024 - 2 ^ 970) = Float64.posInf ∧
    Float64.round (-(2 ^ 1024)) = Float64.negInf ∧
    Float64.round (3 / 2 ^ 1075) = Float64.finite (1 / 2 ^ 1073) ∧
    Float64.round (1 / 2 ^ 1075) = Float64.finite 0 := by
  decide!

/-- The comparison and the subtraction with NaN and the infinities. -/
theorem Float64_special_values :
    ¬ (Float64.nan < (0 : Float64)) ∧ ¬ ((0 : Float64) < Float64.nan) ∧
    Float64.nan - 28 = Float64.nan ∧
    Float64.posInf - 28 = Float64.posInf ∧
    Float64.posInf - Float64.posInf = Float64.nan ∧
    Float64.negInf < (0 : Float64) ∧ (0 : Float64) < Float64.posInf ∧
    -Float64.posInf = Float64.negInf := by
  decide!

/-! ## Client calls leave the alert trace alone -/

/-- The call `Login` does not touch the alert trace. -/
theorem Login_trace (env : Env) (c : AsekoClient) (w : World) :
    (Login env c w).2.2.trace = w.trace := by
  unfold Login
  simp only []
  repeat' split
  all_goals rfl

/-- The call `fetchUnitList` does not touch the alert trace. -/
theorem fetchUnitList_trace (env : Env) (c : AsekoClient) (w : World) :
    (fetchUnitList env c w).2.2.trace = w.trace := by
  unfold fetchUnitList
  simp only []
  repeat' split
  all_goals rfl

/-- The call `selectUnitAfterReconnect` does not touch the alert trace. -/
theorem selectUnitAfterReconnect_trace (env : Env) (sn : String) (c : AsekoClient) (w : World) :
    (selectUnitAfterReconnect env sn c w).2.2.trace = w.trace := by
  unfold selectUnitAfterReconnect
  simp only []
  repeat' split
  all_goals rfl

/-- The body of `Initialize` does not touch the alert trace when the
selection it calls does not. -/
theorem InitializeWith_trace (env : Env)
    (select : String → AsekoClient → World → Option (Step Unit))
    (hsel : ∀ sn c w r, select sn c w = some r → r.2.2.trace = w.trace)
    (c : AsekoClient) (w : World) (r : Step Unit)
    (h : InitializeWith env select c w = some r) : r.2.2.trace = w.trace := by
  unfold InitializeWith at h
  have hL := Login_trace env c w
  split at h
  · rename_i e c1 w1 hl
    rw [hl] at hL; cases h; exact hL
  · rename_i c1 w1 hl
    rw [hl] at hL; cases h; exact hL
  · rename_i u c1 w1 hl
    rw [hl] at hL
    have hF := fetchUnitList_trace env c1 w1
    split at h
    · rename_i e c2 w2 hf
      rw [hf] at hF; cases h; exact hF.trans hL
    · rename_i c2 w2 hf
      rw [hf] at hF; cases h; exact hF.trans hL
    · rename_i u2 c2 w2 hf
      rw [hf] at hF
      have h2 : w2.trace = w.trace := hF.trans hL
      split at h
      · cases h; exact h2
      · split at h
        · cases h; exact h2
        · rename_i first rest hu
          simp only [] at h
          split at h
          · cases h
          · rename_i c3 w3 hs
            cases h; exact (hsel _ _ _ _ hs).trans h2
          · rename_i c3 w3 hs
            cases h; exact (hsel _ _ _ _ hs).trans h2
          · rename_i e c3 w3 hs
            have h3 : w3.trace = w.trace := (hsel _ _ _ _ hs).trans h2
            have hL2 := Login_trace env c3 w3
            split at h
            · rename_i e4 c4 w4 hl4
              rw [hl4] at hL2; cases h; exact hL2.trans h3
            · rename_i c4 w4 hl4
              rw [hl4] at hL2; cases h; exact hL2.trans h3
            · rename_i u4 c4 w4 hl4
              rw [hl4] at hL2
              have h4 : w4.trace = w.trace := hL2.trans h3
              split at h
              · cases h
              · rename_i c5 w5 hs5
                cases h; exact (hsel _ _ _ _ hs5).trans h4
              · rename_i c5 w5 hs5
                cases h; exact (hsel _ _ _ _ hs5).trans h4
              · rename_i e5 c5 w5 hs5
                cases h; exact (hsel _ _ _ _ hs5).trans h4

/-- The call `SelectUnit` does not touch the alert trace. -/
theorem SelectUnit_trace (env : Env) :
    ∀ (fuel : Nat) (sn : String) (c : AsekoClient) (w : World) (r : Step Unit),
      SelectUnit env fuel sn c w = some r → r.2.2.trace = w.trace := by
  intro fuel
  induction fuel with
  | zero => intro sn c w r h; simp [SelectUnit] at h
  | succ n ih =>
    intro sn c w r h
    rw [SelectUnit] at h
    split at h
    · cases h; rfl
    · cases h; rfl
    · cases h; rfl
    · rename_i unitResp hd
      split at h
      · split at h
        · cases h
        · rename_i e c2 w2 hi
          cases h
          exact (InitializeWith_trace env _ ih _ _ _ hi).trans rfl
        · rename_i c2 w2 hi
          cases h
          exact (InitializeWith_trace env _ ih _ _ _ hi).trans rfl
        · rename_i u c2 w2 hi
          cases h
          exact (selectUnitAfterReconnect_trace env sn c2 w2).trans
            ((InitializeWith_trace env _ ih _ _ _ hi).trans rfl)
      · repeat' split at h
        all_goals (cases h; rfl)

/-- The extraction loop does not touch the alert trace. -/
theorem foldl_processStatusValue_trace (env : Env) :
    ∀ (primary : List StatusValue) (acc : MeasurementMap × World),
      (primary.foldl (processStatusValue env) acc).2.trace = acc.2.trace := by
  intro primary
  induction primary with
  | nil => intro acc; rfl
  | cons sv rest ih =>
    intro acc
    rw [List.foldl_cons, ih]
    unfold processStatusValue
    repeat' split
    all_goals rfl

/-- The call `GetMeasurements` does not touch the alert trace. -/
theorem GetMeasurements_trace (env : Env) (fuel : Nat) (c : AsekoClient) (w : World)
    (r : Step MeasurementMap) (h : GetMeasurements env fuel c w = some r) :
    r.2.2.trace = w.trace := by
  unfold GetMeasurements at h
  split at h
  · cases h; rfl
  · split at h
    · cases h
    · rename_i hs; cases h; exact SelectUnit_trace env _ _ _ _ _ hs
    · rename_i hs; cases h; exact SelectUnit_trace env _ _ _ _ _ hs
    · rename_i hs
      split at h
      · cases h; exact SelectUnit_trace env _ _ _ _ _ hs
      · cases h
        simp only []
        rw [foldl_processStatusValue_trace]
        exact SelectUnit_trace env _ _ _ _ _ hs

/-! ## The rules of `Check` -/

/-- A run of `send` events holds no alert call. -/
theorem temperatureAlerts_sends :
    ∀ (receivers : List Receiver) (results : List (Option Err)),
      temperatureAlerts (List.zipWith Event.send receivers results) = [] ∧
      waterFlowAlerts (List.zipWith Event.send receivers results) = 0 := by
  intro receivers
  induction receivers with
  | nil => intro results; simp [temperatureAlerts, waterFlowAlerts]
  | cons x xs ih =>
    intro results
    cases results with
    | nil => simp [temperatureAlerts, waterFlowAlerts]
    | cons a t =>
      have := ih t
      simp only [temperatureAlerts, waterFlowAlerts] at this ⊢
      simp [this.1, this.2]

/-- The call `SendToMultiple` appends `send` events only. -/
theorem SendToMultiple_trace (s : AlertService) (env : Env) (message : Message)
    (receivers : List Receiver) (w : World) :
    ∃ results : List (Option Err),
      (s.SendToMultiple env message receivers w).2.trace
        = w.trace ++ List.zipWith Event.send receivers results := by
  unfold AlertService.SendToMultiple
  split
  · exact ⟨[], by simp⟩
  · generalize hst : (if message.Timestamp = 0 then
          (({ message with Timestamp := (timeNow env w).1 } : Message), (timeNow env w).2)
        else (message, w)) = stamped
    have hw : stamped.2.trace = w.trace := by
      rw [← hst]; split <;> simp [timeNow]
    obtain ⟨results, _, htr, _⟩ := foldl_sendStep s env stamped.1 receivers ([], stamped.2)
    refine ⟨results, ?_⟩
    dsimp only at htr ⊢
    split <;> simp [htr, hw]

/-- The call `SendToMultiple` adds no alert call to the trace. -/
theorem SendToMultiple_alerts (s : AlertService) (env : Env) (message : Message)
    (receivers : List Receiver) (w : World) :
    temperatureAlerts (s.SendToMultiple env message receivers w).2.trace
        = temperatureAlerts w.trace ∧
      waterFlowAlerts (s.SendToMultiple env message receivers w).2.trace
        = waterFlowAlerts w.trace := by
  obtain ⟨results, h⟩ := SendToMultiple_trace s env message receivers w
  have hz := temperatureAlerts_sends receivers results
  rw [h]
  constructor
  · have := hz.1
    simp only [temperatureAlerts, List.filterMap_append] at this ⊢
    rw [this]; simp
  · have := hz.2
    simp only [waterFlowAlerts, List.countP_append] at this ⊢
    rw [this]; simp

/-- The call `sendTemperatureAlert` adds exactly its own alert type. -/
theorem sendTemperatureAlert_alerts (pm : PoolMonitor) (env : Env) (alertType : String)
    (current expected delta : Float64) (w : World) :
    temperatureAlerts (pm.sendTemperatureAlert env alertType current expected delta w).trace
        = temperatureAlerts w.trace ++ [alertType] ∧
      waterFlowAlerts (pm.sendTemperatureAlert env alertType current expected delta w).trace
        = waterFlowAlerts w.trace := by
  have h0 : temperatureAlerts
        (w.record (Event.sendTemperatureAlert alertType current expected delta)).trace
        = temperatureAlerts w.trace ++ [alertType] := by
    simp [World.record, temperatureAlerts, List.filterMap_append]
  have h1 : waterFlowAlerts
        (w.record (Event.sendTemperatureAlert alertType current expected delta)).trace
        = waterFlowAlerts w.trace := by
    simp [World.record, waterFlowAlerts, List.countP_append]
  unfold PoolMonitor.sendTemperatureAlert
  simp only []
  split
  · exact ⟨h0, h1⟩
  · split
    · exact ⟨h0, h1⟩
    · split
      · exact ⟨h0, h1⟩
      · rename_i service _ _ _
        have := SendToMultiple_alerts service env
          (temperatureMessage env alertType current expected delta
            (timeNow env (w.record (Event.sendTemperatureAlert alertType current expected delta))).1
            (timeNow env (timeNow env
              (w.record (Event.sendTemperatureAlert alertType current expected delta))).2).1)
          pm.defaultReceivers
          (timeNow env (timeNow env
              (w.record (Event.sendTemperatureAlert alertType current expected delta))).2).2
        rw [this.1, this.2]
        exact ⟨h0, h1⟩

/-- The call `sendWaterFlowAlert` adds exactly one water-flow alert. -/
theorem sendWaterFlowAlert_alerts (pm : PoolMonitor) (env : Env) (w : World) :
    temperatureAlerts (pm.sendWaterFlowAlert env w).trace = temperatureAlerts w.trace ∧
      waterFlowAlerts (pm.sendWaterFlowAlert env w).trace = waterFlowAlerts w.trace + 1 := by
  have h0 : temperatureAlerts (w.record Event.sendWaterFlowAlert).trace
        = temperatureAlerts w.trace := by
    simp [World.record, temperatureAlerts, List.filterMap_append]
  have h1 : waterFlowAlerts (w.record Event.sendWaterFlowAlert).trace
        = waterFlowAlerts w.trace + 1 := by
    simp [World.record, waterFlowAlerts, List.countP_append]
  unfold PoolMonitor.sendWaterFlowAlert
  simp only []
  split
  · exact ⟨h0, h1⟩
  · split
    · exact ⟨h0, h1⟩
    · split
      · exact ⟨h0, h1⟩
      · rename_i service _ _ _
        have := SendToMultiple_alerts service env
          (waterFlowMessage env (timeNow env (w.record Event.sendWaterFlowAlert)).1
            (timeNow env (timeNow env (w.record Event.sendWaterFlowAlert)).2).1)
          pm.defaultReceivers
          (timeNow env (timeNow env (w.record Event.sendWaterFlowAlert)).2).2
        rw [this.1, this.2]
        exact ⟨h0, h1⟩

/-- The alerts raised by the two rules of `Check` on a fetched set. The
water-flow rule is reached only when the temperature key is present. -/
theorem evaluate_alerts (pm : PoolMonitor) (env : Env) (m : MeasurementMap) (w : World) :
    temperatureAlerts (pm.evaluate env m w).trace
        = temperatureAlerts w.trace ++
          (match m.get "Temp" with
           | none => []
           | some tempData =>
             if tempData.Value - pm.config.Pool.ExpectedTemperature
                 < -pm.config.Pool.TemperatureThreshold then ["low"]
             else if tempData.Value - pm.config.Pool.ExpectedTemperature
                 > pm.config.Pool.TemperatureThreshold then ["high"]
             else []) ∧
      waterFlowAlerts (pm.evaluate env m w).trace
        = waterFlowAlerts w.trace +
          (match m.get "Temp" with
           | none => 0
           | some _ =>
             match m.get "WaterFlow" with
             | none => 0
             | some flowData => if flowData.Value = 0 then 1 else 0) := by
  unfold PoolMonitor.evaluate
  cases hT : m.get "Temp" with
  | none => simp
  | some tempData =>
    dsimp only
    generalize hw1 : (if tempData.Value - pm.config.Pool.ExpectedTemperature
          < -pm.config.Pool.TemperatureThreshold then
        pm.sendTemperatureAlert env "low" tempData.Value pm.config.Pool.ExpectedTemperature
          (tempData.Value - pm.config.Pool.ExpectedTemperature) w
      else if tempData.Value - pm.config.Pool.ExpectedTemperature
          > pm.config.Pool.TemperatureThreshold then
        pm.sendTemperatureAlert env "high" tempData.Value pm.config.Pool.ExpectedTemperature
          (tempData.Value - pm.config.Pool.ExpectedTemperature) w
      else w) = w1
    have h1 : temperatureAlerts w1.trace = temperatureAlerts w.trace ++
          (if tempData.Value - pm.config.Pool.ExpectedTemperature
                 < -pm.config.Pool.TemperatureThreshold then ["low"]
             else if tempData.Value - pm.config.Pool.ExpectedTemperature
                 > pm.config.Pool.TemperatureThreshold then ["high"]
             else []) ∧ waterFlowAlerts w1.trace = waterFlowAlerts w.trace := by
      rw [← hw1]
      split
      · exact sendTemperatureAlert_alerts pm env "low" _ _ _ w
      · split
        · exact sendTemperatureAlert_alerts pm env "high" _ _ _ w
        · simp
    cases hF : m.get "WaterFlow" with
    | none => simpa using h1
    | some flowData =>
      dsimp only
      split
      · have := sendWaterFlowAlert_alerts pm env w1
        rw [this.1, this.2, h1.1, h1.2]
        simp
      · simpa using h1

/-- C1 (amended): when the fetched set has the temperature key, `Check`
returns and raises the low alert exactly when `t - expected < -threshold`,
the high alert exactly when `t - expected > threshold` and the low
condition does not hold, and no temperature alert exactly when neither
condition holds. The difference, the negation and the comparisons are the
float64 operations of the code: the difference is rounded, and both
conditions are false when it is NaN. -/
theorem Check_temperature_alert (pm : PoolMonitor) (env : Env) (fuel : Nat) (w : World)
    (m : MeasurementMap) (c1 : AsekoClient) (w1 : World) (tempData : Measurement)
    (hfetch : GetMeasurements env fuel pm.asekoClient (timeNow env w).2 = some (Res.ok m, c1, w1))
    (htemp : m.get "Temp" = some tempData) :
    ∃ pm1 w2 raised, pm.Check env fuel w = some (Res.ok (), pm1, w2) ∧
      temperatureAlerts w2.trace = temperatureAlerts w.trace ++ raised ∧
      ("low" ∈ raised ↔
        tempData.Value - pm.config.Pool.ExpectedTemperature
          < -pm.config.Pool.TemperatureThreshold) ∧
      ("high" ∈ raised ↔
        (tempData.Value - pm.config.Pool.ExpectedTemperature
            > pm.config.Pool.TemperatureThreshold ∧
          ¬ tempData.Value - pm.config.Pool.ExpectedTemperature
            < -pm.config.Pool.TemperatureThreshold)) ∧
      (raised = [] ↔
        (¬ tempData.Value - pm.config.Pool.ExpectedTemperature
            < -pm.config.Pool.TemperatureThreshold ∧
          ¬ tempData.Value - pm.config.Pool.ExpectedTemperature
            > pm.config.Pool.TemperatureThreshold)) := by
  have hw1 : w1.trace = w.trace := by
    have := GetMeasurements_trace env fuel _ _ _ hfetch
    simpa [timeNow] using this
  have hev := (evaluate_alerts { pm with lastCheck := (timeNow env w).1, asekoClient := c1 }
    env m w1).1
  rw [htemp, hw1] at hev
  dsimp only at hev
  refine ⟨{ pm with lastCheck := (timeNow env w).1, asekoClient := c1 }, _, _, ?_, hev, ?_, ?_, ?_⟩
  · unfold PoolMonitor.Check
    dsimp only
    rw [hfetch]
  · split
    · simp [*]
    · split <;> simp [*]
  · split
    · simp [*]
    · split <;> simp [*]
  · split
    · simp [*]
    · split <;> simp [*]

/-- The example of the specification: expected 28, threshold 2 and a reading
of 25.5; the fetch returns the temperature and the statement of C1 (amended)
holds for this run. -/
theorem Check_temperature_alert_witness :
    GetMeasurements (sampleEnv (sampleUnit [sampleValue "WATER_TEMPERATURE" "25.5"])) 1
        (sampleMonitor 28 2).asekoClient
        (timeNow (sampleEnv (sampleUnit [sampleValue "WATER_TEMPERATURE" "25.5"])) World.init).2
      = some (Res.ok [("Temp", { Value := Float64.finite (51 / 2), Unit := "°C",
                                 UpdatedAt := 1001 })],
          { sampleClient with
            selectedUnit := some (sampleUnit [sampleValue "WATER_TEMPERATURE" "25.5"]) },
          { requests := [Request.unitDetail "token-0123456789" "SN1"], ticks := 2, emails := [],
            trace := [] }) ∧
    ∃ pm1 w2 raised,
      (sampleMonitor 28 2).Check (sampleEnv (sampleUnit [sampleValue "WATER_TEMPERATURE" "25.5"]))
          1 World.init = some (Res.ok (), pm1, w2) ∧
      temperatureAlerts w2.trace = temperatureAlerts World.init.trace ++ raised ∧
      ("low" ∈ raised ↔ Float64.finite (51 / 2) - 28 < -2) ∧
      ("high" ∈ raised ↔
        (Float64.finite (51 / 2) - 28 > 2 ∧ ¬ Float64.finite (51 / 2) - 28 < -2)) ∧
      (raised = [] ↔
        (¬ Float64.finite (51 / 2) - 28 < -2 ∧ ¬ Float64.finite (51 / 2) - 28 > 2)) :=
  ⟨rfl, Check_temperature_alert (sampleMonitor 28 2)
    (sampleEnv (sampleUnit [sampleValue "WATER_TEMPERATURE" "25.5"])) 1 World.init
    [("Temp", { Value := Float64.finite (51 / 2), Unit := "°C", UpdatedAt := 1001 })] _ _
    { Value := Float64.finite (51 / 2), Unit := "°C", UpdatedAt := 1001 } rfl rfl⟩

/-- C1 (as stated) fails: with expected 28, threshold -1 and a reading of
28 the condition `t - expected > threshold` holds, yet the only temperature
alert raised, and the only message sent, is the low one. -/
theorem Check_negative_threshold_counterexample :
    fetchedValue (sampleEnv (sampleUnit [sampleValue "WATER_TEMPERATURE" "28"])) 1
        (sampleMonitor 28 (-1)).asekoClient
        (timeNow (sampleEnv (sampleUnit [sampleValue "WATER_TEMPERATURE" "28"])) World.init).2
        "Temp" = some 28 ∧
    (28 : Float64) - (sampleMonitor 28 (-1)).config.Pool.ExpectedTemperature
      > (sampleMonitor 28 (-1)).config.Pool.TemperatureThreshold ∧
    temperatureAlerts (checkTrace (sampleMonitor 28 (-1))
      (sampleEnv (sampleUnit [sampleValue "WATER_TEMPERATURE" "28"])) 1 World.init) = ["low"] ∧
    checkSubjects (sampleMonitor 28 (-1))
      (sampleEnv (sampleUnit [sampleValue "WATER_TEMPERATURE" "28"])) 1 World.init
      = ["Pool Temperature Alert: Below Expected"] ∧
    ¬ ("high" ∈ temperatureAlerts (checkTrace (sampleMonitor 28 (-1))
          (sampleEnv (sampleUnit [sampleValue "WATER_TEMPERATURE" "28"])) 1 World.init) ↔
        (28 : Float64) - (sampleMonitor 28 (-1)).config.Pool.ExpectedTemperature
          > (sampleMonitor 28 (-1)).config.Pool.TemperatureThreshold) := by
  decide!

/-- C2, the code at the failing input: the fetched set holds `WaterFlow`
with value 0 and no temperature; `Check` returns without a water-flow
alert and without sending any message, although the alert service is
enabled and has a receiver, while `GetStatus` on the same input reports
`WaterFlowAlert`. -/
theorem Check_skips_flow_rule_without_temperature :
    fetchedValue (sampleEnv (sampleUnit [sampleValue "WATER_FLOW_TO_PROBES" "NO"])) 1
        (sampleMonitor 28 2).asekoClient
        (timeNow (sampleEnv (sampleUnit [sampleValue "WATER_FLOW_TO_PROBES" "NO"])) World.init).2
        "WaterFlow" = some 0 ∧
    fetchedValue (sampleEnv (sampleUnit [sampleValue "WATER_FLOW_TO_PROBES" "NO"])) 1
        (sampleMonitor 28 2).asekoClient
        (timeNow (sampleEnv (sampleUnit [sampleValue "WATER_FLOW_TO_PROBES" "NO"])) World.init).2
        "Temp" = none ∧
    ((sampleMonitor 28 2).Check (sampleEnv (sampleUnit [sampleValue "WATER_FLOW_TO_PROBES" "NO"]))
        1 World.init).map (fun r => r.1.isOk) = some true ∧
    waterFlowAlerts (checkTrace (sampleMonitor 28 2)
        (sampleEnv (sampleUnit [sampleValue "WATER_FLOW_TO_PROBES" "NO"])) 1 World.init) = 0 ∧
    checkSubjects (sampleMonitor 28 2)
        (sampleEnv (sampleUnit [sampleValue "WATER_FLOW_TO_PROBES" "NO"])) 1 World.init = [] ∧
    (statusOf (sampleMonitor 28 2)
        (sampleEnv (sampleUnit [sampleValue "WATER_FLOW_TO_PROBES" "NO"])) 1 World.init).map
      (fun s => s.WaterFlowAlert) = some true := by
  decide!

/-- C8: whatever the fetch does, `Check` first stores the clock reading it
takes on entry. If the fetch returns (a measurement set, with or without
the temperature key, or an error), `Check` returns too and
`GetLastCheckTime` then gives that reading; `Check` fails to return only
when the fetch does. -/
theorem Check_sets_lastCheck (pm : PoolMonitor) (env : Env) (fuel : Nat) (w : World) :
    match GetMeasurements env fuel pm.asekoClient (timeNow env w).2 with
    | none => pm.Check env fuel w = none
    | some (fetched, _, _) =>
      ∃ pm1 w1,
        pm.Check env fuel w
          = some ((match fetched with
                   | Res.panic => Res.panic
                   | _ => Res.ok ()), pm1, w1) ∧
        pm1.GetLastCheckTime = env.clock w.ticks := by
  unfold PoolMonitor.Check
  dsimp only
  cases hG : GetMeasurements env fuel pm.asekoClient (timeNow env w).2 with
  | none => rfl
  | some r =>
    obtain ⟨fetched, c1, w1⟩ := r
    cases fetched with
    | ok m => exact ⟨_, _, rfl, rfl⟩
    | err e => exact ⟨_, _, rfl, rfl⟩
    | panic => exact ⟨_, _, rfl, rfl⟩

/-- The rounding of the difference decides the outcome: expected 28,
threshold 27.9 and a reading of 0.1, each the nearest float64. The exact
difference of the three values is below the negated threshold, the float64
difference is equal to it, and `Check` raises no temperature alert. -/
theorem Check_rounds_the_difference :
    fetchedValue (sampleEnv (sampleUnit [sampleValue "WATER_TEMPERATURE" "0.1"])) 1
        (sampleMonitor 28 (Float64.round (279 / 10))).asekoClient
        (timeNow (sampleEnv (sampleUnit [sampleValue "WATER_TEMPERATURE" "0.1"])) World.init).2
        "Temp" = some (Float64.finite (3602879701896397 / 36028797018963968)) ∧
    Float64.round (279 / 10) = Float64.finite (3926575925113651 / 140737488355328) ∧
    (3602879701896397 / 36028797018963968 : ℚ) - 28 < -(3926575925113651 / 140737488355328) ∧
    Float64.finite (3602879701896397 / 36028797018963968) - 28
      = -Float64.round (279 / 10) ∧
    temperatureAlerts (checkTrace (sampleMonitor 28 (Float64.round (279 / 10)))
      (sampleEnv (sampleUnit [sampleValue "WATER_TEMPERATURE" "0.1"])) 1 World.init) = [] ∧
    (statusOf (sampleMonitor 28 (Float64.round (279 / 10)))
      (sampleEnv (sampleUnit [sampleValue "WATER_TEMPERATURE" "0.1"])) 1 World.init).map
      (fun s => (s.TemperatureAlert, s.TemperatureDelta))
      = some (false, -Float64.round (279 / 10)) := by
  decide!

/-- A reading of NaN (the center value `NaN` parses without error): the
difference is NaN, both comparisons are false and `Check` raises no
temperature alert. -/
theorem Check_reading_nan :
    fetchedValue (sampleEnv (sampleUnit [sampleValue "WATER_TEMPERATURE" "NaN"])) 1
        (sampleMonitor 28 2).asekoClient
        (timeNow (sampleEnv (sampleUnit [sampleValue "WATER_TEMPERATURE" "NaN"])) World.init).2
        "Temp" = some Float64.nan ∧
    Float64.nan - 28 = Float64.nan ∧
    temperatureAlerts (checkTrace (sampleMonitor 28 2)
      (sampleEnv (sampleUnit [sampleValue "WATER_TEMPERATURE" "NaN"])) 1 World.init) = [] := by
  decide!

/-- Expected 0.1, threshold -0.9 and a reading of 1: the exact difference is
below the negated threshold, the float64 difference is equal to it, so the
low test fails and `Check` raises the high alert. -/
theorem Check_rounds_the_difference_high :
    (1 : ℚ) - 3602879701896397 / 36028797018963968 < 8106479329266893 / 9007199254740992 ∧
    (1 : Float64) - Float64.round (1 / 10) = Float64.round (9 / 10) ∧
    -(-Float64.round (9 / 10)) = Float64.round (9 / 10) ∧
    temperatureAlerts (checkTrace (sampleMonitor (Float64.round (1 / 10)) (-Float64.round (9 / 10)))
      (sampleEnv (sampleUnit [sampleValue "WATER_TEMPERATURE" "1"])) 1 World.init) = ["high"] := by
  decide!

/-! ## `SelectUnit` and `Initialize` -/

/-- C3, the code at the failing input: against a server that accepts every
login, lists one unit and answers every detail query with an empty
response, `SelectUnit` does not return, whatever fuel it is given: each
reconnect selects the listed unit again, which reconnects again. -/
theorem SelectUnit_never_returns_on_empty_responses :
    ∀ (fuel : Nat) (sn : String) (c : AsekoClient) (w : World),
      SelectUnit (sampleEnv emptyUnit) fuel sn c w = none := by
  intro fuel
  induction fuel with
  | zero => intro sn c w; rfl
  | succ n ih =>
    intro sn c w
    have hb : ¬ "token-0123456789".utf8ByteSize < 10 := by decide
    have hl : ∀ l, (sampleEnv emptyUnit).login l = Reply.ok "token-0123456789" := fun _ => rfl
    have hu : ∀ l, (sampleEnv emptyUnit).units l
        = Reply.ok { Units := [{ SerialNumber := "SN1", Name := "pool", Online := true }] } :=
      fun _ => rfl
    have hd : ∀ l, (sampleEnv emptyUnit).detail l = Reply.ok emptyUnit := fun _ => rfl
    have hs : emptyUnit.SerialNumber = "" := rfl
    simp [SelectUnit, InitializeWith, Login, fetchUnitList, hl, hu, hd, hs, ih, hb]

/-- C4: when the detail response has a non-empty serial, `SelectUnit`
returns after this one request; kinds `UnitNotFoundError` and
`UnitAccessDeniedError` give an error and leave the client as it was, kinds
`UnitNeverConnected` and `Unit` give success with the response cached as the
selected unit. -/
theorem SelectUnit_decision_table (env : Env) (fuel : Nat) (sn : String) (c : AsekoClient)
    (w : World) (resp : UnitResponse)
    (hreply : env.detail (w.issue (Request.unitDetail c.token sn)).requests = Reply.ok resp)
    (hserial : resp.SerialNumber ≠ "") :
    (resp.Typename = "UnitNotFoundError" →
      SelectUnit env (fuel + 1) sn c w
        = some (Res.err (Err.unitNotFound sn), c, w.issue (Request.unitDetail c.token sn))) ∧
    (resp.Typename = "UnitAccessDeniedError" →
      SelectUnit env (fuel + 1) sn c w
        = some (Res.err (Err.accessDenied sn), c, w.issue (Request.unitDetail c.token sn))) ∧
    (resp.Typename = "UnitNeverConnected" →
      SelectUnit env (fuel + 1) sn c w
        = some (Res.ok (), { c with selectedUnit := some resp },
            w.issue (Request.unitDetail c.token sn))) ∧
    (resp.Typename = "Unit" →
      SelectUnit env (fuel + 1) sn c w
        = some (Res.ok (), { c with selectedUnit := some resp },
            w.issue (Request.unitDetail c.token sn))) := by
  refine ⟨?_, ?_, ?_, ?_⟩ <;> intro ht <;>
    simp [SelectUnit, hreply, hserial, ht]

/-- A response of kind `Unit` for `SN1` is cached and the call succeeds. -/
theorem SelectUnit_decision_table_witness :
    (sampleEnv (sampleUnit [])).detail
        (World.init.issue (Request.unitDetail sampleClient.token "SN1")).requests
      = Reply.ok (sampleUnit []) ∧
    (sampleUnit []).SerialNumber ≠ "" ∧
    (sampleUnit []).Typename = "Unit" ∧
    SelectUnit (sampleEnv (sampleUnit [])) 1 "SN1" { sampleClient with selectedUnit := none }
        World.init
      = some (Res.ok (), { sampleClient with selectedUnit := some (sampleUnit []) },
          World.init.issue (Request.unitDetail sampleClient.token "SN1")) :=
  ⟨rfl, by decide, rfl,
    (SelectUnit_decision_table (sampleEnv (sampleUnit [])) 0 "SN1"
      { sampleClient with selectedUnit := none } World.init (sampleUnit []) rfl
      (by decide)).2.2.2 rfl⟩

/-- C5 (as stated) fails: a response with serial `SN1` and the unrecognised
kind `Gateway` makes `SelectUnit` return an error and cache nothing. -/
theorem SelectUnit_unknown_kind_counterexample :
    (kindUnit "Gateway").SerialNumber ≠ "" ∧
    (kindUnit "Gateway").Typename ∉
      ["UnitNotFoundError", "UnitAccessDeniedError", "UnitNeverConnected", "Unit"] ∧
    (SelectUnit (sampleEnv (kindUnit "Gateway")) 1 "SN1"
        { sampleClient with selectedUnit := none } World.init).map (fun r => r.1.isOk)
      = some false ∧
    (SelectUnit (sampleEnv (kindUnit "Gateway")) 1 "SN1"
        { sampleClient with selectedUnit := none } World.init).map (fun r => r.2.1.selectedUnit)
      = some none := by
  decide

/-- C5 (amended): for a detail response with a non-empty serial, an empty
kind is treated as a normal device (the response is cached and the call
succeeds), and a non-empty kind that is none of the four recognised ones
makes `SelectUnit` return the error "unknown response type" and leave the
client as it was. -/
theorem SelectUnit_fallback (env : Env) (fuel : Nat) (sn : String) (c : AsekoClient)
    (w : World) (resp : UnitResponse)
    (hreply : env.detail (w.issue (Request.unitDetail c.token sn)).requests = Reply.ok resp)
    (hserial : resp.SerialNumber ≠ "") :
    (resp.Typename = "" →
      SelectUnit env (fuel + 1) sn c w
        = some (Res.ok (), { c with selectedUnit := some resp },
            w.issue (Request.unitDetail c.token sn))) ∧
    (resp.Typename ≠ "" →
      resp.Typename ∉
        ["UnitNotFoundError", "UnitAccessDeniedError", "UnitNeverConnected", "Unit"] →
      SelectUnit env (fuel + 1) sn c w
        = some (Res.err (Err.unknownType resp.Typename), c,
            w.issue (Request.unitDetail c.token sn))) := by
  constructor
  · intro ht
    simp [SelectUnit, hreply, hserial, ht]
  · intro hne hnot
    simp only [List.mem_cons, List.mem_singleton, List.not_mem_nil, or_false, not_or] at hnot
    simp [SelectUnit, hreply, hserial, hne, hnot.1, hnot.2.1, hnot.2.2.1, hnot.2.2.2]

/-- A response for `SN1` with an empty kind is cached and the call succeeds. -/
theorem SelectUnit_fallback_witness :
    (sampleEnv (kindUnit "")).detail
        (World.init.issue (Request.unitDetail sampleClient.token "SN1")).requests
      = Reply.ok (kindUnit "") ∧
    (kindUnit "").SerialNumber ≠ "" ∧
    (kindUnit "").Typename = "" ∧
    SelectUnit (sampleEnv (kindUnit "")) 1 "SN1" { sampleClient with selectedUnit := none }
        World.init
      = some (Res.ok (), { sampleClient with selectedUnit := some (kindUnit "") },
          World.init.issue (Request.unitDetail sampleClient.token "SN1")) :=
  ⟨rfl, by decide, rfl,
    (SelectUnit_fallback (sampleEnv (kindUnit "")) 0 "SN1"
      { sampleClient with selectedUnit := none } World.init (kindUnit "") rfl (by decide)).1 rfl⟩

/-- C6: with no unit selected `GetMeasurements` returns the error "no unit
selected" and no measurement set, and leaves the client and the world
(request log included) exactly as they were. -/
theorem GetMeasurements_no_unit_selected (env : Env) (fuel : Nat) (c : AsekoClient) (w : World)
    (h : c.selectedUnit = none) :
    GetMeasurements env fuel c w = some (Res.err Err.noUnitSelected, c, w) := by
  simp [GetMeasurements, h]

/-- A client without a selected unit gets the error and issues no request,
even with no fuel at all. -/
theorem GetMeasurements_no_unit_selected_witness :
    ({ sampleClient with selectedUnit := none } : AsekoClient).selectedUnit = none ∧
    GetMeasurements (sampleEnv (sampleUnit [])) 0 { sampleClient with selectedUnit := none }
        World.init
      = some (Res.err Err.noUnitSelected, { sampleClient with selectedUnit := none },
          World.init) :=
  ⟨rfl, GetMeasurements_no_unit_selected (sampleEnv (sampleUnit [])) 0
    { sampleClient with selectedUnit := none } World.init rfl⟩

/-- The call `Login` issues exactly one request, whatever its outcome. -/
theorem Login_requests (env : Env) (c : AsekoClient) (w : World) :
    (Login env c w).2.2.requests = w.requests ++ [Request.login] := by
  unfold Login
  dsimp only
  repeat' split
  all_goals rfl

/-- C10 (as stated) fails: the first selection fails, the additional login
fails too, and `Initialize` returns an error after four requests, without
any additional selection. -/
theorem Initialize_second_login_fails_counterexample :
    requestsOf (Initialize (scriptedEnv (fun n => decide (n ≤ 1)) (fun _ => false)) 1
        freshClient World.init)
      = [Request.login, Request.unitList "token-0123456789",
         Request.unitDetail "token-0123456789" "SN1", Request.login] ∧
    (Initialize (scriptedEnv (fun n => decide (n ≤ 1)) (fun _ => false)) 1 freshClient
        World.init).map (fun r => r.1.isErr) = some true := by
  decide

/-- C10 (amended): when the first selection of the first listed unit fails,
`Initialize` logs in once more. If that login returns an error,
`Initialize` returns an error right after it, without a further selection.
If it succeeds, `Initialize` runs `SelectUnit` once more for the same serial
and ends where that call ends: with success if it succeeds and with an
error if it fails. -/
theorem Initialize_retries_once (env : Env) (fuel : Nat) (c c1 c2 c3 : AsekoClient)
    (w w1 w2 w3 : World) (unitList : UnitListResponse) (first : UnitListEntry)
    (rest : List UnitListEntry) (e : Err)
    (hlogin : Login env c w = (Res.ok (), c1, w1))
    (hfetch : fetchUnitList env c1 w1 = (Res.ok (), c2, w2))
    (hlist : c2.unitList = some unitList)
    (hfirst : unitList.Units = first :: rest)
    (hsel : SelectUnit env fuel first.SerialNumber c2 w2 = some (Res.err e, c3, w3)) :
    (∀ e4 c4 w4, Login env c3 w3 = (Res.err e4, c4, w4) →
      Initialize env fuel c w = some (Res.err (Err.wrap "error refreshing token" e4), c4, w4) ∧
      w4.requests = w3.requests ++ [Request.login]) ∧
    (∀ c4 w4, Login env c3 w3 = (Res.ok (), c4, w4) →
      w4.requests = w3.requests ++ [Request.login] ∧
      (∀ c5 w5, SelectUnit env fuel first.SerialNumber c4 w4 = some (Res.ok (), c5, w5) →
        Initialize env fuel c w = some (Res.ok (), c5, w5)) ∧
      (∀ e5 c5 w5, SelectUnit env fuel first.SerialNumber c4 w4 = some (Res.err e5, c5, w5) →
        Initialize env fuel c w
          = some (Res.err (Err.wrap "error selecting first unit after token refresh" e5),
              c5, w5))) := by
  have hreq := Login_requests env c3 w3
  constructor
  · intro e4 c4 w4 h4
    rw [h4] at hreq
    refine ⟨?_, hreq⟩
    simp [Initialize, InitializeWith, hlogin, hfetch, hlist, hfirst, hsel, h4]
  · intro c4 w4 h4
    rw [h4] at hreq
    refine ⟨hreq, ?_, ?_⟩
    · intro c5 w5 h5
      simp [Initialize, InitializeWith, hlogin, hfetch, hlist, hfirst, hsel, h4, h5]
    · intro e5 c5 w5 h5
      simp [Initialize, InitializeWith, hlogin, hfetch, hlist, hfirst, hsel, h4, h5]

/-- The end-to-end example of the specification: one listed unit whose detail
query fails once and then succeeds. The first selection fails, and
`Initialize` succeeds after one more login and one more detail query. -/
theorem Initialize_retries_once_witness :
    SelectUnit (scriptedEnv (fun _ => true) (fun n => decide (3 < n))) 1 "SN1"
        { token := "token-0123456789",
          unitList := some { Units := [{ SerialNumber := "SN1", Name := "pool", Online := true }] },
          selectedUnit := none }
        { requests := [Request.login, Request.unitList "token-0123456789"], ticks := 0,
          emails := [], trace := [] }
      = some (Res.err (Err.wrap "error making request" Err.doFailed),
          { token := "token-0123456789",
            unitList := some { Units := [{ SerialNumber := "SN1", Name := "pool", Online := true }] },
            selectedUnit := none },
          { requests := [Request.login, Request.unitList "token-0123456789",
              Request.unitDetail "token-0123456789" "SN1"], ticks := 0, emails := [],
            trace := [] }) ∧
    Initialize (scriptedEnv (fun _ => true) (fun n => decide (3 < n))) 1 freshClient World.init
      = some (Res.ok (),
          { token := "token-0123456789",
            unitList := some { Units := [{ SerialNumber := "SN1", Name := "pool", Online := true }] },
            selectedUnit := some (sampleUnit []) },
          { requests := [Request.login, Request.unitList "token-0123456789",
              Request.unitDetail "token-0123456789" "SN1", Request.login,
              Request.unitDetail "token-0123456789" "SN1"],
            ticks := 0, emails := [], trace := [] }) :=
  ⟨rfl, ((Initialize_retries_once (scriptedEnv (fun _ => true) (fun n => decide (3 < n))) 1
      freshClient
      { token := "token-0123456789", unitList := none, selectedUnit := none }
      { token := "token-0123456789",
        unitList := some { Units := [{ SerialNumber := "SN1", Name := "pool", Online := true }] },
        selectedUnit := none }
      { token := "token-0123456789",
        unitList := some { Units := [{ SerialNumber := "SN1", Name := "pool", Online := true }] },
        selectedUnit := none }
      World.init
      { requests := [Request.login], ticks := 0, emails := [], trace := [] }
      { requests := [Request.login, Request.unitList "token-0123456789"], ticks := 0,
        emails := [], trace := [] }
      { requests := [Request.login, Request.unitList "token-0123456789",
          Request.unitDetail "token-0123456789" "SN1"], ticks := 0, emails := [], trace := [] }
      { Units := [{ SerialNumber := "SN1", Name := "pool", Online := true }] }
      { SerialNumber := "SN1", Name := "pool", Online := true } []
      (Err.wrap "error making request" Err.doFailed)
      rfl rfl rfl rfl rfl).2
    { token := "token-0123456789",
      unitList := some { Units := [{ SerialNumber := "SN1", Name := "pool", Online := true }] },
      selectedUnit := none }
    { requests := [Request.login, Request.unitList "token-0123456789",
        Request.unitDetail "token-0123456789" "SN1", Request.login],
      ticks := 0, emails := [], trace := [] }
    rfl).2.1 _ _ rfl⟩

/-! ## `GetMeasurements` -/

/-- Removing the key `k` does not change what is stored under another key. -/
theorem lookup_filter_ne (key k : String) :
    ∀ m : MeasurementMap, key ≠ k →
      List.lookup key (m.filter (fun kv => kv.1 ≠ k)) = List.lookup key m := by
  intro m hne
  induction m with
  | nil => rfl
  | cons kv rest ih =>
    obtain ⟨a, b⟩ := kv
    by_cases ha : a = k
    · subst ha
      have hka : (key == a) = false := by simpa using hne
      rw [List.filter_cons]
      simp only [ne_eq, not_true_eq_false, decide_False, Bool.false_eq_true, if_false,
        List.lookup_cons, hka]
      exact ih
    · by_cases hk : key = a
      · subst hk
        rw [List.filter_cons]
        simp [List.lookup_cons, ha]
      · have hka : (key == a) = false := by simpa using hk
        rw [List.filter_cons]
        simp only [ne_eq, ha, not_false_eq_true, decide_True, if_true, List.lookup_cons, hka]
        exact ih

/-- Reading a map after a write. -/
theorem get_set (m : MeasurementMap) (k key : String) (v : Measurement) :
    (m.set k v).get key = if key = k then some v else m.get key := by
  unfold MeasurementMap.set MeasurementMap.get
  by_cases h : key = k
  · subst h; simp [List.lookup_cons]
  · have hkk : (key == k) = false := by simpa using h
    rw [List.lookup_cons, hkk, if_neg h]
    exact lookup_filter_ne key k m h

/-- The keys of a map after a write. -/
theorem isSome_get_set (m : MeasurementMap) (k key : String) (v : Measurement) :
    ((m.set k v).get key).isSome = true ↔ ((m.get key).isSome = true ∨ k = key) := by
  rw [get_set]
  by_cases h : key = k
  · simp [h]
  · have : ¬ k = key := fun e => h e.symm
    simp [h, this]

/-- One iteration of the extraction loop adds the canonical key of the
entry, if it has one, and no other key. -/
theorem processStatusValue_get (env : Env) (acc : MeasurementMap × World) (sv : StatusValue)
    (key : String) :
    ((processStatusValue env acc sv).1.get key).isSome = true ↔
      ((acc.1.get key).isSome = true ∨ canonicalKey sv.Type_ = some key) := by
  unfold processStatusValue canonicalKey
  by_cases h1 : sv.Type_ = "REDOX"
  · simp only [if_pos h1, isSome_get_set, Option.some.injEq]
  · simp only [if_neg h1]
    by_cases h2 : sv.Type_ = "PH"
    · simp only [if_pos h2, isSome_get_set, Option.some.injEq]
    · simp only [if_neg h2]
      by_cases h3 : sv.Type_ = "WATER_TEMPERATURE"
      · simp only [if_pos h3, isSome_get_set, Option.some.injEq]
      · simp only [if_neg h3]
        by_cases h4 : sv.Type_ = "WATER_FLOW_TO_PROBES"
        · simp only [if_pos h4, isSome_get_set, Option.some.injEq]
        · simp only [if_neg h4]
          simp

/-- The keys after the extraction loop: those before it and the canonical
keys of the entries. -/
theorem foldl_processStatusValue_get (env : Env) (key : String) :
    ∀ (primary : List StatusValue) (acc : MeasurementMap × World),
      ((primary.foldl (processStatusValue env) acc).1.get key).isSome = true ↔
        ((acc.1.get key).isSome = true ∨ ∃ sv ∈ primary, canonicalKey sv.Type_ = some key) := by
  intro primary
  induction primary with
  | nil => intro acc; simp
  | cons sv rest ih =>
    intro acc
    rw [List.foldl_cons, ih, processStatusValue_get]
    simp only [List.mem_cons, exists_eq_or_imp]
    tauto

/-- The table of `canonicalKey`, read backwards. -/
theorem canonicalKey_eq (type_ key : String) :
    canonicalKey type_ = some key ↔
      ((type_ = "REDOX" ∧ key = "Redox") ∨ (type_ = "PH" ∧ key = "PH") ∨
        (type_ = "WATER_TEMPERATURE" ∧ key = "Temp") ∨
        (type_ = "WATER_FLOW_TO_PROBES" ∧ key = "WaterFlow")) := by
  unfold canonicalKey
  by_cases h1 : type_ = "REDOX"
  · subst h1; simp [eq_comm]
  · by_cases h2 : type_ = "PH"
    · subst h2; simp [eq_comm]
    · by_cases h3 : type_ = "WATER_TEMPERATURE"
      · subst h3; simp [eq_comm]
      · by_cases h4 : type_ = "WATER_FLOW_TO_PROBES"
        · subst h4; simp [eq_comm]
        · simp [h1, h2, h3, h4]

/-- C7: when `GetMeasurements` succeeds, the client holds the refreshed
snapshot, and the returned set has the key `Temp`, `PH`, `Redox` or
`WaterFlow` exactly when the primary status values of that snapshot have an
entry of type `WATER_TEMPERATURE`, `PH`, `REDOX` or `WATER_FLOW_TO_PROBES`
respectively; it has no other key. A measurement that is missing from the
response is therefore absent from the set. -/
theorem GetMeasurements_keys (env : Env) (fuel : Nat) (c : AsekoClient) (w : World)
    (m : MeasurementMap) (c1 : AsekoClient) (w1 : World)
    (h : GetMeasurements env fuel c w = some (Res.ok m, c1, w1)) :
    ∃ snapshot, c1.selectedUnit = some snapshot ∧
      ((m.get "Temp").isSome = true ↔ ∃ sv ∈ snapshot.Primary, sv.Type_ = "WATER_TEMPERATURE") ∧
      ((m.get "PH").isSome = true ↔ ∃ sv ∈ snapshot.Primary, sv.Type_ = "PH") ∧
      ((m.get "Redox").isSome = true ↔ ∃ sv ∈ snapshot.Primary, sv.Type_ = "REDOX") ∧
      ((m.get "WaterFlow").isSome = true ↔
        ∃ sv ∈ snapshot.Primary, sv.Type_ = "WATER_FLOW_TO_PROBES") ∧
      (∀ key, (m.get key).isSome = true → key ∈ ["Temp", "PH", "Redox", "WaterFlow"]) := by
  unfold GetMeasurements at h
  split at h
  · cases h
  · split at h
    · cases h
    · cases h
    · cases h
    · split at h
      · cases h
      · rename_i u0 c2 w2 hs _ refreshed hsel
        simp only [Option.some.injEq, Prod.mk.injEq, Res.ok.injEq] at h
        obtain ⟨hm, hc, _⟩ := h
        subst hm hc
        have key := fun k => foldl_processStatusValue_get env k refreshed.Primary ([], w2)
        refine ⟨refreshed, hsel, ?_, ?_, ?_, ?_, ?_⟩
        · rw [key]; simp [MeasurementMap.get, canonicalKey_eq]
        · rw [key]; simp [MeasurementMap.get, canonicalKey_eq]
        · rw [key]; simp [MeasurementMap.get, canonicalKey_eq]
        · rw [key]; simp [MeasurementMap.get, canonicalKey_eq]
        · intro k hk
          rw [key] at hk
          simp only [MeasurementMap.get, List.lookup_nil, Option.isSome_none,
            Bool.false_eq_true, false_or] at hk
          obtain ⟨sv, _, hsv⟩ := hk
          rw [canonicalKey_eq] at hsv
          rcases hsv with ⟨_, h⟩ | ⟨_, h⟩ | ⟨_, h⟩ | ⟨_, h⟩ <;> simp [h]

/-- A snapshot with a temperature and a pH entry yields exactly the keys
`Temp` and `PH`. -/
theorem GetMeasurements_keys_witness :
    GetMeasurements
        (sampleEnv (sampleUnit [sampleValue "WATER_TEMPERATURE" "25.5", sampleValue "PH" "7.2"]))
        1 sampleClient World.init
      = some (Res.ok [("PH", { Value := Float64.round (36 / 5), Unit := "", UpdatedAt := 1001 }),
                      ("Temp", { Value := Float64.finite (51 / 2), Unit := "°C", UpdatedAt := 1000 })],
          { sampleClient with
            selectedUnit := some (sampleUnit
              [sampleValue "WATER_TEMPERATURE" "25.5", sampleValue "PH" "7.2"]) },
          { requests := [Request.unitDetail "token-0123456789" "SN1"], ticks := 2, emails := [],
            trace := [] }) ∧
    ∃ snapshot,
      ({ sampleClient with
          selectedUnit := some (sampleUnit
            [sampleValue "WATER_TEMPERATURE" "25.5", sampleValue "PH" "7.2"]) }
        : AsekoClient).selectedUnit = some snapshot ∧
      ((MeasurementMap.get [("PH", { Value := Float64.round (36 / 5), Unit := "", UpdatedAt := 1001 }),
            ("Temp", { Value := Float64.finite (51 / 2), Unit := "°C", UpdatedAt := 1000 })] "Temp").isSome = true ↔
        ∃ sv ∈ snapshot.Primary, sv.Type_ = "WATER_TEMPERATURE") ∧
      ((MeasurementMap.get [("PH", { Value := Float64.round (36 / 5), Unit := "", UpdatedAt := 1001 }),
            ("Temp", { Value := Float64.finite (51 / 2), Unit := "°C", UpdatedAt := 1000 })] "PH").isSome = true ↔
        ∃ sv ∈ snapshot.Primary, sv.Type_ = "PH") ∧
      ((MeasurementMap.get [("PH", { Value := Float64.round (36 / 5), Unit := "", UpdatedAt := 1001 }),
            ("Temp", { Value := Float64.finite (51 / 2), Unit := "°C", UpdatedAt := 1000 })] "Redox").isSome = true ↔
        ∃ sv ∈ snapshot.Primary, sv.Type_ = "REDOX") ∧
      ((MeasurementMap.get [("PH", { Value := Float64.round (36 / 5), Unit := "", UpdatedAt := 1001 }),
            ("Temp", { Value := Float64.finite (51 / 2), Unit := "°C", UpdatedAt := 1000 })] "WaterFlow").isSome
          = true ↔
        ∃ sv ∈ snapshot.Primary, sv.Type_ = "WATER_FLOW_TO_PROBES") ∧
      (∀ key, (MeasurementMap.get [("PH", { Value := Float64.round (36 / 5), Unit := "", UpdatedAt := 1001 }),
            ("Temp", { Value := Float64.finite (51 / 2), Unit := "°C", UpdatedAt := 1000 })] key).isSome = true →
        key ∈ ["Temp", "PH", "Redox", "WaterFlow"]) :=
  ⟨rfl, GetMeasurements_keys
    (sampleEnv (sampleUnit [sampleValue "WATER_TEMPERATURE" "25.5", sampleValue "PH" "7.2"]))
    1 sampleClient World.init
    [("PH", { Value := Float64.round (36 / 5), Unit := "", UpdatedAt := 1001 }),
     ("Temp", { Value := Float64.finite (51 / 2), Unit := "°C", UpdatedAt := 1000 })]
    { sampleClient with
      selectedUnit := some (sampleUnit
        [sampleValue "WATER_TEMPERATURE" "25.5", sampleValue "PH" "7.2"]) }
    { requests := [Request.unitDetail "token-0123456789" "SN1"], ticks := 2, emails := [],
      trace := [] } rfl⟩

/-! ## The messages of the monitor -/

/-- The emails handed over by `Send` carry the subject, body and priority
of the message it was given. -/
theorem Send_emails (s : AlertService) (env : Env) (message : Message) (receiver : Receiver)
    (w : World) :
    ∃ sent, (s.Send env message receiver w).2.emails = w.emails ++ sent ∧
      ∀ p ∈ sent, p.1.Priority = message.Priority ∧ p.1.Subject = message.Subject ∧
        p.1.Body = message.Body := by
  have hd : ∀ (m : Message) (w0 : World),
      ∃ sent, (s.deliver m receiver w0).2.emails = w0.emails ++ sent ∧
        ∀ p ∈ sent, p.1 = m := by
    intro m w0
    unfold AlertService.deliver
    split
    · exact ⟨[], by simp, by simp⟩
    · split
      · split
        · exact ⟨[(m, receiver)], rfl, by simp⟩
        · exact ⟨[(m, receiver)], rfl, by simp⟩
      · exact ⟨[], by simp, by simp⟩
  unfold AlertService.Send
  split
  · exact ⟨[], by simp [World.record], by simp⟩
  · dsimp only
    split
    · obtain ⟨sent, h1, h2⟩ := hd { message with Timestamp := (timeNow env w).1 } (timeNow env w).2
      refine ⟨sent, ?_, ?_⟩
      · simpa [World.record, timeNow] using h1
      · intro p hp
        rw [h2 p hp]
        exact ⟨rfl, rfl, rfl⟩
    · obtain ⟨sent, h1, h2⟩ := hd message w
      refine ⟨sent, ?_, ?_⟩
      · simpa [World.record] using h1
      · intro p hp
        rw [h2 p hp]
        exact ⟨rfl, rfl, rfl⟩

/-- The emails handed over by the loop of `SendToMultiple` carry the
subject, body and priority of its message. -/
theorem foldl_sendStep_emails (s : AlertService) (env : Env) (message : Message) :
    ∀ (receivers : List Receiver) (acc : List Err × World),
      ∃ sent, (receivers.foldl (s.sendStep env message) acc).2.emails = acc.2.emails ++ sent ∧
        ∀ p ∈ sent, p.1.Priority = message.Priority ∧ p.1.Subject = message.Subject ∧
          p.1.Body = message.Body := by
  intro receivers
  induction receivers with
  | nil => intro acc; exact ⟨[], by simp, by simp⟩
  | cons r rest ih =>
    intro acc
    obtain ⟨sent2, h2, hp2⟩ := ih (s.sendStep env message acc r)
    obtain ⟨sent1, h1, hp1⟩ := Send_emails s env message r acc.2
    have hstep : (s.sendStep env message acc r).2.emails = acc.2.emails ++ sent1 := by
      unfold AlertService.sendStep
      cases hS : s.Send env message r acc.2 with
      | mk res w1 =>
        rw [hS] at h1
        cases res <;> simpa using h1
    refine ⟨sent1 ++ sent2, ?_, ?_⟩
    · rw [List.foldl_cons, h2, hstep, List.append_assoc]
    · intro p hp
      rcases List.mem_append.mp hp with h | h
      · exact hp1 p h
      · exact hp2 p h

/-- The emails handed over by `SendToMultiple` carry the subject, body and
priority of its message. -/
theorem SendToMultiple_emails (s : AlertService) (env : Env) (message : Message)
    (receivers : List Receiver) (w : World) :
    ∃ sent, (s.SendToMultiple env message receivers w).2.emails = w.emails ++ sent ∧
      ∀ p ∈ sent, p.1.Priority = message.Priority ∧ p.1.Subject = message.Subject ∧
        p.1.Body = message.Body := by
  unfold AlertService.SendToMultiple
  split
  · exact ⟨[], by simp, by simp⟩
  · generalize hst : (if message.Timestamp = 0 then
          (({ message with Timestamp := (timeNow env w).1 } : Message), (timeNow env w).2)
        else (message, w)) = stamped
    have hw : stamped.2.emails = w.emails ∧ stamped.1.Priority = message.Priority ∧
        stamped.1.Subject = message.Subject ∧ stamped.1.Body = message.Body := by
      rw [← hst]; split <;> simp [timeNow]
    obtain ⟨sent, h1, h2⟩ := foldl_sendStep_emails s env stamped.1 receivers ([], stamped.2)
    refine ⟨sent, ?_, ?_⟩
    · dsimp only at h1 ⊢
      split <;> simp [h1, hw.1]
    · intro p hp
      obtain ⟨a, b, c⟩ := h2 p hp
      exact ⟨a.trans hw.2.1, b.trans hw.2.2.1, c.trans hw.2.2.2⟩

/-- C11: every message the monitor hands to the email alerter while
sending a low-temperature alert has priority High, while sending a
high-temperature alert priority Normal, and while sending a water-flow alert
priority Critical, whatever the measured values; these are the priorities of
the messages built, whatever the two clock readings are. -/
theorem alert_priority_by_kind (pm : PoolMonitor) (env : Env) (current expected delta : Float64)
    (w : World) :
    (∀ bodyTime stamp,
      (temperatureMessage env "low" current expected delta bodyTime stamp).Priority
          = Priority.PriorityHigh ∧
      (temperatureMessage env "high" current expected delta bodyTime stamp).Priority
          = Priority.PriorityNormal ∧
      (waterFlowMessage env bodyTime stamp).Priority = Priority.PriorityCritical) ∧
    (∃ sent, (pm.sendTemperatureAlert env "low" current expected delta w).emails
        = w.emails ++ sent ∧ ∀ p ∈ sent, p.1.Priority = Priority.PriorityHigh) ∧
    (∃ sent, (pm.sendTemperatureAlert env "high" current expected delta w).emails
        = w.emails ++ sent ∧ ∀ p ∈ sent, p.1.Priority = Priority.PriorityNormal) ∧
    (∃ sent, (pm.sendWaterFlowAlert env w).emails
        = w.emails ++ sent ∧ ∀ p ∈ sent, p.1.Priority = Priority.PriorityCritical) := by
  have hlow : ∀ bodyTime stamp,
      (temperatureMessage env "low" current expected delta bodyTime stamp).Priority
        = Priority.PriorityHigh := by
    intro b t; simp [temperatureMessage]
  have hhigh : ∀ bodyTime stamp,
      (temperatureMessage env "high" current expected delta bodyTime stamp).Priority
        = Priority.PriorityNormal := by
    intro b t
    have : ¬ "high" = "low" := by decide
    simp [temperatureMessage, this]
  have hflow : ∀ bodyTime stamp,
      (waterFlowMessage env bodyTime stamp).Priority = Priority.PriorityCritical := by
    intro b t; rfl
  have htemp : ∀ (alertType : String) (prio : Priority),
      (∀ b t, (temperatureMessage env alertType current expected delta b t).Priority = prio) →
      ∃ sent, (pm.sendTemperatureAlert env alertType current expected delta w).emails
        = w.emails ++ sent ∧ ∀ p ∈ sent, p.1.Priority = prio := by
    intro alertType prio hprio
    unfold PoolMonitor.sendTemperatureAlert
    dsimp only
    split
    · exact ⟨[], by simp [World.record], by simp⟩
    · split
      · exact ⟨[], by simp [World.record], by simp⟩
      · split
        · exact ⟨[], by simp [World.record], by simp⟩
        · rename_i service _ _ _
          obtain ⟨sent, h1, h2⟩ := SendToMultiple_emails service env
            (temperatureMessage env alertType current expected delta
              (timeNow env (w.record (Event.sendTemperatureAlert alertType current expected
                delta))).1
              (timeNow env (timeNow env (w.record (Event.sendTemperatureAlert alertType
                current expected delta))).2).1)
            pm.defaultReceivers
            (timeNow env (timeNow env (w.record (Event.sendTemperatureAlert alertType
              current expected delta))).2).2
          refine ⟨sent, ?_, ?_⟩
          · rw [h1]; simp [timeNow, World.record]
          · intro p hp
            rw [(h2 p hp).1]
            exact hprio _ _
  refine ⟨fun b t => ⟨hlow b t, hhigh b t, hflow b t⟩, htemp "low" _ hlow, htemp "high" _ hhigh,
    ?_⟩
  unfold PoolMonitor.sendWaterFlowAlert
  dsimp only
  split
  · exact ⟨[], by simp [World.record], by simp⟩
  · split
    · exact ⟨[], by simp [World.record], by simp⟩
    · split
      · exact ⟨[], by simp [World.record], by simp⟩
      · rename_i service _ _ _
        obtain ⟨sent, h1, h2⟩ := SendToMultiple_emails service env
          (waterFlowMessage env (timeNow env (w.record Event.sendWaterFlowAlert)).1
            (timeNow env (timeNow env (w.record Event.sendWaterFlowAlert)).2).1)
          pm.defaultReceivers
          (timeNow env (timeNow env (w.record Event.sendWaterFlowAlert)).2).2
        refine ⟨sent, ?_, ?_⟩
        · rw [h1]; simp [timeNow, World.record]
        · intro p hp
          rw [(h2 p hp).1]
          rfl

/-- With an enabled service and one receiver, each kind of alert hands
exactly one message to the alerter, with the priority of its kind. -/
theorem alert_priority_examples :
    ((sampleMonitor 28 2).sendTemperatureAlert (sampleEnv emptyUnit) "low" (Float64.finite (51 / 2)) 28 (Float64.finite (-5 / 2))
        World.init).emails.map (fun p => p.1.Priority) = [Priority.PriorityHigh] ∧
    ((sampleMonitor 28 2).sendTemperatureAlert (sampleEnv emptyUnit) "high" 31 28 3
        World.init).emails.map (fun p => p.1.Priority) = [Priority.PriorityNormal] ∧
    ((sampleMonitor 28 2).sendWaterFlowAlert (sampleEnv emptyUnit)
        World.init).emails.map (fun p => p.1.Priority) = [Priority.PriorityCritical] := by
  decide

/-! ## The extraction loop of `GetMeasurements` -/

/-- A successful `SelectUnit` leaves a unit selected, so `GetMeasurements`
never dereferences a nil snapshot. -/
theorem SelectUnit_ok_selected (env : Env) (fuel : Nat) (sn : String) (c : AsekoClient)
    (w : World) (u : Unit) (c1 : AsekoClient) (w1 : World)
    (h : SelectUnit env fuel sn c w = some (Res.ok u, c1, w1)) :
    ∃ snapshot, c1.selectedUnit = some snapshot := by
  cases fuel with
  | zero => simp [SelectUnit] at h
  | succ n =>
    rw [SelectUnit] at h
    split at h
    · cases h
    · cases h
    · cases h
    · split at h
      · split at h
        · cases h
        · cases h
        · cases h
        · rename_i c2 w2 _
          simp only [Option.some.injEq] at h
          unfold selectUnitAfterReconnect at h
          dsimp only at h
          repeat' split at h
          all_goals first
            | (cases h; done)
            | (cases h; exact ⟨_, rfl⟩)
      · repeat' split at h
        all_goals first
          | (cases h; done)
          | (cases h; exact ⟨_, rfl⟩)

/-- An entry of an unknown remote type leaves the accumulator of the
extraction loop as it is: neither the map nor the clock is touched. -/
theorem processStatusValue_unknown (env : Env) (acc : MeasurementMap × World) (sv : StatusValue)
    (h : isKnownType sv.Type_ = false) : processStatusValue env acc sv = acc := by
  simp only [isKnownType, decide_eq_false_iff_not, not_or] at h
  unfold processStatusValue
  rw [if_neg h.1, if_neg h.2.1, if_neg h.2.2.1, if_neg h.2.2.2]

/-- The extraction loop gives the same map and world on a list and on the
list without its entries of unknown type. -/
theorem foldl_processStatusValue_filter (env : Env) :
    ∀ (primary : List StatusValue) (acc : MeasurementMap × World),
      primary.foldl (processStatusValue env) acc
        = (primary.filter (fun sv => isKnownType sv.Type_)).foldl (processStatusValue env) acc := by
  intro primary
  induction primary with
  | nil => intro acc; rfl
  | cons sv rest ih =>
    intro acc
    cases hk : isKnownType sv.Type_ with
    | true => simp only [List.foldl_cons, List.filter_cons, hk, if_true]; exact ih _
    | false =>
      simp only [List.foldl_cons, List.filter_cons, hk, Bool.false_eq_true, if_false]
      rw [processStatusValue_unknown env acc sv hk]
      exact ih _

/-- What `GetMeasurements` returns once the refresh has succeeded: the
extraction loop run on the snapshot the refresh left selected. -/
theorem GetMeasurements_of_refresh (env : Env) (fuel : Nat) (c : AsekoClient) (w : World)
    (selected snapshot : UnitResponse) (c1 : AsekoClient) (w1 : World)
    (hsel : c.selectedUnit = some selected)
    (href : SelectUnit env fuel selected.SerialNumber c w = some (Res.ok (), c1, w1))
    (hsnap : c1.selectedUnit = some snapshot) :
    GetMeasurements env fuel c w
      = some (Res.ok (snapshot.Primary.foldl (processStatusValue env) ([], w1)).1, c1,
          (snapshot.Primary.foldl (processStatusValue env) ([], w1)).2) := by
  unfold GetMeasurements
  simp only [hsel, href, hsnap]

/-- A `WATER_FLOW_TO_PROBES` entry stores the pair computed from its center
value under `WaterFlow`. -/
theorem processStatusValue_flow (env : Env) (acc : MeasurementMap × World) (sv : StatusValue)
    (hf : sv.Type_ = "WATER_FLOW_TO_PROBES") :
    (processStatusValue env acc sv).1.get "WaterFlow"
      = some { Value := if sv.CenterValue = "YES" then 1 else 0,
               Unit := if sv.CenterValue = "YES" then "YES" else "NO",
               UpdatedAt := (timeNow env acc.2).1 } := by
  have h1 : ¬ sv.Type_ = "REDOX" := by rw [hf]; decide
  have h2 : ¬ sv.Type_ = "PH" := by rw [hf]; decide
  have h3 : ¬ sv.Type_ = "WATER_TEMPERATURE" := by rw [hf]; decide
  unfold processStatusValue
  rw [if_neg h1, if_neg h2, if_neg h3, if_pos hf]
  dsimp only
  rw [get_set]
  simp

/-- An entry of any other type leaves what is stored under `WaterFlow`. -/
theorem processStatusValue_not_flow (env : Env) (acc : MeasurementMap × World)
    (sv : StatusValue) (hf : ¬ sv.Type_ = "WATER_FLOW_TO_PROBES") :
    (processStatusValue env acc sv).1.get "WaterFlow" = acc.1.get "WaterFlow" := by
  unfold processStatusValue
  by_cases h1 : sv.Type_ = "REDOX"
  · rw [if_pos h1]; dsimp only; rw [get_set]; simp
  · rw [if_neg h1]
    by_cases h2 : sv.Type_ = "PH"
    · rw [if_pos h2]; dsimp only; rw [get_set]; simp
    · rw [if_neg h2]
      by_cases h3 : sv.Type_ = "WATER_TEMPERATURE"
      · rw [if_pos h3]; dsimp only; rw [get_set]; simp
      · rw [if_neg h3, if_neg hf]

/-- The entry stored under `WaterFlow` after the extraction loop is the one
built from the last `WATER_FLOW_TO_PROBES` entry of the list. -/
theorem foldl_processStatusValue_flow (env : Env) (acc : MeasurementMap × World) :
    ∀ primary : List StatusValue,
      match (primary.filter (fun sv => sv.Type_ = "WATER_FLOW_TO_PROBES")).getLast? with
      | none =>
        (primary.foldl (processStatusValue env) acc).1.get "WaterFlow" = acc.1.get "WaterFlow"
      | some sv =>
        ∃ x, (primary.foldl (processStatusValue env) acc).1.get "WaterFlow" = some x ∧
          x.Value = (if sv.CenterValue = "YES" then 1 else 0) ∧
          x.Unit = (if sv.CenterValue = "YES" then "YES" else "NO") := by
  intro primary
  induction primary using List.reverseRecOn with
  | nil => simp
  | append_singleton init sv ih =>
    rw [List.foldl_append, List.filter_append]
    simp only [List.foldl_cons, List.foldl_nil]
    by_cases hf : sv.Type_ = "WATER_FLOW_TO_PROBES"
    · have hfil : [sv].filter (fun sv => decide (sv.Type_ = "WATER_FLOW_TO_PROBES")) = [sv] := by
        simp [hf]
      have hlast : (List.filter (fun sv => decide (sv.Type_ = "WATER_FLOW_TO_PROBES")) init
          ++ [sv]).getLast? = some sv := by simp
      rw [hfil, hlast]
      dsimp only
      exact ⟨_, processStatusValue_flow env _ sv hf, rfl, rfl⟩
    · have hfil : [sv].filter (fun sv => decide (sv.Type_ = "WATER_FLOW_TO_PROBES")) = [] := by
        simp [hf]
      rw [hfil, List.append_nil, processStatusValue_not_flow env _ sv hf]
      exact ih

/-- C12: in the set returned by `GetMeasurements`, the entry `WaterFlow`
is present exactly when the refreshed snapshot has a `WATER_FLOW_TO_PROBES`
status entry, and it is built from the last such entry: value 1 and unit
`YES` when that entry's center value is the string `YES`, value 0 and unit
`NO` for every other center value. -/
theorem GetMeasurements_waterFlow (env : Env) (fuel : Nat) (c : AsekoClient) (w : World)
    (m : MeasurementMap) (c1 : AsekoClient) (w1 : World)
    (h : GetMeasurements env fuel c w = some (Res.ok m, c1, w1)) :
    ∃ snapshot, c1.selectedUnit = some snapshot ∧
      match (snapshot.Primary.filter (fun sv => sv.Type_ = "WATER_FLOW_TO_PROBES")).getLast? with
      | none => m.get "WaterFlow" = none
      | some sv =>
        ∃ x, m.get "WaterFlow" = some x ∧
          (sv.CenterValue = "YES" → x.Value = 1 ∧ x.Unit = "YES") ∧
          (sv.CenterValue ≠ "YES" → x.Value = 0 ∧ x.Unit = "NO") := by
  unfold GetMeasurements at h
  split at h
  · cases h
  · split at h
    · cases h
    · cases h
    · cases h
    · split at h
      · cases h
      · rename_i u0 c2 w2 hs _ refreshed hsel
        simp only [Option.some.injEq, Prod.mk.injEq, Res.ok.injEq] at h
        obtain ⟨hm, hc, _⟩ := h
        subst hm hc
        refine ⟨refreshed, hsel, ?_⟩
        have key := foldl_processStatusValue_flow env ([], w2) refreshed.Primary
        cases hl : (refreshed.Primary.filter
            (fun sv => sv.Type_ = "WATER_FLOW_TO_PROBES")).getLast? with
        | none =>
          rw [hl] at key
          simpa [MeasurementMap.get] using key
        | some sv =>
          rw [hl] at key
          obtain ⟨x, hx, hv, hu⟩ := key
          refine ⟨x, hx, ?_, ?_⟩
          · intro hyes; rw [hv, hu]; simp [hyes]
          · intro hno; rw [hv, hu]; simp [hno]

/-- One iteration of the extraction loop depends on the environment only
through the clock and the number parser, and on the world only through the
number of clock readings taken. -/
theorem processStatusValue_congr (env env2 : Env) (hclock : env2.clock = env.clock)
    (hparse : env2.parseFloat = env.parseFloat) (acc acc2 : MeasurementMap × World)
    (hmap : acc2.1 = acc.1) (hticks : acc2.2.ticks = acc.2.ticks) (sv : StatusValue) :
    (processStatusValue env2 acc2 sv).1 = (processStatusValue env acc sv).1 ∧
      (processStatusValue env2 acc2 sv).2.ticks = (processStatusValue env acc sv).2.ticks := by
  have hP : ∀ s, ParseFloat env2 s = ParseFloat env s := by
    intro s; unfold ParseFloat; rw [hparse]
  unfold processStatusValue
  by_cases h1 : sv.Type_ = "REDOX"
  · simp only [if_pos h1, timeNow, hclock, hP, hmap, hticks, and_self]
  · simp only [if_neg h1]
    by_cases h2 : sv.Type_ = "PH"
    · simp only [if_pos h2, timeNow, hclock, hP, hmap, hticks, and_self]
    · simp only [if_neg h2]
      by_cases h3 : sv.Type_ = "WATER_TEMPERATURE"
      · simp only [if_pos h3, timeNow, hclock, hP, hmap, hticks, and_self]
      · simp only [if_neg h3]
        by_cases h4 : sv.Type_ = "WATER_FLOW_TO_PROBES"
        · simp only [if_pos h4, timeNow, hclock, hmap, hticks, and_self]
        · simp only [if_neg h4, hmap, hticks, and_self]

/-- The extraction loop depends on the environment only through the clock
and the number parser, and on the world only through the number of clock
readings taken. -/
theorem foldl_processStatusValue_congr (env env2 : Env) (hclock : env2.clock = env.clock)
    (hparse : env2.parseFloat = env.parseFloat) :
    ∀ (primary : List StatusValue) (acc acc2 : MeasurementMap × World),
      acc2.1 = acc.1 → acc2.2.ticks = acc.2.ticks →
      (primary.foldl (processStatusValue env2) acc2).1
        = (primary.foldl (processStatusValue env) acc).1 := by
  intro primary
  induction primary with
  | nil => intro acc acc2 h1 _; exact h1
  | cons sv rest ih =>
    intro acc acc2 h1 h2
    have := processStatusValue_congr env env2 hclock hparse acc acc2 h1 h2 sv
    exact ih _ _ this.1 this.2

/-- C13: take two runs of `GetMeasurements` with the same clock and number
parser whose refreshes succeed at the same clock position, the second
leaving selected a snapshot whose primary status values are those of the
first without the entries of a type other than `REDOX`, `PH`,
`WATER_TEMPERATURE` and `WATER_FLOW_TO_PROBES`. Both runs return a
measurement set, not an error, and it is the same set. -/
theorem GetMeasurements_unknown_types_dropped (env env2 : Env) (fuel fuel2 : Nat)
    (c c2 c1 c3 : AsekoClient) (w w2 w1 w3 : World)
    (selected selected2 snapshot snapshot2 : UnitResponse)
    (hclock : env2.clock = env.clock) (hparse : env2.parseFloat = env.parseFloat)
    (hsel : c.selectedUnit = some selected)
    (href : SelectUnit env fuel selected.SerialNumber c w = some (Res.ok (), c1, w1))
    (hsnap : c1.selectedUnit = some snapshot)
    (hsel2 : c2.selectedUnit = some selected2)
    (href2 : SelectUnit env2 fuel2 selected2.SerialNumber c2 w2 = some (Res.ok (), c3, w3))
    (hsnap2 : c3.selectedUnit = some snapshot2)
    (hticks : w3.ticks = w1.ticks)
    (hfilter : snapshot2.Primary = snapshot.Primary.filter (fun sv => isKnownType sv.Type_)) :
    ∃ m wa wb, GetMeasurements env fuel c w = some (Res.ok m, c1, wa) ∧
      GetMeasurements env2 fuel2 c2 w2 = some (Res.ok m, c3, wb) := by
  have h1 := foldl_processStatusValue_filter env snapshot.Primary ([], w1)
  have h2 := foldl_processStatusValue_congr env env2 hclock hparse
    (snapshot.Primary.filter (fun sv => isKnownType sv.Type_)) ([], w1) ([], w3) rfl hticks
  refine ⟨(snapshot.Primary.foldl (processStatusValue env) ([], w1)).1,
    (snapshot.Primary.foldl (processStatusValue env) ([], w1)).2,
    (snapshot2.Primary.foldl (processStatusValue env2) ([], w3)).2,
    GetMeasurements_of_refresh env fuel c w selected snapshot c1 w1 hsel href hsnap, ?_⟩
  rw [GetMeasurements_of_refresh env2 fuel2 c2 w2 selected2 snapshot2 c3 w3 hsel2 href2 hsnap2,
    hfilter, h2, ← h1]

/-- A snapshot whose only flow entry reads `YES` yields value 1 and unit
`YES`: the statement of C12 for this run. -/
theorem GetMeasurements_waterFlow_witness :
    GetMeasurements (sampleEnv (sampleUnit [sampleValue "WATER_FLOW_TO_PROBES" "YES"])) 1
        sampleClient World.init
      = some (Res.ok [("WaterFlow", { Value := 1, Unit := "YES", UpdatedAt := 1000 })],
          { sampleClient with
            selectedUnit := some (sampleUnit [sampleValue "WATER_FLOW_TO_PROBES" "YES"]) },
          { requests := [Request.unitDetail "token-0123456789" "SN1"], ticks := 1, emails := [],
            trace := [] }) ∧
    ∃ snapshot,
      ({ sampleClient with
          selectedUnit := some (sampleUnit [sampleValue "WATER_FLOW_TO_PROBES" "YES"]) }
        : AsekoClient).selectedUnit = some snapshot ∧
      match (snapshot.Primary.filter (fun sv => sv.Type_ = "WATER_FLOW_TO_PROBES")).getLast? with
      | none =>
        MeasurementMap.get [("WaterFlow", { Value := 1, Unit := "YES", UpdatedAt := 1000 })]
          "WaterFlow" = none
      | some sv =>
        ∃ x, MeasurementMap.get [("WaterFlow", { Value := 1, Unit := "YES", UpdatedAt := 1000 })]
            "WaterFlow" = some x ∧
          (sv.CenterValue = "YES" → x.Value = 1 ∧ x.Unit = "YES") ∧
          (sv.CenterValue ≠ "YES" → x.Value = 0 ∧ x.Unit = "NO") :=
  ⟨rfl, GetMeasurements_waterFlow
    (sampleEnv (sampleUnit [sampleValue "WATER_FLOW_TO_PROBES" "YES"])) 1 sampleClient World.init
    [("WaterFlow", { Value := 1, Unit := "YES", UpdatedAt := 1000 })]
    { sampleClient with
      selectedUnit := some (sampleUnit [sampleValue "WATER_FLOW_TO_PROBES" "YES"]) }
    { requests := [Request.unitDetail "token-0123456789" "SN1"], ticks := 1, emails := [],
      trace := [] } rfl⟩

/-- A snapshot with an entry of the unknown type `SALINITY` before the
temperature, and the same snapshot without it: both runs return the same
set, the one with the key `Temp` only. -/
theorem GetMeasurements_unknown_types_dropped_witness :
    GetMeasurements
        (sampleEnv (sampleUnit
          [sampleValue "SALINITY" "3.1", sampleValue "WATER_TEMPERATURE" "25.5"]))
        1 sampleClient World.init
      = some (Res.ok [("Temp", { Value := Float64.finite (51 / 2), Unit := "°C", UpdatedAt := 1000 })],
          { sampleClient with
            selectedUnit := some (sampleUnit
              [sampleValue "SALINITY" "3.1", sampleValue "WATER_TEMPERATURE" "25.5"]) },
          { requests := [Request.unitDetail "token-0123456789" "SN1"], ticks := 1, emails := [],
            trace := [] }) ∧
    ∃ m wa wb,
      GetMeasurements
          (sampleEnv (sampleUnit
            [sampleValue "SALINITY" "3.1", sampleValue "WATER_TEMPERATURE" "25.5"]))
          1 sampleClient World.init
        = some (Res.ok m,
            { sampleClient with
              selectedUnit := some (sampleUnit
                [sampleValue "SALINITY" "3.1", sampleValue "WATER_TEMPERATURE" "25.5"]) }, wa) ∧
      GetMeasurements (sampleEnv (sampleUnit [sampleValue "WATER_TEMPERATURE" "25.5"]))
          1 sampleClient World.init
        = some (Res.ok m,
            { sampleClient with
              selectedUnit := some (sampleUnit [sampleValue "WATER_TEMPERATURE" "25.5"]) },
            wb) :=
  ⟨rfl, GetMeasurements_unknown_types_dropped
    (sampleEnv (sampleUnit [sampleValue "SALINITY" "3.1", sampleValue "WATER_TEMPERATURE" "25.5"]))
    (sampleEnv (sampleUnit [sampleValue "WATER_TEMPERATURE" "25.5"])) 1 1
    sampleClient sampleClient
    { sampleClient with
      selectedUnit := some (sampleUnit
        [sampleValue "SALINITY" "3.1", sampleValue "WATER_TEMPERATURE" "25.5"]) }
    { sampleClient with
      selectedUnit := some (sampleUnit [sampleValue "WATER_TEMPERATURE" "25.5"]) }
    World.init World.init
    { requests := [Request.unitDetail "token-0123456789" "SN1"], ticks := 0, emails := [],
      trace := [] }
    { requests := [Request.unitDetail "token-0123456789" "SN1"], ticks := 0, emails := [],
      trace := [] }
    (sampleUnit []) (sampleUnit [])
    (sampleUnit [sampleValue "SALINITY" "3.1", sampleValue "WATER_TEMPERATURE" "25.5"])
    (sampleUnit [sampleValue "WATER_TEMPERATURE" "25.5"])
    rfl rfl rfl rfl rfl rfl rfl rfl rfl (by decide)⟩

/-! ## The refresh inside `GetMeasurements` -/

/-- The call `selectUnitAfterReconnect` only appends to the request log. -/
theorem selectUnitAfterReconnect_requests (env : Env) (sn : String) (c : AsekoClient)
    (w : World) :
    ∃ rest, (selectUnitAfterReconnect env sn c w).2.2.requests = w.requests ++ rest := by
  unfold selectUnitAfterReconnect
  dsimp only
  repeat' split
  all_goals exact ⟨_, rfl⟩

/-- The call `fetchUnitList` issues exactly one request, the list query with
the stored token, whatever its outcome. -/
theorem fetchUnitList_requests (env : Env) (c : AsekoClient) (w : World) :
    (fetchUnitList env c w).2.2.requests = w.requests ++ [Request.unitList c.token] := by
  unfold fetchUnitList
  dsimp only
  repeat' split
  all_goals rfl

/-- Extending a log twice extends it. -/
theorem extends_trans {a b c : List Request} (h1 : ∃ r, b = a ++ r) (h2 : ∃ r, c = b ++ r) :
    ∃ r, c = a ++ r := by
  obtain ⟨r1, rfl⟩ := h1
  obtain ⟨r2, rfl⟩ := h2
  exact ⟨r1 ++ r2, List.append_assoc _ _ _⟩

/-- The call `Login` only appends to the request log. -/
theorem Login_extends (env : Env) (c c1 : AsekoClient) (w w1 : World) (r : Res Unit)
    (h : Login env c w = (r, c1, w1)) : ∃ rest, w1.requests = w.requests ++ rest := by
  have := Login_requests env c w
  rw [h] at this
  exact ⟨_, this⟩

/-- The call `fetchUnitList` only appends to the request log. -/
theorem fetchUnitList_extends (env : Env) (c c1 : AsekoClient) (w w1 : World) (r : Res Unit)
    (h : fetchUnitList env c w = (r, c1, w1)) : ∃ rest, w1.requests = w.requests ++ rest := by
  have := fetchUnitList_requests env c w
  rw [h] at this
  exact ⟨_, this⟩

/-- The body of `Initialize` only appends to the request log when the
selection it calls does. -/
theorem InitializeWith_requests (env : Env)
    (select : String → AsekoClient → World → Option (Step Unit))
    (hsel : ∀ sn c w r, select sn c w = some r → ∃ rest, r.2.2.requests = w.requests ++ rest)
    (c : AsekoClient) (w : World) (r : Step Unit)
    (h : InitializeWith env select c w = some r) :
    ∃ rest, r.2.2.requests = w.requests ++ rest := by
  unfold InitializeWith at h
  split at h
  · rename_i e c1 w1 hl
    cases h; exact Login_extends env _ _ _ _ _ hl
  · rename_i c1 w1 hl
    cases h; exact Login_extends env _ _ _ _ _ hl
  · rename_i u c1 w1 hl
    have h1 := Login_extends env _ _ _ _ _ hl
    split at h
    · rename_i e c2 w2 hf
      cases h; exact extends_trans h1 (fetchUnitList_extends env _ _ _ _ _ hf)
    · rename_i c2 w2 hf
      cases h; exact extends_trans h1 (fetchUnitList_extends env _ _ _ _ _ hf)
    · rename_i u2 c2 w2 hf
      have h2 := extends_trans h1 (fetchUnitList_extends env _ _ _ _ _ hf)
      split at h
      · cases h; exact h2
      · split at h
        · cases h; exact h2
        · rename_i first rest hu
          dsimp only at h
          split at h
          · cases h
          · rename_i c3 w3 hs
            cases h; exact extends_trans h2 (hsel _ _ _ _ hs)
          · rename_i c3 w3 hs
            cases h; exact extends_trans h2 (hsel _ _ _ _ hs)
          · rename_i e c3 w3 hs
            have h3 := extends_trans h2 (hsel _ _ _ _ hs)
            split at h
            · rename_i e4 c4 w4 hl4
              cases h; exact extends_trans h3 (Login_extends env _ _ _ _ _ hl4)
            · rename_i c4 w4 hl4
              cases h; exact extends_trans h3 (Login_extends env _ _ _ _ _ hl4)
            · rename_i u4 c4 w4 hl4
              have h4 := extends_trans h3 (Login_extends env _ _ _ _ _ hl4)
              split at h
              · cases h
              · rename_i c5 w5 hs5
                cases h; exact extends_trans h4 (hsel _ _ _ _ hs5)
              · rename_i c5 w5 hs5
                cases h; exact extends_trans h4 (hsel _ _ _ _ hs5)
              · rename_i e5 c5 w5 hs5
                have h5 := hsel _ _ _ _ hs5
                cases h; exact extends_trans h4 h5

/-- The first request of `SelectUnit` is the detail query for the serial it
was given, with the stored token; everything else comes after it. -/
theorem SelectUnit_requests (env : Env) :
    ∀ (fuel : Nat) (sn : String) (c : AsekoClient) (w : World) (r : Step Unit),
      SelectUnit env fuel sn c w = some r →
      ∃ rest, r.2.2.requests = w.requests ++ Request.unitDetail c.token sn :: rest := by
  intro fuel
  induction fuel with
  | zero => intro sn c w r h; simp [SelectUnit] at h
  | succ n ih =>
    intro sn c w r h
    have ih2 : ∀ sn c w r, SelectUnit env n sn c w = some r →
        ∃ rest, r.2.2.requests = w.requests ++ rest := by
      intro sn c w r h
      obtain ⟨rest, hr⟩ := ih sn c w r h
      exact ⟨_, hr⟩
    have key : ∀ (w2 : World),
        (∃ rest, w2.requests = (w.issue (Request.unitDetail c.token sn)).requests ++ rest) →
        ∃ rest, w2.requests = w.requests ++ Request.unitDetail c.token sn :: rest := by
      rintro w2 ⟨rest, hr⟩
      exact ⟨rest, by rw [hr]; simp [World.issue]⟩
    rw [SelectUnit] at h
    split at h
    · cases h; exact ⟨[], rfl⟩
    · cases h; exact ⟨[], rfl⟩
    · cases h; exact ⟨[], rfl⟩
    · rename_i unitResp hd
      split at h
      · split at h
        · cases h
        · rename_i e c2 w2 hi
          cases h
          exact key w2 (InitializeWith_requests env _ ih2 _ _ _ hi)
        · rename_i c2 w2 hi
          cases h
          exact key w2 (InitializeWith_requests env _ ih2 _ _ _ hi)
        · rename_i u c2 w2 hi
          cases h
          exact key _ (extends_trans (InitializeWith_requests env _ ih2 _ _ _ hi)
            (selectUnitAfterReconnect_requests env sn c2 w2))
      · repeat' split at h
        all_goals (cases h; exact ⟨[], rfl⟩)

/-- The extraction loop issues no request. -/
theorem foldl_processStatusValue_requests (env : Env) :
    ∀ (primary : List StatusValue) (acc : MeasurementMap × World),
      (primary.foldl (processStatusValue env) acc).2.requests = acc.2.requests := by
  intro primary
  induction primary with
  | nil => intro acc; rfl
  | cons sv rest ih =>
    intro acc
    rw [List.foldl_cons, ih]
    unfold processStatusValue
    repeat' split
    all_goals rfl

/-- C14: with a unit selected, whatever `GetMeasurements` returns, its first
request is the detail query of `SelectUnit` for the cached serial. If that
refresh returns an error, `GetMeasurements` returns that error (wrapped) and
no measurement set. If the refresh succeeds, a snapshot is selected
afterwards and the returned set is the extraction loop run on the primary
status values of that snapshot. -/
theorem GetMeasurements_refreshes_first (env : Env) (fuel : Nat) (c : AsekoClient) (w : World)
    (selected : UnitResponse) (hsel : c.selectedUnit = some selected) :
    (∀ r, GetMeasurements env fuel c w = some r →
      ∃ rest, r.2.2.requests
        = w.requests ++ Request.unitDetail c.token selected.SerialNumber :: rest) ∧
    (∀ e c1 w1, SelectUnit env fuel selected.SerialNumber c w = some (Res.err e, c1, w1) →
      GetMeasurements env fuel c w
        = some (Res.err (Err.wrap "error refreshing unit data" e), c1, w1)) ∧
    (∀ c1 w1, SelectUnit env fuel selected.SerialNumber c w = some (Res.ok (), c1, w1) →
      ∃ snapshot, c1.selectedUnit = some snapshot ∧
        GetMeasurements env fuel c w
          = some (Res.ok (snapshot.Primary.foldl (processStatusValue env) ([], w1)).1, c1,
              (snapshot.Primary.foldl (processStatusValue env) ([], w1)).2)) := by
  refine ⟨?_, ?_, ?_⟩
  · intro r h
    unfold GetMeasurements at h
    rw [hsel] at h
    dsimp only at h
    split at h
    · cases h
    · rename_i hs
      obtain ⟨rest, hr⟩ := SelectUnit_requests env _ _ _ _ _ hs
      cases h; exact ⟨rest, hr⟩
    · rename_i hs
      obtain ⟨rest, hr⟩ := SelectUnit_requests env _ _ _ _ _ hs
      cases h; exact ⟨rest, hr⟩
    · rename_i hs
      obtain ⟨rest, hr⟩ := SelectUnit_requests env _ _ _ _ _ hs
      split at h
      · cases h; exact ⟨rest, hr⟩
      · cases h
        exact ⟨rest, by rw [foldl_processStatusValue_requests]; exact hr⟩
  · intro e c1 w1 h
    unfold GetMeasurements
    simp only [hsel, h]
  · intro c1 w1 h
    obtain ⟨snapshot, hsnap⟩ := SelectUnit_ok_selected env fuel _ c w () c1 w1 h
    exact ⟨snapshot, hsnap,
      GetMeasurements_of_refresh env fuel c w selected snapshot c1 w1 hsel h hsnap⟩

/-- The stale snapshot has no status values, the refreshed one has a
temperature: the first request is the detail query for `SN1`, and the set
returned holds the temperature of the refreshed snapshot. -/
theorem GetMeasurements_refreshes_first_witness :
    sampleClient.selectedUnit = some (sampleUnit []) ∧
    GetMeasurements (sampleEnv (sampleUnit [sampleValue "WATER_TEMPERATURE" "25.5"])) 1
        sampleClient World.init
      = some (Res.ok [("Temp", { Value := Float64.finite (51 / 2), Unit := "°C", UpdatedAt := 1000 })],
          { sampleClient with
            selectedUnit := some (sampleUnit [sampleValue "WATER_TEMPERATURE" "25.5"]) },
          { requests := [Request.unitDetail "token-0123456789" "SN1"], ticks := 1, emails := [],
            trace := [] }) ∧
    ∃ snapshot,
      ({ sampleClient with
          selectedUnit := some (sampleUnit [sampleValue "WATER_TEMPERATURE" "25.5"]) }
        : AsekoClient).selectedUnit = some snapshot ∧
      GetMeasurements (sampleEnv (sampleUnit [sampleValue "WATER_TEMPERATURE" "25.5"])) 1
          sampleClient World.init
        = some (Res.ok (snapshot.Primary.foldl
              (processStatusValue (sampleEnv (sampleUnit
                [sampleValue "WATER_TEMPERATURE" "25.5"])))
              ([], { requests := [Request.unitDetail "token-0123456789" "SN1"], ticks := 0,
                     emails := [], trace := [] })).1,
            { sampleClient with
              selectedUnit := some (sampleUnit [sampleValue "WATER_TEMPERATURE" "25.5"]) },
            (snapshot.Primary.foldl
              (processStatusValue (sampleEnv (sampleUnit
                [sampleValue "WATER_TEMPERATURE" "25.5"])))
              ([], { requests := [Request.unitDetail "token-0123456789" "SN1"], ticks := 0,
                     emails := [], trace := [] })).2) :=
  ⟨rfl, rfl,
    (GetMeasurements_refreshes_first
      (sampleEnv (sampleUnit [sampleValue "WATER_TEMPERATURE" "25.5"])) 1 sampleClient World.init
      (sampleUnit []) rfl).2.2
      { sampleClient with
        selectedUnit := some (sampleUnit [sampleValue "WATER_TEMPERATURE" "25.5"]) }
      { requests := [Request.unitDetail "token-0123456789" "SN1"], ticks := 0, emails := [],
        trace := [] } rfl⟩

/-! ## `Login` and `fetchUnitList` -/

/-- A token of at least ten bytes is stored and the login succeeds, whatever
token was stored before. -/
theorem Login_stores_long_token (env : Env) (c : AsekoClient) (w : World) (token : String)
    (hreply : env.login (w.issue Request.login).requests = Reply.ok token)
    (hlen : 10 ≤ token.utf8ByteSize) :
    Login env c w = (Res.ok (), { c with token := token }, w.issue Request.login) := by
  have hne : token ≠ "" := by
    intro h
    rw [h] at hlen
    revert hlen
    decide
  unfold Login
  simp [hreply, hne, Nat.not_lt.mpr hlen]

/-- C15, the code at the failing input: the login response carries the
non-empty token `abc`. `Login` panics on the slice `Token[:10]` of its
success log line; it does not return success and the stored token is still
the old one. -/
theorem Login_panics_on_short_token :
    "abc" ≠ "" ∧
    (Login (serverEnv (Reply.ok "abc") (Reply.ok sampleList) echoDetail)
        { freshClient with token := "old-token-0123456789" } World.init).1.isPanic = true ∧
    (Login (serverEnv (Reply.ok "abc") (Reply.ok sampleList) echoDetail)
        { freshClient with token := "old-token-0123456789" } World.init).1.isOk = false ∧
    (Login (serverEnv (Reply.ok "abc") (Reply.ok sampleList) echoDetail)
        { freshClient with token := "old-token-0123456789" } World.init).2.1.token
      = "old-token-0123456789" := by
  decide

/-- C16 (as stated) fails: the server answers the list query with the
error document of a rejected token. `fetchUnitList` returns success and
replaces the cached list by the empty one. -/
theorem fetchUnitList_rejection_document_counterexample :
    (fetchUnitList (serverEnv (Reply.ok "token-0123456789") rejectionDocument echoDetail)
        listedClient World.init).1.isOk = true ∧
    listedClient.unitList = some sampleList ∧
    (fetchUnitList (serverEnv (Reply.ok "token-0123456789") rejectionDocument echoDetail)
        listedClient World.init).2.1.unitList = some { Units := [] } := by
  decide

/-- C16 (amended): `fetchUnitList` issues exactly one request, the list
query with the stored token, and never changes the token or the selection.
When the request fails in transport, the body cannot be read or the body is
not valid JSON, it returns an error and leaves the client as it was. When
the body decodes, it returns success and stores the decoded list, whatever
the document was. -/
theorem fetchUnitList_outcomes (env : Env) (c : AsekoClient) (w : World) :
    (fetchUnitList env c w).2.2.requests = w.requests ++ [Request.unitList c.token] ∧
    (fetchUnitList env c w).2.1.token = c.token ∧
    (fetchUnitList env c w).2.1.selectedUnit = c.selectedUnit ∧
    ((∀ body, env.units (w.issue (Request.unitList c.token)).requests ≠ Reply.ok body) →
      (fetchUnitList env c w).1.isErr = true ∧ (fetchUnitList env c w).2.1 = c) ∧
    (∀ body, env.units (w.issue (Request.unitList c.token)).requests = Reply.ok body →
      fetchUnitList env c w
        = (Res.ok (), { c with unitList := some body }, w.issue (Request.unitList c.token))) := by
  refine ⟨fetchUnitList_requests env c w, ?_, ?_, ?_, ?_⟩
  · unfold fetchUnitList
    dsimp only
    split <;> rfl
  · unfold fetchUnitList
    dsimp only
    split <;> rfl
  · intro h
    unfold fetchUnitList
    dsimp only
    split
    · exact ⟨rfl, rfl⟩
    · exact ⟨rfl, rfl⟩
    · exact ⟨rfl, rfl⟩
    · rename_i body hb
      exact absurd hb (h body)
  · intro body h
    unfold fetchUnitList
    dsimp only
    rw [h]

/-- A list query that fails in transport: the error is returned and the
cached list stays; a list query answered with a list: the list is stored. -/
theorem fetchUnitList_outcomes_witness :
    (fetchUnitList (serverEnv (Reply.ok "token-0123456789") Reply.doFailed echoDetail)
        listedClient World.init).1.isErr = true ∧
    (fetchUnitList (serverEnv (Reply.ok "token-0123456789") Reply.doFailed echoDetail)
        listedClient World.init).2.1 = listedClient ∧
    fetchUnitList (serverEnv (Reply.ok "token-0123456789") (Reply.ok sampleList) echoDetail)
        freshClient World.init
      = (Res.ok (), { freshClient with unitList := some sampleList },
          World.init.issue (Request.unitList freshClient.token)) :=
  ⟨((fetchUnitList_outcomes
        (serverEnv (Reply.ok "token-0123456789") Reply.doFailed echoDetail) listedClient
        World.init).2.2.2.1 (fun _ h => by cases h)).1,
    ((fetchUnitList_outcomes
        (serverEnv (Reply.ok "token-0123456789") Reply.doFailed echoDetail) listedClient
        World.init).2.2.2.1 (fun _ h => by cases h)).2,
    (fetchUnitList_outcomes
        (serverEnv (Reply.ok "token-0123456789") (Reply.ok sampleList) echoDetail) freshClient
        World.init).2.2.2.2 sampleList rfl⟩

/-! ## The selection and the unit list -/

/-- C17 (as stated) fails: `Initialize` stores the list with the one unit
`SN1` and selects it; a following `SelectUnit` for `SN9`, which the server
knows, succeeds and leaves `SN9` selected although the stored list still
holds `SN1` only. -/
theorem SelectUnit_unlisted_serial_counterexample :
    (Initialize (serverEnv (Reply.ok "token-0123456789") (Reply.ok sampleList) echoDetail) 1
        freshClient World.init).map (fun r => (r.1.isOk, selectionListed r.2.1))
      = some (true, true) ∧
    ((Initialize (serverEnv (Reply.ok "token-0123456789") (Reply.ok sampleList) echoDetail) 1
        freshClient World.init).bind
      (fun r => SelectUnit
        (serverEnv (Reply.ok "token-0123456789") (Reply.ok sampleList) echoDetail) 1 "SN9"
        r.2.1 r.2.2)).map
      (fun r => (r.1.isOk, r.2.1.selectedUnit.map (fun u => u.SerialNumber),
        r.2.1.unitList.map (fun l => l.Units.map (fun d => d.SerialNumber)),
        selectionListed r.2.1))
      = some (true, some "SN9", some ["SN1"], false) := by
  decide

/-- C17 (amended): the client never compares a serial with the stored
list, so the property holds only where the caller and the server see to it.
`Login` preserves it. A `SelectUnit` call preserves it when it asks for a
serial of the stored list and the detail response echoes that serial (as in
the auto-selection of the first listed unit by `Initialize`); such a call
returns after one request. -/
theorem selection_listed_preserved :
    (∀ (env : Env) (c : AsekoClient) (w : World),
      selectionListed c = true → selectionListed (Login env c w).2.1 = true) ∧
    (∀ (env : Env) (fuel : Nat) (sn : String) (c : AsekoClient) (w : World)
      (resp : UnitResponse) (unitList : UnitListResponse),
      env.detail (w.issue (Request.unitDetail c.token sn)).requests = Reply.ok resp →
      resp.SerialNumber = sn → sn ≠ "" →
      c.unitList = some unitList → sn ∈ unitList.Units.map (fun d => d.SerialNumber) →
      selectionListed c = true →
      ∃ r, SelectUnit env (fuel + 1) sn c w = some r ∧
        r.2.2 = w.issue (Request.unitDetail c.token sn) ∧ selectionListed r.2.1 = true) := by
  constructor
  · intro env c w h
    have hl : (Login env c w).2.1.selectedUnit = c.selectedUnit ∧
        (Login env c w).2.1.unitList = c.unitList := by
      unfold Login
      dsimp only
      repeat' split
      all_goals exact ⟨rfl, rfl⟩
    unfold selectionListed at h ⊢
    rw [hl.1, hl.2]
    exact h
  · intro env fuel sn c w resp unitList hreply hecho hne hlist hmem hinv
    have hserial : resp.SerialNumber ≠ "" := by rw [hecho]; exact hne
    have hnew : selectionListed { c with selectedUnit := some resp } = true := by
      unfold selectionListed
      simp only [hlist, List.any_eq_true, decide_eq_true_eq]
      obtain ⟨d, hd, hds⟩ := List.mem_map.mp hmem
      exact ⟨d, hd, by rw [hds, hecho]⟩
    rw [SelectUnit, hreply]
    dsimp only
    rw [if_neg hserial]
    repeat' split
    all_goals first
      | exact ⟨_, rfl, rfl, hinv⟩
      | exact ⟨_, rfl, rfl, hnew⟩

/-- The auto-selection of `Initialize`: the listed serial `SN1` is asked
for and echoed, and the selection is listed afterwards. -/
theorem selection_listed_preserved_witness :
    (serverEnv (Reply.ok "token-0123456789") (Reply.ok sampleList) echoDetail).detail
        (World.init.issue (Request.unitDetail listedClient.token "SN1")).requests
      = Reply.ok { Typename := "Unit", SerialNumber := "SN1", Name := "", Primary := [],
                   Secondary := [] } ∧
    ∃ r, SelectUnit (serverEnv (Reply.ok "token-0123456789") (Reply.ok sampleList) echoDetail)
        1 "SN1" listedClient World.init = some r ∧
      r.2.2 = World.init.issue (Request.unitDetail listedClient.token "SN1") ∧
      selectionListed r.2.1 = true :=
  ⟨rfl, selection_listed_preserved.2
    (serverEnv (Reply.ok "token-0123456789") (Reply.ok sampleList) echoDetail) 0 "SN1"
    listedClient World.init
    { Typename := "Unit", SerialNumber := "SN1", Name := "", Primary := [], Secondary := [] }
    sampleList rfl rfl (by decide) rfl (by decide) rfl⟩

/-! ## `GetStatus` and missing keys -/

/-- C18 (as stated) fails: the fetched set has no temperature key, the
expectation is 28, and `GetStatus` succeeds with `Temperature` 0 and
`TemperatureDelta` 0, which is not `0 - 28`. -/
theorem GetStatus_delta_without_temperature_counterexample :
    fetchedValue (sampleEnv (sampleUnit [sampleValue "WATER_FLOW_TO_PROBES" "NO"])) 1
        (sampleMonitor 28 2).asekoClient World.init "Temp" = none ∧
    (statusOf (sampleMonitor 28 2)
        (sampleEnv (sampleUnit [sampleValue "WATER_FLOW_TO_PROBES" "NO"])) 1 World.init).map
      (fun s => (s.Temperature, s.ExpectedTemperature, s.TemperatureDelta))
      = some (0, 28, 0) ∧
    (statusOf (sampleMonitor 28 2)
        (sampleEnv (sampleUnit [sampleValue "WATER_FLOW_TO_PROBES" "NO"])) 1 World.init).map
      (fun s => decide (s.TemperatureDelta = s.Temperature - s.ExpectedTemperature))
      = some false := by
  decide!

/-- C18 (amended): when the fetch succeeds, `GetStatus` returns a status
whose `ExpectedTemperature` is the configured one. If the set has the
temperature key, `Temperature` is the reading and `TemperatureDelta` is
`Temperature - ExpectedTemperature`, the float64 difference; if it has not,
`Temperature` and `TemperatureDelta` are both 0. -/
theorem GetStatus_temperature_delta (pm : PoolMonitor) (env : Env) (fuel : Nat) (w : World)
    (m : MeasurementMap) (c1 : AsekoClient) (w1 : World)
    (hfetch : GetMeasurements env fuel pm.asekoClient w = some (Res.ok m, c1, w1)) :
    ∃ status pm1 w2, pm.GetStatus env fuel w = some (Res.ok status, pm1, w2) ∧
      status.ExpectedTemperature = pm.config.Pool.ExpectedTemperature ∧
      (∀ tempData, m.get "Temp" = some tempData →
        status.Temperature = tempData.Value ∧
        status.TemperatureDelta = status.Temperature - status.ExpectedTemperature) ∧
      (m.get "Temp" = none → status.Temperature = 0 ∧ status.TemperatureDelta = 0) := by
  unfold PoolMonitor.GetStatus
  rw [hfetch]
  dsimp only
  refine ⟨_, _, _, rfl, ?_, ?_, ?_⟩
  · cases m.get "Temp" <;> cases m.get "PH" <;> cases m.get "Redox" <;>
      cases m.get "WaterFlow" <;> dsimp only <;> repeat' split
    all_goals rfl
  · intro tempData ht
    rw [ht]
    cases m.get "PH" <;> cases m.get "Redox" <;> cases m.get "WaterFlow" <;>
      dsimp only <;> repeat' split
    all_goals exact ⟨rfl, rfl⟩
  · intro ht
    rw [ht]
    cases m.get "PH" <;> cases m.get "Redox" <;> cases m.get "WaterFlow" <;>
      dsimp only <;> repeat' split
    all_goals exact ⟨rfl, rfl⟩

/-- The example of the specification: expected 28 and a reading of 25.5
give the delta `25.5 - 28`. -/
theorem GetStatus_temperature_delta_witness :
    GetMeasurements (sampleEnv (sampleUnit [sampleValue "WATER_TEMPERATURE" "25.5"])) 1
        (sampleMonitor 28 2).asekoClient World.init
      = some (Res.ok [("Temp", { Value := Float64.finite (51 / 2), Unit := "°C", UpdatedAt := 1000 })],
          { sampleClient with
            selectedUnit := some (sampleUnit [sampleValue "WATER_TEMPERATURE" "25.5"]) },
          { requests := [Request.unitDetail "token-0123456789" "SN1"], ticks := 1, emails := [],
            trace := [] }) ∧
    ∃ status pm1 w2,
      (sampleMonitor 28 2).GetStatus
          (sampleEnv (sampleUnit [sampleValue "WATER_TEMPERATURE" "25.5"])) 1 World.init
        = some (Res.ok status, pm1, w2) ∧
      status.ExpectedTemperature = (sampleMonitor 28 2).config.Pool.ExpectedTemperature ∧
      (∀ tempData,
        MeasurementMap.get [("Temp", { Value := Float64.finite (51 / 2), Unit := "°C", UpdatedAt := 1000 })] "Temp"
          = some tempData →
        status.Temperature = tempData.Value ∧
        status.TemperatureDelta = status.Temperature - status.ExpectedTemperature) ∧
      (MeasurementMap.get [("Temp", { Value := Float64.finite (51 / 2), Unit := "°C", UpdatedAt := 1000 })] "Temp"
          = none → status.Temperature = 0 ∧ status.TemperatureDelta = 0) :=
  ⟨rfl, GetStatus_temperature_delta (sampleMonitor 28 2)
    (sampleEnv (sampleUnit [sampleValue "WATER_TEMPERATURE" "25.5"])) 1 World.init
    [("Temp", { Value := Float64.finite (51 / 2), Unit := "°C", UpdatedAt := 1000 })]
    { sampleClient with
      selectedUnit := some (sampleUnit [sampleValue "WATER_TEMPERATURE" "25.5"]) }
    { requests := [Request.unitDetail "token-0123456789" "SN1"], ticks := 1, emails := [],
      trace := [] } rfl⟩

/-- C19: when the fetched set has no temperature key, `Check` returns
normally and raises no temperature alert; when it has no `WaterFlow` key,
`Check` returns normally and raises no water-flow alert. -/
theorem Check_skips_missing_keys (pm : PoolMonitor) (env : Env) (fuel : Nat) (w : World)
    (m : MeasurementMap) (c1 : AsekoClient) (w1 : World)
    (hfetch : GetMeasurements env fuel pm.asekoClient (timeNow env w).2 = some (Res.ok m, c1, w1)) :
    ∃ pm1 w2, pm.Check env fuel w = some (Res.ok (), pm1, w2) ∧
      (m.get "Temp" = none → temperatureAlerts w2.trace = temperatureAlerts w.trace) ∧
      (m.get "WaterFlow" = none → waterFlowAlerts w2.trace = waterFlowAlerts w.trace) := by
  have hw1 : w1.trace = w.trace := by
    have := GetMeasurements_trace env fuel _ _ _ hfetch
    simpa [timeNow] using this
  have hev := evaluate_alerts { pm with lastCheck := (timeNow env w).1, asekoClient := c1 }
    env m w1
  rw [hw1] at hev
  refine ⟨{ pm with lastCheck := (timeNow env w).1, asekoClient := c1 },
    PoolMonitor.evaluate { pm with lastCheck := (timeNow env w).1, asekoClient := c1 } env m w1,
    ?_, ?_, ?_⟩
  · unfold PoolMonitor.Check
    dsimp only
    rw [hfetch]
  · intro ht
    have := hev.1
    rw [ht] at this
    simpa using this
  · intro hf
    have := hev.2
    rw [hf] at this
    cases hT : m.get "Temp" with
    | none => rw [hT] at this; simpa using this
    | some td => rw [hT] at this; simpa using this

/-- A set with the temperature only: `Check` returns normally and raises no
water-flow alert. -/
theorem Check_skips_missing_keys_witness :
    GetMeasurements (sampleEnv (sampleUnit [sampleValue "WATER_TEMPERATURE" "25.5"])) 1
        (sampleMonitor 28 2).asekoClient
        (timeNow (sampleEnv (sampleUnit [sampleValue "WATER_TEMPERATURE" "25.5"])) World.init).2
      = some (Res.ok [("Temp", { Value := Float64.finite (51 / 2), Unit := "°C", UpdatedAt := 1001 })],
          { sampleClient with
            selectedUnit := some (sampleUnit [sampleValue "WATER_TEMPERATURE" "25.5"]) },
          { requests := [Request.unitDetail "token-0123456789" "SN1"], ticks := 2, emails := [],
            trace := [] }) ∧
    ∃ pm1 w2,
      (sampleMonitor 28 2).Check (sampleEnv (sampleUnit [sampleValue "WATER_TEMPERATURE" "25.5"]))
          1 World.init = some (Res.ok (), pm1, w2) ∧
      (MeasurementMap.get [("Temp", { Value := Float64.finite (51 / 2), Unit := "°C", UpdatedAt := 1001 })] "Temp"
          = none → temperatureAlerts w2.trace = temperatureAlerts World.init.trace) ∧
      (MeasurementMap.get [("Temp", { Value := Float64.finite (51 / 2), Unit := "°C", UpdatedAt := 1001 })]
          "WaterFlow" = none → waterFlowAlerts w2.trace = waterFlowAlerts World.init.trace) :=
  ⟨rfl, Check_skips_missing_keys (sampleMonitor 28 2)
    (sampleEnv (sampleUnit [sampleValue "WATER_TEMPERATURE" "25.5"])) 1 World.init
    [("Temp", { Value := Float64.finite (51 / 2), Unit := "°C", UpdatedAt := 1001 })]
    { sampleClient with
      selectedUnit := some (sampleUnit [sampleValue "WATER_TEMPERATURE" "25.5"]) }
    { requests := [Request.unitDetail "token-0123456789" "SN1"], ticks := 2, emails := [],
      trace := [] } rfl⟩

/-! ## The start-up sequence -/

/-- C20 (as stated) fails: the configuration loads, the database opens and
the login of `Initialize` fails in transport. `main` ends in `log.Fatalf`:
the process is terminated before the alert service, the monitor or the HTTP
server are set up. -/
theorem main_initialize_error_counterexample :
    (Initialize (serverEnv Reply.doFailed (Reply.ok sampleList) echoDetail) 1 NewAsekoClient
        World.init).map (fun r => r.1.isErr) = some true ∧
    (main (serverEnv Reply.doFailed (Reply.ok sampleList) echoDetail) 1 (Res.ok sampleConfig)
        none sampleParseDuration sampleSmtp none World.init).map (fun s => s.terminated)
      = some true := by
  decide

/-- C20 (amended): when the configuration has loaded and the database has
opened, an error returned by `Initialize` makes `main` log it with
`log.Fatalf`, which terminates the process. When `Initialize` succeeds, a
check interval that does not parse leaves the process without a monitor, and
a failure to set up the alert service leaves it without one: both are
logged as warnings and, once the listening socket is bound, the process
serves requests with the initialised client. A check interval that parses to
a positive duration gives a monitor that is started. One that parses to zero
or less makes `Start` panic in `time.NewTicker`, which ends the process. -/
theorem main_fatal_or_serving (env : Env) (fuel : Nat) (cfg : Config)
    (parseDuration : String → Option Int)
    (smtp : List (Message × Receiver) → Message → Receiver → Option Err) (w : World) :
    (∀ (listen : Option Err) e c1 w1,
      Initialize env fuel NewAsekoClient w = some (Res.err e, c1, w1) →
      main env fuel (Res.ok cfg) none parseDuration smtp listen w
        = some (Startup.fatal "Failed to initialize Aseko client" e w1)) ∧
    (∀ c1 w1, Initialize env fuel NewAsekoClient w = some (Res.ok (), c1, w1) →
      (parseDuration cfg.Pool.CheckInterval = none →
        ∃ alertService,
          main env fuel (Res.ok cfg) none parseDuration smtp none w
            = some (Startup.serving c1 alertService none w1)) ∧
      (∀ d, parseDuration cfg.Pool.CheckInterval = some d → 0 < d →
        ∃ alertService pm,
          main env fuel (Res.ok cfg) none parseDuration smtp none w
            = some (Startup.serving c1 alertService (some pm) w1) ∧
          pm.checkInterval = d ∧ pm.asekoClient = c1) ∧
      (∀ d, parseDuration cfg.Pool.CheckInterval = some d → d ≤ 0 →
        ∀ listen : Option Err,
          main env fuel (Res.ok cfg) none parseDuration smtp listen w
            = some (Startup.panicked w1))) := by
  constructor
  · intro listen e c1 w1 h
    simp only [main, h]
  · intro c1 w1 h
    have hnew : ∀ e : EmailSection, NewAlertServiceFromConfig smtp e ≠ Res.panic := by
      intro e
      unfold NewAlertServiceFromConfig
      repeat' split
      all_goals (intro hp; cases hp)
    have hnp : initAlertService smtp cfg ≠ Res.panic := by
      unfold initAlertService
      split
      · intro hp; cases hp
      · split
        · intro hp; cases hp
        · intro hp; cases hp
        · rename_i hq; exact absurd hq (hnew _)
    refine ⟨?_, ?_, ?_⟩
    · intro hd
      cases hI : initAlertService smtp cfg with
      | ok service => simp only [main, h, hI, NewPoolMonitor, hd]; exact ⟨_, rfl⟩
      | err e => simp only [main, h, hI, NewPoolMonitor, hd]; exact ⟨_, rfl⟩
      | panic => exact absurd hI hnp
    · intro d hd hpos
      have hnot : ¬ d ≤ 0 := not_le.mpr hpos
      cases hI : initAlertService smtp cfg with
      | ok service =>
        simp only [main, h, hI, NewPoolMonitor, hd, PoolMonitor.Start, if_neg hnot]
        exact ⟨_, _, rfl, rfl, rfl⟩
      | err e =>
        simp only [main, h, hI, NewPoolMonitor, hd, PoolMonitor.Start, if_neg hnot]
        exact ⟨_, _, rfl, rfl, rfl⟩
      | panic => exact absurd hI hnp
    · intro d hd hle listen
      cases hI : initAlertService smtp cfg with
      | ok service => simp only [main, h, hI, NewPoolMonitor, hd, PoolMonitor.Start, if_pos hle]
      | err e => simp only [main, h, hI, NewPoolMonitor, hd, PoolMonitor.Start, if_pos hle]
      | panic => exact absurd hI hnp

/-- A server whose login fails: `Initialize` returns an error and `main`
ends in `log.Fatalf`. A server that answers: with the interval `1h` `main`
reaches the HTTP server, with the interval `0s` it ends in the panic of
`Start`. -/
theorem main_fatal_or_serving_witness :
    Initialize (serverEnv Reply.doFailed (Reply.ok sampleList) echoDetail) 1 NewAsekoClient
        World.init
      = some (Res.err (Err.wrap "error logging in"
            (Err.wrap "error making login request" Err.doFailed)),
          NewAsekoClient, World.init.issue Request.login) ∧
    main (serverEnv Reply.doFailed (Reply.ok sampleList) echoDetail) 1 (Res.ok sampleConfig) none
        sampleParseDuration sampleSmtp none World.init
      = some (Startup.fatal "Failed to initialize Aseko client"
          (Err.wrap "error logging in" (Err.wrap "error making login request" Err.doFailed))
          (World.init.issue Request.login)) ∧
    (main (serverEnv (Reply.ok "token-0123456789") (Reply.ok sampleList) echoDetail) 1
        (Res.ok sampleConfig) none sampleParseDuration sampleSmtp none World.init).map
      (fun s => s.terminated) = some false ∧
    (Initialize (serverEnv (Reply.ok "token-0123456789") (Reply.ok sampleList) echoDetail) 2
        NewAsekoClient World.init).map (fun r => r.1.isOk) = some true ∧
    sampleParseDuration zeroIntervalConfig.Pool.CheckInterval = some 0 ∧
    ∃ w1, main (serverEnv (Reply.ok "token-0123456789") (Reply.ok sampleList) echoDetail) 2
        (Res.ok zeroIntervalConfig) none sampleParseDuration sampleSmtp none World.init
      = some (Startup.panicked w1) :=
  ⟨rfl, (main_fatal_or_serving (serverEnv Reply.doFailed (Reply.ok sampleList) echoDetail) 1
      sampleConfig sampleParseDuration sampleSmtp World.init).1 none _ _ _ rfl, by decide,
    by decide, rfl,
    ⟨_, ((main_fatal_or_serving
      (serverEnv (Reply.ok "token-0123456789") (Reply.ok sampleList) echoDetail) 2
      zeroIntervalConfig sampleParseDuration sampleSmtp World.init).2 _ _ rfl).2.2 0 rfl
      (le_refl 0) none⟩⟩

/-! ## `LoadConfig` and `Stop` -/

/-- C21: for a file that holds a YAML document, `LoadConfig` returns an
error exactly when `aseko.email`, `aseko.password`, `hue.bridge_ip` or
`hue.api_key` is empty after the document has been laid over the defaults.
When none is, it returns that configuration, in which the port, the expected
temperature, the check interval and the temperature threshold have the
defaults `8080`, 28, `1h` and 2 wherever the document leaves them out. -/
theorem LoadConfig_required_and_defaults (path : String) (d : ConfigDocument) :
    ((LoadConfig path (ConfigFile.document d)).isErr = true ↔
      ((d.unmarshal NewConfig).Aseko.Email = "" ∨ (d.unmarshal NewConfig).Aseko.Password = "" ∨
        (d.unmarshal NewConfig).Hue.BridgeIP = "" ∨ (d.unmarshal NewConfig).Hue.APIKey = "")) ∧
    ((LoadConfig path (ConfigFile.document d)).isErr = false →
      LoadConfig path (ConfigFile.document d) = Res.ok (d.unmarshal NewConfig)) ∧
    (d.serverPort = none → (d.unmarshal NewConfig).Server.Port = "8080") ∧
    (d.poolExpectedTemperature = none → (d.unmarshal NewConfig).Pool.ExpectedTemperature = 28) ∧
    (d.poolCheckInterval = none → (d.unmarshal NewConfig).Pool.CheckInterval = "1h") ∧
    (d.poolTemperatureThreshold = none →
      (d.unmarshal NewConfig).Pool.TemperatureThreshold = 2) := by
  refine ⟨?_, ?_, ?_, ?_, ?_, ?_⟩
  · unfold LoadConfig
    dsimp only
    by_cases h1 : (d.unmarshal NewConfig).Aseko.Email = ""
    · simp [h1, Res.isErr]
    · by_cases h2 : (d.unmarshal NewConfig).Aseko.Password = ""
      · simp [h1, h2, Res.isErr]
      · by_cases h3 : (d.unmarshal NewConfig).Hue.BridgeIP = ""
        · simp [h1, h2, h3, Res.isErr]
        · by_cases h4 : (d.unmarshal NewConfig).Hue.APIKey = ""
          · simp [h1, h2, h3, h4, Res.isErr]
          · simp [h1, h2, h3, h4, Res.isErr]
  · unfold LoadConfig
    dsimp only
    repeat' split
    all_goals simp [Res.isErr]
  · intro h; simp [ConfigDocument.unmarshal, NewConfig, h]
  · intro h; simp [ConfigDocument.unmarshal, NewConfig, h]
  · intro h; simp [ConfigDocument.unmarshal, NewConfig, h]
  · intro h; simp [ConfigDocument.unmarshal, NewConfig, h]

/-- The document `sampleDocument` loads: the expected temperature is the
one of the file, the port, interval and threshold are the defaults. -/
theorem LoadConfig_required_and_defaults_witness :
    LoadConfig "config.yaml" (ConfigFile.document sampleDocument)
      = Res.ok (sampleDocument.unmarshal NewConfig) ∧
    (sampleDocument.unmarshal NewConfig).Pool.ExpectedTemperature = 26 ∧
    (sampleDocument.unmarshal NewConfig).Server.Port = "8080" ∧
    (sampleDocument.unmarshal NewConfig).Pool.CheckInterval = "1h" ∧
    (sampleDocument.unmarshal NewConfig).Pool.TemperatureThreshold = 2 :=
  ⟨(LoadConfig_required_and_defaults "config.yaml" sampleDocument).2.1 rfl, rfl,
    (LoadConfig_required_and_defaults "config.yaml" sampleDocument).2.2.1 rfl,
    (LoadConfig_required_and_defaults "config.yaml" sampleDocument).2.2.2.2.1 rfl,
    (LoadConfig_required_and_defaults "config.yaml" sampleDocument).2.2.2.2.2 rfl⟩

/-- C22: on a monitor whose stop channel is still open, `Stop` closes it
and returns; a second `Stop` on the monitor it leaves panics and changes
nothing. -/
theorem Stop_twice_panics (pm : PoolMonitor) (hopen : pm.stopChanClosed = false) :
    pm.Stop = (Res.ok (), { pm with stopChanClosed := true }) ∧
    pm.Stop.2.Stop = (Res.panic, pm.Stop.2) := by
  constructor
  · simp [PoolMonitor.Stop, hopen]
  · simp [PoolMonitor.Stop, hopen]

/-- A monitor fresh from `NewPoolMonitor` has an open stop channel: the
first `Stop` returns, the second panics. -/
theorem Stop_twice_panics_witness :
    (sampleMonitor 28 2).stopChanClosed = false ∧
    (sampleMonitor 28 2).Stop.1.isOk = true ∧
    (sampleMonitor 28 2).Stop.2.Stop.1.isPanic = true ∧
    (sampleMonitor 28 2).Stop
      = (Res.ok (), { sampleMonitor 28 2 with stopChanClosed := true }) ∧
    (sampleMonitor 28 2).Stop.2.Stop = (Res.panic, (sampleMonitor 28 2).Stop.2) :=
  ⟨rfl, rfl, rfl, Stop_twice_panics (sampleMonitor 28 2) rfl⟩

/-- The monitor built by `NewPoolMonitor` has an open stop channel. -/
theorem NewPoolMonitor_open (parseDuration : String → Option Int) (c : AsekoClient)
    (service : Option AlertService) (cfg : Config) (pm : PoolMonitor)
    (h : NewPoolMonitor parseDuration c service cfg = Res.ok pm) :
    pm.stopChanClosed = false := by
  unfold NewPoolMonitor at h
  split at h
  · cases h
  · cases h; rfl

/-! ## `GetLights` -/

/-- C23: for a response map (entries with distinct keys, in any iteration
order) `GetLights` returns a list that is a rearrangement of the entries,
each with its key as ID and its other fields untouched, in strictly
ascending order of ID. -/
theorem GetLights_sorted_by_id (lights : List (String × HueLight))
    (hkeys : (lights.map Prod.fst).Nodup) :
    ∃ result, GetLights (Reply.ok lights) = Res.ok result ∧
      result.Perm (lights.map (fun entry => { entry.2 with ID := entry.1 })) ∧
      result.length = lights.length ∧
      result.Pairwise (fun a b => a.ID < b.ID) := by
  haveI : IsTotal HueLight (fun a b => a.ID ≤ b.ID) := ⟨fun a b => le_total a.ID b.ID⟩
  haveI : IsTrans HueLight (fun a b => a.ID ≤ b.ID) := ⟨fun _ _ _ h1 h2 => le_trans h1 h2⟩
  have hperm := List.perm_insertionSort (fun a b : HueLight => a.ID ≤ b.ID)
    (lights.map (fun entry => { entry.2 with ID := entry.1 }))
  have hsorted := List.sorted_insertionSort (fun a b : HueLight => a.ID ≤ b.ID)
    (lights.map (fun entry => { entry.2 with ID := entry.1 }))
  have hids : (lights.map (fun entry => ({ entry.2 with ID := entry.1 } : HueLight))).map
      (fun l => l.ID) = lights.map Prod.fst := by
    rw [List.map_map]; rfl
  have hnodup : ((lights.map (fun entry => ({ entry.2 with ID := entry.1 } : HueLight))
      ).insertionSort (fun a b => a.ID ≤ b.ID)).map (fun l => l.ID) |>.Nodup := by
    have := (hperm.map (fun l : HueLight => l.ID)).nodup_iff
    rw [this, hids]
    exact hkeys
  refine ⟨_, rfl, hperm, ?_, ?_⟩
  · rw [hperm.length_eq, List.length_map]
  · have hne := (List.pairwise_map.mp hnodup)
    exact (List.Pairwise.and hsorted hne).imp (fun h => lt_of_le_of_ne h.1 h.2)

/-- A map with the keys `2`, `10` and `1`, visited in that order: the
result is in the order `1`, `10`, `2` of the string comparison. -/
theorem GetLights_sorted_by_id_witness :
    ([("2", sampleLight "desk"), ("10", sampleLight "hall"), ("1", sampleLight "door")].map
        Prod.fst).Nodup ∧
    GetLights (Reply.ok
        [("2", sampleLight "desk"), ("10", sampleLight "hall"), ("1", sampleLight "door")])
      = Res.ok [{ sampleLight "door" with ID := "1" }, { sampleLight "hall" with ID := "10" },
                { sampleLight "desk" with ID := "2" }] ∧
    ∃ result,
      GetLights (Reply.ok
          [("2", sampleLight "desk"), ("10", sampleLight "hall"), ("1", sampleLight "door")])
        = Res.ok result ∧
      result.Perm
        ([("2", sampleLight "desk"), ("10", sampleLight "hall"), ("1", sampleLight "door")].map
          (fun entry => { entry.2 with ID := entry.1 })) ∧
      result.length
        = [("2", sampleLight "desk"), ("10", sampleLight "hall"),
            ("1", sampleLight "door")].length ∧
      result.Pairwise (fun a b => a.ID < b.ID) :=
  ⟨by decide,
    (rfl : GetLights (Reply.ok
          [("2", sampleLight "desk"), ("10", sampleLight "hall"), ("1", sampleLight "door")])
        = Res.ok (([("2", sampleLight "desk"), ("10", sampleLight "hall"),
            ("1", sampleLight "door")].map
            (fun entry : String × HueLight => ({ entry.2 with ID := entry.1 } : HueLight))
          ).insertionSort (fun a b => a.ID ≤ b.ID))).trans (congrArg Res.ok (by decide!)),
    GetLights_sorted_by_id
      [("2", sampleLight "desk"), ("10", sampleLight "hall"), ("1", sampleLight "door")]
      (by decide)⟩

/-! ## The retry path of `SelectUnit` -/

/-- C25 (as stated) fails: for a response of kind `UnitNeverConnected` with
serial `SN1` the first attempt caches the response and succeeds, the retry
returns an error and caches nothing. -/
theorem retry_never_connected_counterexample :
    (kindUnit "UnitNeverConnected").SerialNumber ≠ "" ∧
    (SelectUnit (sampleEnv (kindUnit "UnitNeverConnected")) 1 "SN1"
        { sampleClient with selectedUnit := none } World.init).map
      (fun r => (r.1.isOk, r.2.1.selectedUnit))
      = some (true, some (kindUnit "UnitNeverConnected")) ∧
    ((selectUnitAfterReconnect (sampleEnv (kindUnit "UnitNeverConnected")) "SN1"
        { sampleClient with selectedUnit := none } World.init).1.isOk,
      (selectUnitAfterReconnect (sampleEnv (kindUnit "UnitNeverConnected")) "SN1"
        { sampleClient with selectedUnit := none } World.init).2.1.selectedUnit)
      = (false, none) := by
  decide

/-- C25 (amended): for the same detail response with a non-empty serial,
received by `SelectUnit` on its first attempt and by
`selectUnitAfterReconnect`, the two agree in result and in the client they
leave when the kind is `UnitNotFoundError`, `UnitAccessDeniedError`, `Unit`
or empty. For `UnitNeverConnected` the first attempt caches the response
and succeeds while the retry returns an error and leaves the client; for
any other kind the first attempt returns an error and leaves the client
while the retry caches the response and succeeds. -/
theorem retry_classification (env : Env) (fuel : Nat) (sn : String) (c : AsekoClient)
    (w : World) (resp : UnitResponse)
    (hfirst : env.detail (w.issue (Request.unitDetail c.token sn)).requests = Reply.ok resp)
    (hretry : env.detail (w.issue (Request.unitDetailRetry c.token sn)).requests = Reply.ok resp)
    (hserial : resp.SerialNumber ≠ "") :
    (resp.Typename ∈ ["UnitNotFoundError", "UnitAccessDeniedError", "Unit", ""] →
      (SelectUnit env (fuel + 1) sn c w).map (fun r => (r.1, r.2.1))
        = some ((selectUnitAfterReconnect env sn c w).1,
            (selectUnitAfterReconnect env sn c w).2.1)) ∧
    (resp.Typename = "UnitNeverConnected" →
      (SelectUnit env (fuel + 1) sn c w).map (fun r => (r.1, r.2.1))
        = some (Res.ok (), { c with selectedUnit := some resp }) ∧
      ((selectUnitAfterReconnect env sn c w).1, (selectUnitAfterReconnect env sn c w).2.1)
        = (Res.err (Err.neverConnected sn), c)) ∧
    (resp.Typename ∉ ["UnitNotFoundError", "UnitAccessDeniedError", "UnitNeverConnected",
        "Unit", ""] →
      (SelectUnit env (fuel + 1) sn c w).map (fun r => (r.1, r.2.1))
        = some (Res.err (Err.unknownType resp.Typename), c) ∧
      ((selectUnitAfterReconnect env sn c w).1, (selectUnitAfterReconnect env sn c w).2.1)
        = (Res.ok (), { c with selectedUnit := some resp })) := by
  refine ⟨?_, ?_, ?_⟩
  · intro hk
    simp only [List.mem_cons, List.mem_singleton, List.not_mem_nil, or_false] at hk
    rcases hk with h | h | h | h <;>
      simp [SelectUnit, selectUnitAfterReconnect, hfirst, hretry, hserial, h]
  · intro h
    simp [SelectUnit, selectUnitAfterReconnect, hfirst, hretry, hserial, h]
  · intro hk
    simp only [List.mem_cons, List.mem_singleton, List.not_mem_nil, or_false, not_or] at hk
    simp [SelectUnit, selectUnitAfterReconnect, hfirst, hretry, hserial, hk.1, hk.2.1,
      hk.2.2.1, hk.2.2.2.1, hk.2.2.2.2]

/-- A response of kind `Unit` is classified alike on both paths. -/
theorem retry_classification_witness :
    (sampleEnv (sampleUnit [])).detail
        (World.init.issue (Request.unitDetail sampleClient.token "SN1")).requests
      = Reply.ok (sampleUnit []) ∧
    (sampleEnv (sampleUnit [])).detail
        (World.init.issue (Request.unitDetailRetry sampleClient.token "SN1")).requests
      = Reply.ok (sampleUnit []) ∧
    (SelectUnit (sampleEnv (sampleUnit [])) 1 "SN1" sampleClient World.init).map
        (fun r => (r.1, r.2.1))
      = some ((selectUnitAfterReconnect (sampleEnv (sampleUnit [])) "SN1" sampleClient
            World.init).1,
          (selectUnitAfterReconnect (sampleEnv (sampleUnit [])) "SN1" sampleClient
            World.init).2.1) :=
  ⟨rfl, rfl, (retry_classification (sampleEnv (sampleUnit [])) 0 "SN1" sampleClient World.init
    (sampleUnit []) rfl rfl (by decide)).1 (by decide)⟩

/-- C26 (as stated) fails: the client has `SN2` selected; the refresh of
`SN2` gets an empty response, the reconnect selects the first listed unit
`SN1`, and the retry for `SN2` is answered with `UnitNotFoundError`.
`SelectUnit` returns an error and leaves `SN1` selected. -/
theorem SelectUnit_error_changes_selection_counterexample :
    staleClient.selectedUnit.map (fun u => u.SerialNumber) = some "SN2" ∧
    (SelectUnit (serverEnv (Reply.ok "token-0123456789") (Reply.ok sampleList) reconnectDetail)
        2 "SN2" staleClient World.init).map
      (fun r => (r.1.isErr, r.2.1.selectedUnit.map (fun u => u.SerialNumber)))
      = some (true, some "SN1") ∧
    requestsOf (SelectUnit
        (serverEnv (Reply.ok "token-0123456789") (Reply.ok sampleList) reconnectDetail)
        2 "SN2" staleClient World.init)
      = [Request.unitDetail "token-0123456789" "SN2", Request.login,
         Request.unitList "token-0123456789", Request.unitDetail "token-0123456789" "SN1",
         Request.unitDetailRetry "token-0123456789" "SN2"] := by
  refine ⟨rfl, rfl, rfl⟩

/-- C26 (amended): when `SelectUnit` returns an error without having
reconnected (its detail request failed, or the response had a non-empty
serial), the client is exactly as before the call and one request was
issued; and whenever the retry query `selectUnitAfterReconnect` returns an
error it leaves the client as it found it. -/
theorem SelectUnit_error_without_reconnect :
    (∀ (env : Env) (fuel : Nat) (sn : String) (c c1 : AsekoClient) (w w1 : World) (e : Err),
      (∀ resp, env.detail (w.issue (Request.unitDetail c.token sn)).requests = Reply.ok resp →
        resp.SerialNumber ≠ "") →
      SelectUnit env fuel sn c w = some (Res.err e, c1, w1) →
      c1 = c ∧ w1 = w.issue (Request.unitDetail c.token sn)) ∧
    (∀ (env : Env) (sn : String) (c : AsekoClient) (w : World),
      (selectUnitAfterReconnect env sn c w).1.isErr = true →
      (selectUnitAfterReconnect env sn c w).2.1 = c) := by
  constructor
  · intro env fuel sn c c1 w w1 e hdirect h
    cases fuel with
    | zero => simp [SelectUnit] at h
    | succ n =>
      rw [SelectUnit] at h
      split at h
      · cases h; exact ⟨rfl, rfl⟩
      · cases h; exact ⟨rfl, rfl⟩
      · cases h; exact ⟨rfl, rfl⟩
      · rename_i resp hd
        have hs := hdirect resp hd
        rw [if_neg hs] at h
        repeat' split at h
        all_goals first
          | (cases h; exact ⟨rfl, rfl⟩)
          | cases h
  · intro env sn c w h
    unfold selectUnitAfterReconnect at h ⊢
    dsimp only at h ⊢
    repeat' split
    all_goals first
      | rfl
      | (simp_all [Res.isErr])

/-- A detail request that fails in transport: `SelectUnit` returns an error
and the client with `SN2` selected is untouched. -/
theorem SelectUnit_error_without_reconnect_witness :
    SelectUnit (scriptedEnv (fun _ => true) (fun _ => false)) 1 "SN2" staleClient World.init
      = some (Res.err (Err.wrap "error making request" Err.doFailed), staleClient,
          World.init.issue (Request.unitDetail staleClient.token "SN2")) ∧
    (staleClient = staleClient ∧
      World.init.issue (Request.unitDetail staleClient.token "SN2")
        = World.init.issue (Request.unitDetail staleClient.token "SN2")) :=
  ⟨rfl, SelectUnit_error_without_reconnect.1 (scriptedEnv (fun _ => true) (fun _ => false)) 1
    "SN2" staleClient staleClient World.init
    (World.init.issue (Request.unitDetail staleClient.token "SN2"))
    (Err.wrap "error making request" Err.doFailed)
    (fun resp h => by cases h) rfl⟩

/-! ## Client calls send no message -/

/-- The call `Login` hands no message to the email alerter. -/
theorem Login_mail (env : Env) (c : AsekoClient) (w : World) :
    (Login env c w).2.2.emails = w.emails := by
  unfold Login
  simp only []
  repeat' split
  all_goals rfl

/-- The call `fetchUnitList` hands no message to the email alerter. -/
theorem fetchUnitList_mail (env : Env) (c : AsekoClient) (w : World) :
    (fetchUnitList env c w).2.2.emails = w.emails := by
  unfold fetchUnitList
  simp only []
  repeat' split
  all_goals rfl

/-- The call `selectUnitAfterReconnect` hands no message to the email alerter. -/
theorem selectUnitAfterReconnect_mail (env : Env) (sn : String) (c : AsekoClient) (w : World) :
    (selectUnitAfterReconnect env sn c w).2.2.emails = w.emails := by
  unfold selectUnitAfterReconnect
  simp only []
  repeat' split
  all_goals rfl

/-- The body of `Initialize` hands no message to the email alerter when the
selection it calls does not. -/
theorem InitializeWith_mail (env : Env)
    (select : String → AsekoClient → World → Option (Step Unit))
    (hsel : ∀ sn c w r, select sn c w = some r → r.2.2.emails = w.emails)
    (c : AsekoClient) (w : World) (r : Step Unit)
    (h : InitializeWith env select c w = some r) : r.2.2.emails = w.emails := by
  unfold InitializeWith at h
  have hL := Login_mail env c w
  split at h
  · rename_i e c1 w1 hl
    rw [hl] at hL; cases h; exact hL
  · rename_i c1 w1 hl
    rw [hl] at hL; cases h; exact hL
  · rename_i u c1 w1 hl
    rw [hl] at hL
    have hF := fetchUnitList_mail env c1 w1
    split at h
    · rename_i e c2 w2 hf
      rw [hf] at hF; cases h; exact hF.trans hL
    · rename_i c2 w2 hf
      rw [hf] at hF; cases h; exact hF.trans hL
    · rename_i u2 c2 w2 hf
      rw [hf] at hF
      have h2 : w2.emails = w.emails := hF.trans hL
      split at h
      · cases h; exact h2
      · split at h
        · cases h; exact h2
        · rename_i first rest hu
          simp only [] at h
          split at h
          · cases h
          · rename_i c3 w3 hs
            cases h; exact (hsel _ _ _ _ hs).trans h2
          · rename_i c3 w3 hs
            cases h; exact (hsel _ _ _ _ hs).trans h2
          · rename_i e c3 w3 hs
            have h3 : w3.emails = w.emails := (hsel _ _ _ _ hs).trans h2
            have hL2 := Login_mail env c3 w3
            split at h
            · rename_i e4 c4 w4 hl4
              rw [hl4] at hL2; cases h; exact hL2.trans h3
            · rename_i c4 w4 hl4
              rw [hl4] at hL2; cases h; exact hL2.trans h3
            · rename_i u4 c4 w4 hl4
              rw [hl4] at hL2
              have h4 : w4.emails = w.emails := hL2.trans h3
              split at h
              · cases h
              · rename_i c5 w5 hs5
                cases h; exact (hsel _ _ _ _ hs5).trans h4
              · rename_i c5 w5 hs5
                cases h; exact (hsel _ _ _ _ hs5).trans h4
              · rename_i e5 c5 w5 hs5
                cases h; exact (hsel _ _ _ _ hs5).trans h4

/-- The call `SelectUnit` hands no message to the email alerter. -/
theorem SelectUnit_mail (env : Env) :
    ∀ (fuel : Nat) (sn : String) (c : AsekoClient) (w : World) (r : Step Unit),
      SelectUnit env fuel sn c w = some r → r.2.2.emails = w.emails := by
  intro fuel
  induction fuel with
  | zero => intro sn c w r h; simp [SelectUnit] at h
  | succ n ih =>
    intro sn c w r h
    rw [SelectUnit] at h
    split at h
    · cases h; rfl
    · cases h; rfl
    · cases h; rfl
    · rename_i unitResp hd
      split at h
      · split at h
        · cases h
        · rename_i e c2 w2 hi
          cases h
          exact (InitializeWith_mail env _ ih _ _ _ hi).trans rfl
        · rename_i c2 w2 hi
          cases h
          exact (InitializeWith_mail env _ ih _ _ _ hi).trans rfl
        · rename_i u c2 w2 hi
          cases h
          exact (selectUnitAfterReconnect_mail env sn c2 w2).trans
            ((InitializeWith_mail env _ ih _ _ _ hi).trans rfl)
      · repeat' split at h
        all_goals (cases h; rfl)

/-- The extraction loop hands no message to the email alerter. -/
theorem foldl_processStatusValue_mail (env : Env) :
    ∀ (primary : List StatusValue) (acc : MeasurementMap × World),
      (primary.foldl (processStatusValue env) acc).2.emails = acc.2.emails := by
  intro primary
  induction primary with
  | nil => intro acc; rfl
  | cons sv rest ih =>
    intro acc
    rw [List.foldl_cons, ih]
    unfold processStatusValue
    repeat' split
    all_goals rfl

/-- The call `GetMeasurements` hands no message to the email alerter. -/
theorem GetMeasurements_mail (env : Env) (fuel : Nat) (c : AsekoClient) (w : World)
    (r : Step MeasurementMap) (h : GetMeasurements env fuel c w = some r) :
    r.2.2.emails = w.emails := by
  unfold GetMeasurements at h
  split at h
  · cases h; rfl
  · split at h
    · cases h
    · rename_i hs; cases h; exact SelectUnit_mail env _ _ _ _ _ hs
    · rename_i hs; cases h; exact SelectUnit_mail env _ _ _ _ _ hs
    · rename_i hs
      split at h
      · cases h; exact SelectUnit_mail env _ _ _ _ _ hs
      · cases h
        simp only []
        rw [foldl_processStatusValue_mail]
        exact SelectUnit_mail env _ _ _ _ _ hs

/-! ## The monitor without a usable alert service -/

/-- Without a service, with a disabled service or without receivers,
`sendTemperatureAlert` only records the call. -/
theorem sendTemperatureAlert_off (pm : PoolMonitor) (env : Env) (alertType : String)
    (current expected delta : Float64) (w : World)
    (hoff : pm.alertService = none ∨ (∃ s, pm.alertService = some s ∧ s.IsEnabled = false) ∨
      pm.defaultReceivers = []) :
    pm.sendTemperatureAlert env alertType current expected delta w
      = w.record (Event.sendTemperatureAlert alertType current expected delta) := by
  unfold PoolMonitor.sendTemperatureAlert
  rcases hoff with h | ⟨s, h, hs⟩ | h
  · simp [h]
  · simp [h, hs]
  · cases hsvc : pm.alertService <;> simp [h]

/-- Without a service, with a disabled service or without receivers,
`sendWaterFlowAlert` only records the call. -/
theorem sendWaterFlowAlert_off (pm : PoolMonitor) (env : Env) (w : World)
    (hoff : pm.alertService = none ∨ (∃ s, pm.alertService = some s ∧ s.IsEnabled = false) ∨
      pm.defaultReceivers = []) :
    pm.sendWaterFlowAlert env w = w.record Event.sendWaterFlowAlert := by
  unfold PoolMonitor.sendWaterFlowAlert
  rcases hoff with h | ⟨s, h, hs⟩ | h
  · simp [h]
  · simp [h, hs]
  · cases hsvc : pm.alertService <;> simp [h]

/-- Without a service, with a disabled service or without receivers, the
rules of `Check` hand no message to the alerter and call `Send` for no
receiver. -/
theorem evaluate_off (pm : PoolMonitor) (env : Env) (m : MeasurementMap) (w : World)
    (hoff : pm.alertService = none ∨ (∃ s, pm.alertService = some s ∧ s.IsEnabled = false) ∨
      pm.defaultReceivers = []) :
    (pm.evaluate env m w).emails = w.emails ∧
      sendAttempts (pm.evaluate env m w).trace = sendAttempts w.trace := by
  unfold PoolMonitor.evaluate
  simp only [sendTemperatureAlert_off pm env _ _ _ _ _ hoff, sendWaterFlowAlert_off pm env _ hoff]
  repeat' split
  all_goals simp [World.record, sendAttempts, List.countP_append]

/-- C28: when the alert service is nil or disabled, or the default receiver
list is empty, then for every measurement set the fetch returns, `Check`
returns without error, hands no message to the email alerter and calls
`Send` for no receiver, whatever alerts its rules raise. -/
theorem Check_silent_without_service (pm : PoolMonitor) (env : Env) (fuel : Nat) (w : World)
    (m : MeasurementMap) (c1 : AsekoClient) (w1 : World)
    (hfetch : GetMeasurements env fuel pm.asekoClient (timeNow env w).2 = some (Res.ok m, c1, w1))
    (hoff : pm.alertService = none ∨ (∃ s, pm.alertService = some s ∧ s.IsEnabled = false) ∨
      pm.defaultReceivers = []) :
    ∃ pm1 w2, pm.Check env fuel w = some (Res.ok (), pm1, w2) ∧
      w2.emails = w.emails ∧ sendAttempts w2.trace = sendAttempts w.trace := by
  have he : w1.emails = w.emails := by
    have := GetMeasurements_mail env fuel _ _ _ hfetch
    simpa [timeNow] using this
  have ht : w1.trace = w.trace := by
    have := GetMeasurements_trace env fuel _ _ _ hfetch
    simpa [timeNow] using this
  have hev := evaluate_off { pm with lastCheck := (timeNow env w).1, asekoClient := c1 } env m w1
    hoff
  refine ⟨{ pm with lastCheck := (timeNow env w).1, asekoClient := c1 },
    PoolMonitor.evaluate { pm with lastCheck := (timeNow env w).1, asekoClient := c1 } env m w1,
    ?_, ?_, ?_⟩
  · unfold PoolMonitor.Check
    dsimp only
    rw [hfetch]
  · exact hev.1.trans he
  · rw [hev.2, ht]

/-- A reading of 25.5 against an expected 28 with threshold 2 and no water
flow raises both alerts; with the receiver list emptied no message is
sent. -/
theorem Check_silent_without_service_witness :
    temperatureAlerts (checkTrace { sampleMonitor 28 2 with defaultReceivers := [] }
        (sampleEnv (sampleUnit [sampleValue "WATER_TEMPERATURE" "25.5",
          sampleValue "WATER_FLOW_TO_PROBES" "NO"])) 1 World.init) = ["low"] ∧
    waterFlowAlerts (checkTrace { sampleMonitor 28 2 with defaultReceivers := [] }
        (sampleEnv (sampleUnit [sampleValue "WATER_TEMPERATURE" "25.5",
          sampleValue "WATER_FLOW_TO_PROBES" "NO"])) 1 World.init) = 1 ∧
    checkSubjects (sampleMonitor 28 2)
        (sampleEnv (sampleUnit [sampleValue "WATER_TEMPERATURE" "25.5",
          sampleValue "WATER_FLOW_TO_PROBES" "NO"])) 1 World.init
      = ["Pool Temperature Alert: Below Expected", "CRITICAL: Pool Water Flow Issue"] ∧
    ∃ pm1 w2,
      PoolMonitor.Check { sampleMonitor 28 2 with defaultReceivers := [] }
          (sampleEnv (sampleUnit [sampleValue "WATER_TEMPERATURE" "25.5",
            sampleValue "WATER_FLOW_TO_PROBES" "NO"])) 1 World.init
        = some (Res.ok (), pm1, w2) ∧
      w2.emails = World.init.emails ∧ sendAttempts w2.trace = sendAttempts World.init.trace :=
  ⟨by decide!, by decide!, by decide!,
    Check_silent_without_service { sampleMonitor 28 2 with defaultReceivers := [] }
      (sampleEnv (sampleUnit [sampleValue "WATER_TEMPERATURE" "25.5",
        sampleValue "WATER_FLOW_TO_PROBES" "NO"])) 1 World.init
      [("WaterFlow", { Value := 0, Unit := "NO", UpdatedAt := 1002 }),
       ("Temp", { Value := Float64.finite (51 / 2), Unit := "°C", UpdatedAt := 1001 })] _ _ rfl
      (Or.inr (Or.inr rfl))⟩

/-! ## One alert of each kind per check -/

/-- C29: for every reading, expected temperature and threshold (negative
thresholds included) a `Check` that returns raises at most one temperature
alert and at most one water-flow alert; when the fetched set holds a
temperature with both `t - expected < -threshold` and
`t - expected > threshold` (in float64, as the code computes them), the one
temperature alert raised is the low one. -/
theorem Check_at_most_one_alert (pm : PoolMonitor) (env : Env) (fuel : Nat) (w : World)
    (hret : (pm.Check env fuel w).isSome = true) :
    ∃ raised : List String,
      temperatureAlerts (checkTrace pm env fuel w) = temperatureAlerts w.trace ++ raised ∧
      raised.length ≤ 1 ∧
      waterFlowAlerts w.trace ≤ waterFlowAlerts (checkTrace pm env fuel w) ∧
      waterFlowAlerts (checkTrace pm env fuel w) ≤ waterFlowAlerts w.trace + 1 ∧
      ∀ (m : MeasurementMap) (c1 : AsekoClient) (w1 : World) (tempData : Measurement),
        GetMeasurements env fuel pm.asekoClient (timeNow env w).2 = some (Res.ok m, c1, w1) →
        m.get "Temp" = some tempData →
        tempData.Value - pm.config.Pool.ExpectedTemperature
          < -pm.config.Pool.TemperatureThreshold →
        tempData.Value - pm.config.Pool.ExpectedTemperature
          > pm.config.Pool.TemperatureThreshold →
        raised = ["low"] := by
  unfold checkTrace
  unfold PoolMonitor.Check at hret ⊢
  dsimp only at hret ⊢
  cases hG : GetMeasurements env fuel pm.asekoClient (timeNow env w).2 with
  | none => rw [hG] at hret; simp at hret
  | some r =>
    obtain ⟨fetched, c1, w1⟩ := r
    have hw1 : w1.trace = w.trace := by
      have := GetMeasurements_trace env fuel _ _ _ hG
      simpa [timeNow] using this
    cases fetched with
    | err e =>
      refine ⟨[], ?_, by simp, ?_, ?_, ?_⟩
      · simp [hw1]
      · simp [hw1]
      · simp [hw1]
      · intro m c2 w2 tempData h; cases h
    | panic =>
      refine ⟨[], ?_, by simp, ?_, ?_, ?_⟩
      · simp [hw1]
      · simp [hw1]
      · simp [hw1]
      · intro m c2 w2 tempData h; cases h
    | ok m =>
      have hev := evaluate_alerts { pm with lastCheck := (timeNow env w).1, asekoClient := c1 }
        env m w1
      rw [hw1] at hev
      dsimp only at hev ⊢
      refine ⟨_, hev.1, ?_, ?_, ?_, ?_⟩
      · repeat' split
        all_goals simp
      · rw [hev.2]; exact Nat.le_add_right _ _
      · rw [hev.2]
        apply Nat.add_le_add_left
        repeat' split
        all_goals simp
      · intro m2 c2 w2 tempData h htemp hlow hhigh
        cases h
        rw [htemp]
        dsimp only
        rw [if_pos hlow]

/-- Expected 28, threshold -1 and a reading of 28: both conditions hold and
the one temperature alert raised is the low one. -/
theorem Check_at_most_one_alert_witness :
    temperatureAlerts (checkTrace (sampleMonitor 28 (-1))
      (sampleEnv (sampleUnit [sampleValue "WATER_TEMPERATURE" "28"])) 1 World.init) = ["low"] ∧
    ∃ raised : List String,
      temperatureAlerts (checkTrace (sampleMonitor 28 (-1))
          (sampleEnv (sampleUnit [sampleValue "WATER_TEMPERATURE" "28"])) 1 World.init)
        = temperatureAlerts World.init.trace ++ raised ∧
      raised.length ≤ 1 ∧
      waterFlowAlerts World.init.trace ≤ waterFlowAlerts (checkTrace (sampleMonitor 28 (-1))
          (sampleEnv (sampleUnit [sampleValue "WATER_TEMPERATURE" "28"])) 1 World.init) ∧
      waterFlowAlerts (checkTrace (sampleMonitor 28 (-1))
          (sampleEnv (sampleUnit [sampleValue "WATER_TEMPERATURE" "28"])) 1 World.init)
        ≤ waterFlowAlerts World.init.trace + 1 ∧
      ∀ (m : MeasurementMap) (c1 : AsekoClient) (w1 : World) (tempData : Measurement),
        GetMeasurements (sampleEnv (sampleUnit [sampleValue "WATER_TEMPERATURE" "28"])) 1
            (sampleMonitor 28 (-1)).asekoClient
            (timeNow (sampleEnv (sampleUnit [sampleValue "WATER_TEMPERATURE" "28"]))
              World.init).2 = some (Res.ok m, c1, w1) →
        m.get "Temp" = some tempData →
        tempData.Value - (sampleMonitor 28 (-1)).config.Pool.ExpectedTemperature
          < -(sampleMonitor 28 (-1)).config.Pool.TemperatureThreshold →
        tempData.Value - (sampleMonitor 28 (-1)).config.Pool.ExpectedTemperature
          > (sampleMonitor 28 (-1)).config.Pool.TemperatureThreshold →
        raised = ["low"] :=
  ⟨by decide!, Check_at_most_one_alert (sampleMonitor 28 (-1))
    (sampleEnv (sampleUnit [sampleValue "WATER_TEMPERATURE" "28"])) 1 World.init rfl⟩

/-- C24, the code at the failing input: expected 26, threshold 1, and a
fetched set that holds `WaterFlow` with value 0 and no temperature.
`GetStatus` reports `WaterFlowAlert` and no temperature alert; `Check` on
the same set raises no water-flow alert, so the two do not take the same
decision. -/
theorem GetStatus_Check_disagree_on_water_flow :
    fetchedValue (sampleEnv (sampleUnit [sampleValue "WATER_FLOW_TO_PROBES" "NO"])) 1
        (sampleMonitor 26 1).asekoClient World.init "WaterFlow" = some 0 ∧
    (statusOf (sampleMonitor 26 1)
        (sampleEnv (sampleUnit [sampleValue "WATER_FLOW_TO_PROBES" "NO"])) 1 World.init).map
      (fun s => (s.TemperatureAlert, s.TemperatureAlertType, s.WaterFlowAlert))
      = some (false, "", true) ∧
    temperatureAlerts (checkTrace (sampleMonitor 26 1)
        (sampleEnv (sampleUnit [sampleValue "WATER_FLOW_TO_PROBES" "NO"])) 1 World.init) = [] ∧
    waterFlowAlerts (checkTrace (sampleMonitor 26 1)
        (sampleEnv (sampleUnit [sampleValue "WATER_FLOW_TO_PROBES" "NO"])) 1 World.init) = 0 ∧
    ¬ ((statusOf (sampleMonitor 26 1)
          (sampleEnv (sampleUnit [sampleValue "WATER_FLOW_TO_PROBES" "NO"])) 1 World.init).map
        (fun s => s.WaterFlowAlert) = some true ↔
      waterFlowAlerts (checkTrace (sampleMonitor 26 1)
        (sampleEnv (sampleUnit [sampleValue "WATER_FLOW_TO_PROBES" "NO"])) 1 World.init) = 1) := by
  decide!

/-- The decisions of `GetStatus` on a fetched set that holds the temperature
key: the chain on the delta, and the water-flow test. -/
theorem GetStatus_decisions (pm : PoolMonitor) (env : Env) (fuel : Nat) (w : World)
    (m : MeasurementMap) (c1 : AsekoClient) (w1 : World) (tempData : Measurement)
    (hfetch : GetMeasurements env fuel pm.asekoClient w = some (Res.ok m, c1, w1))
    (htemp : m.get "Temp" = some tempData) :
    ∃ status pm1 w2, pm.GetStatus env fuel w = some (Res.ok status, pm1, w2) ∧
      (if status.TemperatureAlert = true then [status.TemperatureAlertType] else [])
        = (if tempData.Value - pm.config.Pool.ExpectedTemperature
              < -pm.config.Pool.TemperatureThreshold then ["low"]
           else if tempData.Value - pm.config.Pool.ExpectedTemperature
              > pm.config.Pool.TemperatureThreshold then ["high"]
           else []) ∧
      status.WaterFlowAlert
        = (match m.get "WaterFlow" with
           | none => false
           | some flowData => if flowData.Value = 1 then false else true) := by
  unfold PoolMonitor.GetStatus
  rw [hfetch]
  dsimp only
  refine ⟨_, _, _, rfl, ?_, ?_⟩
  · rw [htemp]
    cases m.get "PH" <;> cases m.get "Redox" <;> cases m.get "WaterFlow" <;>
      dsimp only <;> repeat' split
    all_goals simp_all
  · rw [htemp]
    cases m.get "PH" <;> cases m.get "Redox" <;> cases m.get "WaterFlow" <;>
      dsimp only <;> repeat' split
    all_goals simp_all

/-- Where the two do agree: when the fetched set holds the temperature key
(and a water-flow value of 0 or 1, the only values the extraction loop
stores), `Check` raises exactly the temperature alert that `GetStatus`
reports on the same set, and a water-flow alert exactly when `GetStatus`
reports `WaterFlowAlert`. -/
theorem GetStatus_Check_agree_with_temperature (pm : PoolMonitor) (env : Env) (fuel : Nat)
    (w wS : World) (m : MeasurementMap) (c1 cS : AsekoClient) (w1 wS1 : World)
    (tempData : Measurement)
    (hcheck : GetMeasurements env fuel pm.asekoClient (timeNow env w).2
      = some (Res.ok m, c1, w1))
    (hstatus : GetMeasurements env fuel pm.asekoClient wS = some (Res.ok m, cS, wS1))
    (htemp : m.get "Temp" = some tempData)
    (hflow : ∀ x, m.get "WaterFlow" = some x → x.Value = 0 ∨ x.Value = 1) :
    ∃ status pmS wS2 pm1 w2,
      pm.GetStatus env fuel wS = some (Res.ok status, pmS, wS2) ∧
      pm.Check env fuel w = some (Res.ok (), pm1, w2) ∧
      temperatureAlerts w2.trace = temperatureAlerts w.trace ++
        (if status.TemperatureAlert = true then [status.TemperatureAlertType] else []) ∧
      waterFlowAlerts w2.trace = waterFlowAlerts w.trace +
        (if status.WaterFlowAlert = true then 1 else 0) := by
  have hw1 : w1.trace = w.trace := by
    have := GetMeasurements_trace env fuel _ _ _ hcheck
    simpa [timeNow] using this
  have hev := evaluate_alerts { pm with lastCheck := (timeNow env w).1, asekoClient := c1 }
    env m w1
  rw [htemp, hw1] at hev
  dsimp only at hev
  obtain ⟨status, pmS, wS2, hS, hT, hF⟩ :=
    GetStatus_decisions pm env fuel wS m cS wS1 tempData hstatus htemp
  refine ⟨status, pmS, wS2, { pm with lastCheck := (timeNow env w).1, asekoClient := c1 },
    PoolMonitor.evaluate { pm with lastCheck := (timeNow env w).1, asekoClient := c1 } env m w1,
    hS, ?_, ?_, ?_⟩
  · unfold PoolMonitor.Check
    dsimp only
    rw [hcheck]
  · rw [hev.1, hT]
  · rw [hev.2, hF]
    congr 1
    cases hFl : m.get "WaterFlow" with
    | none => rfl
    | some flowData =>
      dsimp only
      rcases hflow flowData hFl with h0 | h1
      · have hne : ¬ flowData.Value = 1 := by rw [h0]; decide
        rw [if_neg hne, if_pos h0]; rfl
      · have hne : ¬ flowData.Value = 0 := by rw [h1]; decide
        rw [if_pos h1, if_neg hne]; rfl

/-! ## Center values that are not numbers -/

/-- An entry of type `REDOX`, `PH` or `WATER_TEMPERATURE` stores the value
that `strconv.ParseFloat` returned for its center value, whether or not it
returned an error with it. -/
theorem processStatusValue_numeric (env : Env) (acc : MeasurementMap × World) (sv : StatusValue)
    (key : String)
    (hnum : (sv.Type_ = "REDOX" ∧ key = "Redox") ∨ (sv.Type_ = "PH" ∧ key = "PH") ∨
      (sv.Type_ = "WATER_TEMPERATURE" ∧ key = "Temp")) :
    ∃ x, (processStatusValue env acc sv).1.get key = some x ∧
      x.Value = (ParseFloat env sv.CenterValue).1 := by
  unfold processStatusValue
  rcases hnum with ⟨h, hk⟩ | ⟨h, hk⟩ | ⟨h, hk⟩
  · subst hk
    rw [if_pos h]; dsimp only; rw [get_set]; simp
  · subst hk
    have h1 : ¬ sv.Type_ = "REDOX" := by rw [h]; decide
    rw [if_neg h1, if_pos h]; dsimp only; rw [get_set]; simp
  · subst hk
    have h1 : ¬ sv.Type_ = "REDOX" := by rw [h]; decide
    have h2 : ¬ sv.Type_ = "PH" := by rw [h]; decide
    rw [if_neg h1, if_neg h2, if_pos h]; dsimp only; rw [get_set]; simp

/-- An entry whose canonical key is not `key` leaves what is stored under
`key`. -/
theorem processStatusValue_other_key (env : Env) (acc : MeasurementMap × World)
    (sv : StatusValue) (key : String) (h : canonicalKey sv.Type_ ≠ some key) :
    (processStatusValue env acc sv).1.get key = acc.1.get key := by
  unfold canonicalKey at h
  unfold processStatusValue
  by_cases h1 : sv.Type_ = "REDOX"
  · rw [if_pos h1] at h ⊢; dsimp only; rw [get_set]
    have : ¬ key = "Redox" := fun hk => h (by rw [hk])
    simp [this]
  · rw [if_neg h1] at h ⊢
    by_cases h2 : sv.Type_ = "PH"
    · rw [if_pos h2] at h ⊢; dsimp only; rw [get_set]
      have : ¬ key = "PH" := fun hk => h (by rw [hk])
      simp [this]
    · rw [if_neg h2] at h ⊢
      by_cases h3 : sv.Type_ = "WATER_TEMPERATURE"
      · rw [if_pos h3] at h ⊢; dsimp only; rw [get_set]
        have : ¬ key = "Temp" := fun hk => h (by rw [hk])
        simp [this]
      · rw [if_neg h3] at h ⊢
        by_cases h4 : sv.Type_ = "WATER_FLOW_TO_PROBES"
        · rw [if_pos h4] at h ⊢; dsimp only; rw [get_set]
          have : ¬ key = "WaterFlow" := fun hk => h (by rw [hk])
          simp [this]
        · rw [if_neg h4]

/-- Entries whose canonical key is not `key` leave what is stored under
`key`. -/
theorem foldl_processStatusValue_other_key (env : Env) (key : String) :
    ∀ (post : List StatusValue) (acc : MeasurementMap × World),
      (∀ x ∈ post, canonicalKey x.Type_ ≠ some key) →
      (post.foldl (processStatusValue env) acc).1.get key = acc.1.get key := by
  intro post
  induction post with
  | nil => intro acc _; rfl
  | cons x rest ih =>
    intro acc h
    rw [List.foldl_cons, ih _ (fun y hy => h y (List.mem_cons_of_mem _ hy)),
      processStatusValue_other_key env acc x key (h x (List.mem_cons_self _ _))]

/-- C30 (as stated) fails: the pH entry reads `1e400`, for which
`strconv.ParseFloat` returns an error (the number is out of the float64
range) together with `+Inf`. `GetMeasurements` reports no error and
returns the key `PH`, but its value is `+Inf`, not 0. -/
theorem GetMeasurements_out_of_range_counterexample :
    ((ParseFloat (sampleEnv (sampleUnit [sampleValue "PH" "1e400"])) "1e400").2).isSome = true ∧
    (GetMeasurements (sampleEnv (sampleUnit [sampleValue "PH" "1e400"])) 1 sampleClient
        World.init).map (fun r => r.1.isOk) = some true ∧
    fetchedValue (sampleEnv (sampleUnit [sampleValue "PH" "1e400"])) 1 sampleClient World.init
        "PH" = some Float64.posInf ∧
    fetchedValue (sampleEnv (sampleUnit [sampleValue "PH" "1e400"])) 1 sampleClient World.init
        "PH" ≠ some 0 := by
  decide

/-- C30 (amended): take a `REDOX`, `PH` or `WATER_TEMPERATURE` entry of the
refreshed snapshot, the last of its type. Once the refresh has succeeded,
`GetMeasurements` returns a measurement set and no error, whatever the
center value of the entry is, and the set holds the entry's key with the
value that `strconv.ParseFloat` returned, its error dropped: 0 when the
center value is not a number (such as the empty string), and the infinity
of its sign when it is a number beyond the float64 range (such as
`1e400`). -/
theorem GetMeasurements_unparseable_value (env : Env) (fuel : Nat) (c : AsekoClient) (w : World)
    (selected snapshot : UnitResponse) (c1 : AsekoClient) (w1 : World)
    (pre post : List StatusValue) (sv : StatusValue) (key : String)
    (hsel : c.selectedUnit = some selected)
    (href : SelectUnit env fuel selected.SerialNumber c w = some (Res.ok (), c1, w1))
    (hsnap : c1.selectedUnit = some snapshot)
    (hsplit : snapshot.Primary = pre ++ sv :: post)
    (hlast : ∀ x ∈ post, x.Type_ ≠ sv.Type_)
    (hnum : (sv.Type_ = "REDOX" ∧ key = "Redox") ∨ (sv.Type_ = "PH" ∧ key = "PH") ∨
      (sv.Type_ = "WATER_TEMPERATURE" ∧ key = "Temp")) :
    ∃ m w2 x, GetMeasurements env fuel c w = some (Res.ok m, c1, w2) ∧
      m.get key = some x ∧
      x.Value = (ParseFloat env sv.CenterValue).1 ∧
      (env.parseFloat sv.CenterValue = Parsed.malformed → x.Value = 0) ∧
      (env.parseFloat sv.CenterValue = Parsed.outOfRange false → x.Value = Float64.posInf) ∧
      (env.parseFloat sv.CenterValue = Parsed.outOfRange true → x.Value = Float64.negInf) := by
  have hother : ∀ x ∈ post, canonicalKey x.Type_ ≠ some key := by
    intro x hx hk
    have hne := hlast x hx
    rw [canonicalKey_eq] at hk
    rcases hnum with ⟨h, hkey⟩ | ⟨h, hkey⟩ | ⟨h, hkey⟩ <;>
      rcases hk with ⟨hx1, hx2⟩ | ⟨hx1, hx2⟩ | ⟨hx1, hx2⟩ | ⟨hx1, hx2⟩ <;>
      first
        | exact hne (hx1.trans h.symm)
        | (rw [hkey] at hx2; revert hx2; decide)
  obtain ⟨x, hx, hv⟩ := processStatusValue_numeric env
    (pre.foldl (processStatusValue env) ([], w1)) sv key hnum
  refine ⟨_, _, x, GetMeasurements_of_refresh env fuel c w selected snapshot c1 w1 hsel href hsnap,
    ?_, hv, ?_, ?_, ?_⟩
  · rw [hsplit, List.foldl_append, List.foldl_cons,
      foldl_processStatusValue_other_key env key post _ hother]
    exact hx
  · intro hp; rw [hv]; unfold ParseFloat; rw [hp]
  · intro hp; rw [hv]; unfold ParseFloat; rw [hp]; rfl
  · intro hp; rw [hv]; unfold ParseFloat; rw [hp]; rfl

/-- A pH entry with an empty center value next to a temperature of 25.5:
the empty string is not a number, the set holds `PH` with value 0 and the
fetch reports no error. -/
theorem GetMeasurements_unparseable_value_witness :
    (sampleEnv (sampleUnit [sampleValue "WATER_TEMPERATURE" "25.5", sampleValue "PH" ""])).parseFloat
        (sampleValue "PH" "").CenterValue = Parsed.malformed ∧
    ∃ m w2 x,
      GetMeasurements
          (sampleEnv (sampleUnit [sampleValue "WATER_TEMPERATURE" "25.5", sampleValue "PH" ""]))
          1 sampleClient World.init
        = some (Res.ok m,
            { token := "token-0123456789", unitList := none,
              selectedUnit := some
                (sampleUnit [sampleValue "WATER_TEMPERATURE" "25.5", sampleValue "PH" ""]) },
            w2) ∧
      m.get "PH" = some x ∧ x.Value = 0 :=
  ⟨rfl,
    (GetMeasurements_unparseable_value
      (sampleEnv (sampleUnit [sampleValue "WATER_TEMPERATURE" "25.5", sampleValue "PH" ""]))
      1 sampleClient World.init (sampleUnit [])
      (sampleUnit [sampleValue "WATER_TEMPERATURE" "25.5", sampleValue "PH" ""]) _ _
      [sampleValue "WATER_TEMPERATURE" "25.5"] [] (sampleValue "PH" "") "PH"
      rfl rfl rfl rfl (fun x hx => by cases hx) (Or.inr (Or.inl ⟨rfl, rfl⟩))).imp
      (fun _ hm => hm.imp (fun _ hw => hw.imp (fun _ hx => ⟨hx.1, hx.2.1, hx.2.2.2.1 rfl⟩)))⟩

/-! ## The cached serial number is never empty -/

/-- The call `Login` leaves the selection. -/
theorem Login_selectedUnit (env : Env) (c : AsekoClient) (w : World) :
    (Login env c w).2.1.selectedUnit = c.selectedUnit := by
  unfold Login
  dsimp only
  repeat' split
  all_goals rfl

/-- The call `fetchUnitList` leaves the selection. -/
theorem fetchUnitList_selectedUnit (env : Env) (c : AsekoClient) (w : World) :
    (fetchUnitList env c w).2.1.selectedUnit = c.selectedUnit := by
  unfold fetchUnitList
  dsimp only
  repeat' split
  all_goals rfl

/-- The retry query caches a response only when its serial is non-empty. -/
theorem selectUnitAfterReconnect_serial (env : Env) (sn : String) (c : AsekoClient) (w : World)
    (hc : serialNonEmpty c) : serialNonEmpty (selectUnitAfterReconnect env sn c w).2.1 := by
  unfold selectUnitAfterReconnect
  dsimp only
  repeat' split
  all_goals first
    | exact hc
    | (intro u hu
       simp only [Option.some.injEq] at hu
       subst hu
       assumption)

/-- The body of `Initialize` keeps the cached serial non-empty when the
selection it calls does. -/
theorem InitializeWith_serial (env : Env)
    (select : String → AsekoClient → World → Option (Step Unit))
    (hsel : ∀ sn c w r, serialNonEmpty c → select sn c w = some r → serialNonEmpty r.2.1)
    (c : AsekoClient) (w : World) (r : Step Unit) (hc : serialNonEmpty c)
    (h : InitializeWith env select c w = some r) : serialNonEmpty r.2.1 := by
  unfold InitializeWith at h
  have hL : serialNonEmpty (Login env c w).2.1 := by
    intro u hu; rw [Login_selectedUnit] at hu; exact hc u hu
  split at h
  · rename_i e c1 w1 hl
    rw [hl] at hL; cases h; exact hL
  · rename_i c1 w1 hl
    rw [hl] at hL; cases h; exact hL
  · rename_i u c1 w1 hl
    rw [hl] at hL
    have hF : serialNonEmpty (fetchUnitList env c1 w1).2.1 := by
      intro u hu; rw [fetchUnitList_selectedUnit] at hu; exact hL u hu
    split at h
    · rename_i e c2 w2 hf
      rw [hf] at hF; cases h; exact hF
    · rename_i c2 w2 hf
      rw [hf] at hF; cases h; exact hF
    · rename_i u2 c2 w2 hf
      rw [hf] at hF
      have h2 : serialNonEmpty c2 := hF
      split at h
      · cases h; exact h2
      · split at h
        · cases h; exact h2
        · rename_i first rest hu
          simp only [] at h
          split at h
          · cases h
          · rename_i c3 w3 hs
            cases h; exact hsel _ _ _ _ h2 hs
          · rename_i c3 w3 hs
            cases h; exact hsel _ _ _ _ h2 hs
          · rename_i e c3 w3 hs
            have h3 : serialNonEmpty c3 := hsel _ _ _ _ h2 hs
            have hL2 : serialNonEmpty (Login env c3 w3).2.1 := by
              intro u hu; rw [Login_selectedUnit] at hu; exact h3 u hu
            split at h
            · rename_i e4 c4 w4 hl4
              rw [hl4] at hL2; cases h; exact hL2
            · rename_i c4 w4 hl4
              rw [hl4] at hL2; cases h; exact hL2
            · rename_i u4 c4 w4 hl4
              rw [hl4] at hL2
              have h4 : serialNonEmpty c4 := hL2
              split at h
              · cases h
              · rename_i c5 w5 hs5
                cases h; exact hsel _ _ _ _ h4 hs5
              · rename_i c5 w5 hs5
                cases h; exact hsel _ _ _ _ h4 hs5
              · rename_i e5 c5 w5 hs5
                have h5 := hsel _ _ _ _ h4 hs5
                cases h; exact h5

/-- The call `SelectUnit` keeps the cached serial non-empty. -/
theorem SelectUnit_serial (env : Env) :
    ∀ (fuel : Nat) (sn : String) (c : AsekoClient) (w : World) (r : Step Unit),
      serialNonEmpty c → SelectUnit env fuel sn c w = some r → serialNonEmpty r.2.1 := by
  intro fuel
  induction fuel with
  | zero => intro sn c w r _ h; simp [SelectUnit] at h
  | succ n ih =>
    intro sn c w r hc h
    rw [SelectUnit] at h
    split at h
    · cases h; exact hc
    · cases h; exact hc
    · cases h; exact hc
    · rename_i unitResp hd
      split at h
      · split at h
        · cases h
        · rename_i e c2 w2 hi
          have h2 := InitializeWith_serial env _ ih _ _ _ hc hi
          cases h
          exact h2
        · rename_i c2 w2 hi
          cases h
          exact InitializeWith_serial env _ ih _ _ _ hc hi
        · rename_i u c2 w2 hi
          cases h
          exact selectUnitAfterReconnect_serial env sn c2 w2
            (InitializeWith_serial env _ ih _ _ _ hc hi)
      · rename_i hserial
        repeat' split at h
        all_goals first
          | (cases h; exact hc)
          | (cases h
             intro u hu
             simp only [Option.some.injEq] at hu
             subst hu
             exact hserial)

/-- The call `GetMeasurements` keeps the cached serial non-empty. -/
theorem GetMeasurements_serial (env : Env) (fuel : Nat) (c : AsekoClient) (w : World)
    (r : Step MeasurementMap) (hc : serialNonEmpty c)
    (h : GetMeasurements env fuel c w = some r) : serialNonEmpty r.2.1 := by
  unfold GetMeasurements at h
  split at h
  · cases h; exact hc
  · split at h
    · cases h
    · rename_i hs; cases h; exact SelectUnit_serial env _ _ _ _ _ hc hs
    · rename_i hs; cases h; exact SelectUnit_serial env _ _ _ _ _ hc hs
    · rename_i hs
      split at h
      · cases h; exact SelectUnit_serial env _ _ _ _ _ hc hs
      · cases h; exact SelectUnit_serial env _ _ _ _ _ hc hs

/-- The first request of `GetMeasurements` on a client with a selection is
the detail query for the cached serial. -/
theorem GetMeasurements_first_request (env : Env) (fuel : Nat) (c : AsekoClient) (w : World)
    (selected : UnitResponse) (r : Step MeasurementMap)
    (hsel : c.selectedUnit = some selected) (h : GetMeasurements env fuel c w = some r) :
    ∃ rest, r.2.2.requests
      = w.requests ++ Request.unitDetail c.token selected.SerialNumber :: rest := by
  unfold GetMeasurements at h
  rw [hsel] at h
  dsimp only at h
  split at h
  · cases h
  · rename_i hs; cases h; exact SelectUnit_requests env _ _ _ _ _ hs
  · rename_i hs; cases h; exact SelectUnit_requests env _ _ _ _ _ hs
  · rename_i hs
    have hq := SelectUnit_requests env _ _ _ _ _ hs
    split at h
    · cases h; exact hq
    · cases h
      obtain ⟨rest, hrest⟩ := hq
      exact ⟨rest, by rw [foldl_processStatusValue_requests]; exact hrest⟩

/-- C27: in every state reached from a freshly constructed client by calls
of `Login`, `fetchUnitList`, `SelectUnit`, `Initialize` and
`GetMeasurements` that return, a selected unit has a non-empty cached
serial number; hence a `GetMeasurements` call in such a state opens with
the detail query for a non-empty serial. -/
theorem Reachable_serial_nonempty (env : Env) (c : AsekoClient) (w : World)
    (hreach : Reachable env c w) :
    (∀ u, c.selectedUnit = some u → u.SerialNumber ≠ "") ∧
    (∀ (fuel : Nat) (u : UnitResponse) (r : Step MeasurementMap),
      c.selectedUnit = some u → GetMeasurements env fuel c w = some r →
      u.SerialNumber ≠ "" ∧
      ∃ rest, r.2.2.requests = w.requests ++ Request.unitDetail c.token u.SerialNumber :: rest) := by
  have hinv : serialNonEmpty c := by
    induction hreach with
    | fresh w => intro u hu; simp [NewAsekoClient] at hu
    | login r _ hr ih =>
      subst hr
      intro u hu; rw [Login_selectedUnit] at hu; exact ih u hu
    | fetchUnitList r _ hr ih =>
      subst hr
      intro u hu; rw [fetchUnitList_selectedUnit] at hu; exact ih u hu
    | selectUnit fuel sn r _ hr ih => exact SelectUnit_serial env _ _ _ _ _ ih hr
    | reinit fuel r _ hr ih =>
      exact InitializeWith_serial env _ (SelectUnit_serial env fuel) _ _ _ ih hr
    | getMeasurements fuel r _ hr ih => exact GetMeasurements_serial env _ _ _ _ ih hr
  exact ⟨hinv, fun fuel u r hu hr =>
    ⟨hinv u hu, GetMeasurements_first_request env fuel c w u r hu hr⟩⟩

/-- A fresh client is initialised against a server that lists `SN1`: the
state reached has `SN1` selected, and the statement of C27 holds there. -/
theorem Reachable_serial_nonempty_witness :
    Initialize (sampleEnv (sampleUnit [])) 1 NewAsekoClient World.init
      = some (Res.ok (),
          { token := "token-0123456789",
            unitList := some { Units := [{ SerialNumber := "SN1", Name := "pool", Online := true }] },
            selectedUnit := some (sampleUnit []) },
          { requests := [Request.login, Request.unitList "token-0123456789",
              Request.unitDetail "token-0123456789" "SN1"],
            ticks := 0, emails := [], trace := [] }) ∧
    (sampleUnit []).SerialNumber = "SN1" ∧
    ((∀ u, (some (sampleUnit []) : Option UnitResponse) = some u → u.SerialNumber ≠ "") ∧
      ∀ (fuel : Nat) (u : UnitResponse) (r : Step MeasurementMap),
        (some (sampleUnit []) : Option UnitResponse) = some u →
        GetMeasurements (sampleEnv (sampleUnit [])) fuel
            { token := "token-0123456789",
              unitList := some
                { Units := [{ SerialNumber := "SN1", Name := "pool", Online := true }] },
              selectedUnit := some (sampleUnit []) }
            { requests := [Request.login, Request.unitList "token-0123456789",
                Request.unitDetail "token-0123456789" "SN1"],
              ticks := 0, emails := [], trace := [] } = some r →
        u.SerialNumber ≠ "" ∧
        ∃ rest, r.2.2.requests
          = [Request.login, Request.unitList "token-0123456789",
              Request.unitDetail "token-0123456789" "SN1"]
            ++ Request.unitDetail "token-0123456789" u.SerialNumber :: rest) :=
  ⟨rfl, rfl, Reachable_serial_nonempty (sampleEnv (sampleUnit []))
    { token := "token-0123456789",
      unitList := some { Units := [{ SerialNumber := "SN1", Name := "pool", Online := true }] },
      selectedUnit := some (sampleUnit []) }
    { requests := [Request.login, Request.unitList "token-0123456789",
        Request.unitDetail "token-0123456789" "SN1"],
      ticks := 0, emails := [], trace := [] }
    (Reachable.reinit 1
      (Res.ok (),
        { token := "token-0123456789",
          unitList := some { Units := [{ SerialNumber := "SN1", Name := "pool", Online := true }] },
          selectedUnit := some (sampleUnit []) },
        { requests := [Request.login, Request.unitList "token-0123456789",
            Request.unitDetail "token-0123456789" "SN1"],
          ticks := 0, emails := [], trace := [] })
      (Reachable.fresh World.init) rfl)⟩

end MyHomeApp
